import Mathlib

/-!
# Boids flocking simulation (`src/boids.c`): shallow embedding

The C program stores every quantity as a `float`.  The file holds two
embeddings of it.

The first reads each `float` as a real number and each `float` operation as
the exact real operation (`sqrtf` is `Real.sqrt`).  It serves the statements
whose truth does not depend on rounding: the order of the phases, the frame of
the rules, the neighbour counts, the push of `avoid_walls`.

The second, in the namespace `Single`, has the same records, arrays and loops
and rounds the result of every `float` operation with `binary32`: IEEE 754
single precision, round to nearest, ties to even, with gradual underflow.
Overflow, infinities and NaN are outside the model.  It serves the statements
that depend on what the program computes: which boids pass a threshold test,
and the value of a heading.

Because `Real.sqrt` and the order on the reals carry no algorithm, the
definitions sit in a `noncomputable section`; concrete inputs are evaluated by
rewriting, every rounding being checked against the definition of `binary32`.

The dynamic array `Boids` (`ut_da_declare(Boid)`) is a `List Boid`;
`ut_da_push` appends at the end, `items[i]` is positional access, and
`count` is the length.  A `for (i = 0; i < n; i++)` loop is `loop body n`.
The three rules update the array in place: an iteration takes the current
collection and returns the next one, so a later iteration sees the headings
written by the earlier ones.  No rule changes `count`, so the bound of each
loop is the length at entry.  `GetScreenWidth()`, `GetScreenHeight()` and the
values drawn by `GetRandomValue` are inputs of the functions that read them.

The functions of `raymath.h` and `raylib.h` that the program calls are
transcribed from the library: `Vector2Normalize` returns the zero vector
when the length is not positive, and `CheckCollisionCircles` accepts
touching circles (`<=`).
-/

namespace BoidsSim

noncomputable section

/-! ## raymath / raylib -/

/-- The raylib record `Vector2` with two `float` fields. -/
@[ext]
structure Vector2 where
  x : ℝ
  y : ℝ

/-- The record `Boid` of `boids.c`, lines 11-15. -/
@[ext]
structure Boid where
  center : Vector2
  direction : Vector2
  speed : ℝ

/-- The dynamic array `Boids` of `boids.c`, line 17. -/
abbrev Boids := List Boid

/-- Value of a zero-initialised `Vector2`, as in `Vector2 v = {0}`. -/
def Vector2Zero : Vector2 := ⟨0, 0⟩

instance : Inhabited Vector2 := ⟨Vector2Zero⟩

instance : Inhabited Boid := ⟨⟨Vector2Zero, Vector2Zero, 0⟩⟩

/-- The raymath sum of two vectors. -/
def Vector2Add (v1 v2 : Vector2) : Vector2 := ⟨v1.x + v2.x, v1.y + v2.y⟩

/-- The raymath difference of two vectors. -/
def Vector2Subtract (v1 v2 : Vector2) : Vector2 := ⟨v1.x - v2.x, v1.y - v2.y⟩

/-- The raymath product of a vector with a scalar. -/
def Vector2Scale (v : Vector2) (scale : ℝ) : Vector2 := ⟨v.x * scale, v.y * scale⟩

/-- The raymath length `sqrtf(x*x + y*y)`. -/
def Vector2Length (v : Vector2) : ℝ := Real.sqrt (v.x * v.x + v.y * v.y)

/-- The raymath distance between two points. -/
def Vector2Distance (v1 v2 : Vector2) : ℝ :=
  Real.sqrt ((v1.x - v2.x) * (v1.x - v2.x) + (v1.y - v2.y) * (v1.y - v2.y))

/-- The raymath normalisation: the result stays zero unless the length is
positive, in which case both components are multiplied by `1/length`. -/
def Vector2Normalize (v : Vector2) : Vector2 :=
  let length := Real.sqrt (v.x * v.x + v.y * v.y)
  if length > 0 then
    let ilength := 1 / length
    ⟨v.x * ilength, v.y * ilength⟩
  else ⟨0, 0⟩

/-- The raymath linear interpolation `v1 + amount*(v2 - v1)`. -/
def Vector2Lerp (v1 v2 : Vector2) (amount : ℝ) : Vector2 :=
  ⟨v1.x + amount * (v2.x - v1.x), v1.y + amount * (v2.y - v1.y)⟩

/-- The raylib circle overlap test: squared distance of the centres against
the squared sum of the radii, touching circles included. -/
def CheckCollisionCircles (center1 : Vector2) (radius1 : ℝ) (center2 : Vector2)
    (radius2 : ℝ) : Bool :=
  let dx := center2.x - center1.x
  let dy := center2.y - center1.y
  let distanceSquared := dx * dx + dy * dy
  let radiusSum := radius1 + radius2
  decide (distanceSquared ≤ radiusSum * radiusSum)

/-! ## Arrays and loops -/

/-- Positional access `bs->items[i]`.  The program reads positions below `count`
only; outside that range the default boid stands in. -/
def items (bs : Boids) (i : Nat) : Boid := bs.getD i default

/-- The loop `for (i = 0; i < n; i++) s = body(i, s)`. -/
def loop {σ : Type} (body : Nat → σ → σ) : Nat → σ → σ
  | 0, s => s
  | k + 1, s => body k (loop body k s)

/-! ## boids.c -/

/-- Line 19. -/
def TRIANGLE_SIZE : ℝ := 20

/-- Line 20. -/
def BOID_RADIUS : ℝ := TRIANGLE_SIZE * 6

/-- Lines 22-29; `rx` and `ry` are the two values drawn by `GetRandomValue`. -/
def random_direction (rx ry : ℤ) : Vector2 :=
  let d : Vector2 := ⟨(rx : ℝ), (ry : ℝ)⟩
  Vector2Normalize d

/-- Lines 40-46 of `avoid_walls`: the push vector `steer`; `W` and `H` are the
values of `GetScreenWidth()` and `GetScreenHeight()`. -/
def avoid_walls_steer (W H : ℤ) (b : Boid) : Vector2 :=
  let base_distance : ℝ := 50
  let lookahead_factor : ℝ := 5
  let steer_base : ℝ := 0.155
  let lookahead := base_distance + b.speed * lookahead_factor
  let steer_strength := steer_base * (b.speed / 3)
  let steer : Vector2 := ⟨0, 0⟩
  let steer : Vector2 :=
    if b.center.x < lookahead then ⟨steer.x + steer_strength, steer.y⟩
    else if b.center.x > (W : ℝ) - lookahead then ⟨steer.x - steer_strength, steer.y⟩
    else steer
  let steer : Vector2 :=
    if b.center.y < lookahead then ⟨steer.x, steer.y + steer_strength⟩
    else if b.center.y > (H : ℝ) - lookahead then ⟨steer.x, steer.y - steer_strength⟩
    else steer
  steer

/-- Lines 31-50. -/
def avoid_walls (W H : ℤ) (b : Boid) : Boid :=
  let steer := avoid_walls_steer W H b
  if Vector2Length steer > 0 then
    { b with direction := Vector2Normalize (Vector2Add b.direction steer) }
  else b

/-- Lines 52-56. -/
def steer_boid_towards_direction (b : Boid) (d : Vector2) : Boid :=
  let steer_factor : ℝ := 0.1
  { b with direction := Vector2Normalize (Vector2Lerp b.direction d steer_factor) }

/-- Lines 58-67. -/
def local_neighbours (bs : Boids) (index_b : Nat) : Boids :=
  loop (fun i neighbours =>
    if i = index_b then neighbours
    else if CheckCollisionCircles (items bs index_b).center BOID_RADIUS
        (items bs i).center BOID_RADIUS then
      neighbours ++ [items bs i]
    else neighbours) bs.length []

/-- Lines 85-86 of `alignment`: the sum of the neighbours' directions. -/
def alignment_sum (lbs : Boids) : Vector2 :=
  loop (fun j d => Vector2Add d (items lbs j).direction) lbs.length Vector2Zero

/-- Lines 76-90: one iteration of the loop of `alignment`. -/
def alignment_body (i : Nat) (bs : Boids) : Boids :=
  let lbs := local_neighbours bs i
  if lbs.length < 2 then bs
  else
    let d := alignment_sum lbs
    let d := Vector2Normalize d
    bs.set i (steer_boid_towards_direction (items bs i) d)

/-- Lines 69-92. -/
def alignment (bs : Boids) : Boids :=
  if bs.length < 2 then bs else loop alignment_body bs.length bs

/-- Lines 113-124 of `separation`: what one neighbour does to the pair
(`closest_neighbours`, `d`). -/
def separation_accum (center : Vector2) (n : Boid) (acc : Boids × Vector2) :
    Boids × Vector2 :=
  let min_distance_threshold := BOID_RADIUS / 3
  let distance := Vector2Distance center n.center
  if distance < min_distance_threshold ∧ distance > 0 then
    let diff := Vector2Subtract center n.center
    let diff := Vector2Normalize diff
    let strength := (min_distance_threshold - distance) / min_distance_threshold
    let diff := Vector2Scale diff strength
    (acc.1 ++ [n], Vector2Add acc.2 diff)
  else acc

/-- Lines 108-125 of `separation`: the loop over the neighbours. -/
def separation_close (center : Vector2) (lbs : Boids) : Boids × Vector2 :=
  loop (fun j acc => separation_accum center (items lbs j) acc) lbs.length
    ([], Vector2Zero)

/-- Lines 100-139: one iteration of the loop of `separation`. -/
def separation_body (i : Nat) (bs : Boids) : Boids :=
  let lbs := local_neighbours bs i
  if lbs.length < 2 then bs
  else
    let acc := separation_close (items bs i).center lbs
    let closest_neighbours := acc.1
    let d := acc.2
    if closest_neighbours.length > 0 then
      let d := Vector2Scale d (1 / (closest_neighbours.length : ℝ))
      let d := Vector2Normalize d
      let steer_factor := 0.1 * ((items bs i).speed / 3)
      bs.set i { items bs i with
        direction := Vector2Normalize (Vector2Lerp (items bs i).direction d steer_factor) }
    else bs

/-- Lines 94-141. -/
def separation (bs : Boids) : Boids :=
  if bs.length < 2 then bs else loop separation_body bs.length bs

/-- Lines 155-158 of `cohesion`: the sum of the neighbours' positions. -/
def cohesion_sum (lbs : Boids) : Vector2 :=
  loop (fun j average_pos => Vector2Add average_pos (items lbs j).center) lbs.length
    Vector2Zero

/-- Lines 155-163 of `cohesion`: the desired direction of a boid at `center`
with neighbours `lbs`. -/
def cohesion_desired (center : Vector2) (lbs : Boids) : Vector2 :=
  let average_pos := cohesion_sum lbs
  let average_pos := Vector2Scale average_pos (1 / (lbs.length : ℝ))
  let desired := Vector2Subtract average_pos center
  Vector2Normalize desired

/-- Lines 148-171: one iteration of the loop of `cohesion`. -/
def cohesion_body (i : Nat) (bs : Boids) : Boids :=
  let lbs := local_neighbours bs i
  if lbs.length < 1 then bs
  else
    let desired := cohesion_desired (items bs i).center lbs
    let steer_factor := 0.05 * ((items bs i).speed / 3)
    bs.set i { items bs i with
      direction := Vector2Normalize (Vector2Lerp (items bs i).direction desired steer_factor) }

/-- Lines 143-173. -/
def cohesion (bs : Boids) : Boids :=
  if bs.length < 2 then bs else loop cohesion_body bs.length bs

/-- Lines 210-212 of `main`: boundary avoidance and integration of boid `i`. -/
def integrate_body (W H : ℤ) (i : Nat) (bs : Boids) : Boids :=
  let bs := bs.set i (avoid_walls W H (items bs i))
  let velocity := Vector2Scale (items bs i).direction (items bs i).speed
  bs.set i { items bs i with center := Vector2Add (items bs i).center velocity }

/-- Lines 205-213 of `main`: one simulation step in a `W` by `H` window. -/
def step (W H : ℤ) (bs : Boids) : Boids :=
  let bs := separation bs
  let bs := alignment bs
  let bs := cohesion bs
  loop (integrate_body W H) bs.length bs

/-- Lines 198-202 of `main`: a spawn at the mouse position `pos`, with the
three values `rx`, `ry`, `rs` drawn by `GetRandomValue`. -/
def spawn (bs : Boids) (pos : Vector2) (rx ry rs : ℤ) : Boids :=
  bs ++ [{ center := pos, direction := random_direction rx ry, speed := (rs : ℝ) }]

/-! ## Concrete collections -/

/-- Two boids whose centres are exactly `2 * BOID_RADIUS = 240` apart. -/
def touching_pair : Boids :=
  [⟨⟨0, 0⟩, ⟨1, 0⟩, 3⟩, ⟨⟨240, 0⟩, ⟨0, 1⟩, 4⟩]

/-! ## Auxiliary notions used by the statements -/

/-- Lines 210-212 of `main` on one boid: boundary avoidance, then the move by
`direction * speed`. -/
def avoid_and_move (W H : ℤ) (b : Boid) : Boid :=
  let b := avoid_walls W H b
  let velocity := Vector2Scale b.direction b.speed
  { b with center := Vector2Add b.center velocity }

/-- The collection `cs` is `bs` except possibly for the heading of boid `i`. -/
def HeadingWrite (bs : Boids) (i : Nat) (cs : Boids) : Prop :=
  ∃ d : Vector2, cs = bs.set i { items bs i with direction := d }

/-- Same number of boids, and position by position the same centre and speed. -/
def SameFrame (bs cs : Boids) : Prop :=
  cs.length = bs.length ∧
    ∀ j, (items cs j).center = (items bs j).center ∧ (items cs j).speed = (items bs j).speed

/-- A heading of length one and a speed between 3 and 5. -/
def WellFormed (b : Boid) : Prop :=
  Vector2Length b.direction = 1 ∧ 3 ≤ b.speed ∧ b.speed ≤ 5

/-- Every centre lies in the `W` by `H` window enlarged by `m` on each side;
`m = 0` is the window itself. -/
def WithinMargin (W H : ℤ) (m : ℝ) (bs : Boids) : Prop :=
  ∀ b ∈ bs, -m ≤ b.center.x ∧ b.center.x ≤ (W : ℝ) + m ∧
    -m ≤ b.center.y ∧ b.center.y ≤ (H : ℝ) + m

/-- One boid inside the 1600 by 900 window, two units from the left edge and
heading straight at it. -/
def edge_boid : Boids :=
  [⟨⟨2, 450⟩, ⟨-1, 0⟩, 3⟩]

/-- Three boids within `BOID_RADIUS` of one another in the middle of the 1600 by
900 window, with headings right, up and left. -/
def cluster : Boids :=
  [⟨⟨800, 450⟩, ⟨1, 0⟩, 3⟩, ⟨⟨850, 450⟩, ⟨0, 1⟩, 4⟩, ⟨⟨800, 500⟩, ⟨-1, 0⟩, 5⟩]

/-- The arithmetic mean of the centres of the boids in `lbs` (the centroid of
the spec), written with sums and a division by the count. -/
def centroid (lbs : Boids) : Vector2 :=
  ⟨(lbs.map (fun n => n.center.x)).sum / (lbs.length : ℝ),
   (lbs.map (fun n => n.center.y)).sum / (lbs.length : ℝ)⟩

/-- Three boids at `(0,0)`, `(2,0)` and `(0,2)`. -/
def triangle : Boids :=
  [⟨⟨0, 0⟩, ⟨1, 0⟩, 3⟩, ⟨⟨2, 0⟩, ⟨0, 1⟩, 3⟩, ⟨⟨0, 2⟩, ⟨-1, 0⟩, 3⟩]

/-- Two boids whose centres are exactly `BOID_RADIUS / 3 = 40` apart. -/
def pair_at_threshold : Boids :=
  [⟨⟨0, 0⟩, ⟨1, 0⟩, 3⟩, ⟨⟨40, 0⟩, ⟨0, 1⟩, 4⟩]

/-- Two boids ten apart with the same heading. -/
def aligned_pair : Boids :=
  [⟨⟨0, 0⟩, ⟨1, 0⟩, 3⟩, ⟨⟨10, 0⟩, ⟨1, 0⟩, 4⟩]

/-- Three boids; the first has the other two as neighbours, each exactly
`BOID_RADIUS / 3 = 40` away from it. -/
def trio_at_threshold : Boids :=
  [⟨⟨0, 0⟩, ⟨1, 0⟩, 3⟩, ⟨⟨40, 0⟩, ⟨0, 1⟩, 4⟩, ⟨⟨0, 40⟩, ⟨-1, 0⟩, 5⟩]

/-- A boid on the left edge of the window (`x = 0`), heading straight out of it. -/
def left_edge_boid : Boid :=
  ⟨⟨0, 450⟩, ⟨-1, 0⟩, 3⟩

/-- Two boids ten apart (closer than `BOID_RADIUS / 3 = 40`), both heading `(1, 0)`. -/
def close_pair : Boids :=
  [⟨⟨0, 0⟩, ⟨1, 0⟩, 3⟩, ⟨⟨0, 10⟩, ⟨1, 0⟩, 3⟩]

/-- The neighbours that repel a boid at `c`, in the words of the spec: those at
a distance strictly between `0` and `T = 40`, in order. -/
def close_neighbours (c : Vector2) (lbs : Boids) : Boids :=
  lbs.filter (fun n =>
    decide (0 < Vector2Distance c n.center ∧ Vector2Distance c n.center < 40))

/-- The repulsion that the neighbour `n` contributes to a boid at `c`, in the
words of the spec: the unit vector from `n` towards `c`, scaled by
`(T - distance) / T` with `T = 40`. -/
def repulsion (c : Vector2) (n : Boid) : Vector2 :=
  Vector2Scale (Vector2Normalize (Vector2Subtract c n.center))
    ((40 - Vector2Distance c n.center) / 40)

/-- The average of the repulsions of the close neighbours, written with list
sums and a division by their number. -/
def repulsion_average (c : Vector2) (lbs : Boids) : Vector2 :=
  ⟨((close_neighbours c lbs).map (fun n => (repulsion c n).x)).sum
      / ((close_neighbours c lbs).length : ℝ),
   ((close_neighbours c lbs).map (fun n => (repulsion c n).y)).sum
      / ((close_neighbours c lbs).length : ℝ)⟩

/-- Three boids; the first has the other two as neighbours, at distances 10 and 20. -/
def crowded : Boids :=
  [⟨⟨0, 0⟩, ⟨1, 0⟩, 3⟩, ⟨⟨10, 0⟩, ⟨0, 1⟩, 3⟩, ⟨⟨0, 20⟩, ⟨0, 1⟩, 3⟩]

/-- The simultaneous reading of a pass: position `i` receives what iteration `i`
of the loop stores there when it is run on the collection as it was before the
pass, so no iteration sees what another one wrote. -/
def simultaneous (body : Nat → Boids → Boids) (bs : Boids) : Boids :=
  (List.range bs.length).map (fun i => items (body i bs) i)

/-- Rounding of a real to the nearest integer, ties to the even one. -/
def round_half_even (y : ℝ) : ℤ :=
  if y - ⌊y⌋ < 1 / 2 then ⌊y⌋
  else if 1 / 2 < y - ⌊y⌋ then ⌊y⌋ + 1
  else if ⌊y⌋ % 2 = 0 then ⌊y⌋ else ⌊y⌋ + 1

/-- The exponent of the unit in the last place of the binary32 numbers around
`x`: 24 significant bits, and `2 ^ (-149)` for the subnormal range. -/
def ulp_exponent (x : ℝ) : ℤ := max (Int.log 2 |x| - 23) (-149)

/-- The value of a C `float` expression whose exact value is `x`: IEEE 754
binary32 rounding to nearest, ties to even, with gradual underflow.  Overflow
to infinity is outside the model. -/
def binary32 (x : ℝ) : ℝ :=
  (round_half_even (x / (2 : ℝ) ^ ulp_exponent x) : ℝ) * (2 : ℝ) ^ ulp_exponent x

/-! ## The program in single precision

The functions of `boids.c` and of raymath once more, now with every `float`
operation rounded by `binary32`.  Records, arrays and loops are those of the
exact embedding above; only the arithmetic differs.  Literals that are binary32
numbers (`50.0f`, `3.0f`, ...) are written as they are; `0.155f`, `0.1f` and
`0.05f` are the roundings of the decimal fractions. -/

namespace Single

/-- The C sum `a + b` of two `float`s. -/
def fadd (a b : ℝ) : ℝ := binary32 (a + b)

/-- The C difference `a - b` of two `float`s. -/
def fsub (a b : ℝ) : ℝ := binary32 (a - b)

/-- The C product `a * b` of two `float`s. -/
def fmul (a b : ℝ) : ℝ := binary32 (a * b)

/-- The C quotient `a / b` of two `float`s. -/
def fdiv (a b : ℝ) : ℝ := binary32 (a / b)

/-- The C library `sqrtf`, correctly rounded. -/
def sqrtf (a : ℝ) : ℝ := binary32 (Real.sqrt a)

/-- The raymath sum of two vectors. -/
def Vector2Add (v1 v2 : Vector2) : Vector2 := ⟨fadd v1.x v2.x, fadd v1.y v2.y⟩

/-- The raymath difference of two vectors. -/
def Vector2Subtract (v1 v2 : Vector2) : Vector2 := ⟨fsub v1.x v2.x, fsub v1.y v2.y⟩

/-- The raymath product of a vector with a scalar. -/
def Vector2Scale (v : Vector2) (scale : ℝ) : Vector2 := ⟨fmul v.x scale, fmul v.y scale⟩

/-- The raymath length `sqrtf((v.x*v.x) + (v.y*v.y))`. -/
def Vector2Length (v : Vector2) : ℝ := sqrtf (fadd (fmul v.x v.x) (fmul v.y v.y))

/-- The raymath distance
`sqrtf((v1.x - v2.x)*(v1.x - v2.x) + (v1.y - v2.y)*(v1.y - v2.y))`. -/
def Vector2Distance (v1 v2 : Vector2) : ℝ :=
  sqrtf (fadd (fmul (fsub v1.x v2.x) (fsub v1.x v2.x))
    (fmul (fsub v1.y v2.y) (fsub v1.y v2.y)))

/-- The raymath normalisation: the result stays zero unless the computed length
is positive, in which case both components are multiplied by `1.0f/length`. -/
def Vector2Normalize (v : Vector2) : Vector2 :=
  let length := sqrtf (fadd (fmul v.x v.x) (fmul v.y v.y))
  if length > 0 then
    let ilength := fdiv 1 length
    ⟨fmul v.x ilength, fmul v.y ilength⟩
  else ⟨0, 0⟩

/-- The raymath linear interpolation `v1 + amount*(v2 - v1)`. -/
def Vector2Lerp (v1 v2 : Vector2) (amount : ℝ) : Vector2 :=
  ⟨fadd v1.x (fmul amount (fsub v2.x v1.x)), fadd v1.y (fmul amount (fsub v2.y v1.y))⟩

/-- The raylib circle overlap test, touching circles included. -/
def CheckCollisionCircles (center1 : Vector2) (radius1 : ℝ) (center2 : Vector2)
    (radius2 : ℝ) : Bool :=
  let dx := fsub center2.x center1.x
  let dy := fsub center2.y center1.y
  let distanceSquared := fadd (fmul dx dx) (fmul dy dy)
  let radiusSum := fadd radius1 radius2
  decide (distanceSquared ≤ fmul radiusSum radiusSum)

/-- Line 20: `TRIANGLE_SIZE * 6`. -/
def BOID_RADIUS : ℝ := fmul TRIANGLE_SIZE 6

/-- Lines 22-29; `rx` and `ry` are the two values drawn by `GetRandomValue`,
converted to `float`. -/
def random_direction (rx ry : ℤ) : Vector2 :=
  let d : Vector2 := ⟨binary32 (rx : ℝ), binary32 (ry : ℝ)⟩
  Vector2Normalize d

/-- Lines 33-46 of `avoid_walls`: the push vector `steer`. -/
def avoid_walls_steer (W H : ℤ) (b : Boid) : Vector2 :=
  let base_distance : ℝ := 50
  let lookahead_factor : ℝ := 5
  let steer_base : ℝ := binary32 0.155
  let lookahead := fadd base_distance (fmul b.speed lookahead_factor)
  let steer_strength := fmul steer_base (fdiv b.speed 3)
  let steer : Vector2 := ⟨0, 0⟩
  let steer : Vector2 :=
    if b.center.x < lookahead then ⟨fadd steer.x steer_strength, steer.y⟩
    else if b.center.x > fsub (binary32 (W : ℝ)) lookahead then
      ⟨fsub steer.x steer_strength, steer.y⟩
    else steer
  let steer : Vector2 :=
    if b.center.y < lookahead then ⟨steer.x, fadd steer.y steer_strength⟩
    else if b.center.y > fsub (binary32 (H : ℝ)) lookahead then
      ⟨steer.x, fsub steer.y steer_strength⟩
    else steer
  steer

/-- Lines 31-50. -/
def avoid_walls (W H : ℤ) (b : Boid) : Boid :=
  let steer := avoid_walls_steer W H b
  if Vector2Length steer > 0 then
    { b with direction := Vector2Normalize (Vector2Add b.direction steer) }
  else b

/-- Lines 52-56. -/
def steer_boid_towards_direction (b : Boid) (d : Vector2) : Boid :=
  let steer_factor : ℝ := binary32 0.1
  { b with direction := Vector2Normalize (Vector2Lerp b.direction d steer_factor) }

/-- Lines 58-67. -/
def local_neighbours (bs : Boids) (index_b : Nat) : Boids :=
  loop (fun i neighbours =>
    if i = index_b then neighbours
    else if CheckCollisionCircles (items bs index_b).center BOID_RADIUS
        (items bs i).center BOID_RADIUS then
      neighbours ++ [items bs i]
    else neighbours) bs.length []

/-- Lines 85-86 of `alignment`: the sum of the neighbours' directions. -/
def alignment_sum (lbs : Boids) : Vector2 :=
  loop (fun j d => Vector2Add d (items lbs j).direction) lbs.length Vector2Zero

/-- Lines 76-90: one iteration of the loop of `alignment`. -/
def alignment_body (i : Nat) (bs : Boids) : Boids :=
  let lbs := local_neighbours bs i
  if lbs.length < 2 then bs
  else
    let d := alignment_sum lbs
    let d := Vector2Normalize d
    bs.set i (steer_boid_towards_direction (items bs i) d)

/-- Lines 69-92. -/
def alignment (bs : Boids) : Boids :=
  if bs.length < 2 then bs else loop alignment_body bs.length bs

/-- Lines 113-124 of `separation`: what one neighbour does to the pair
(`closest_neighbours`, `d`). -/
def separation_accum (center : Vector2) (n : Boid) (acc : Boids × Vector2) :
    Boids × Vector2 :=
  let min_distance_threshold := fdiv BOID_RADIUS 3
  let distance := Vector2Distance center n.center
  if distance < min_distance_threshold ∧ distance > 0 then
    let diff := Vector2Subtract center n.center
    let diff := Vector2Normalize diff
    let strength := fdiv (fsub min_distance_threshold distance) min_distance_threshold
    let diff := Vector2Scale diff strength
    (acc.1 ++ [n], Vector2Add acc.2 diff)
  else acc

/-- Lines 108-125 of `separation`: the loop over the neighbours. -/
def separation_close (center : Vector2) (lbs : Boids) : Boids × Vector2 :=
  loop (fun j acc => separation_accum center (items lbs j) acc) lbs.length
    ([], Vector2Zero)

/-- Lines 100-139: one iteration of the loop of `separation`; the count of
close neighbours is converted to `float` for `1.0f / count`. -/
def separation_body (i : Nat) (bs : Boids) : Boids :=
  let lbs := local_neighbours bs i
  if lbs.length < 2 then bs
  else
    let acc := separation_close (items bs i).center lbs
    let closest_neighbours := acc.1
    let d := acc.2
    if closest_neighbours.length > 0 then
      let d := Vector2Scale d (fdiv 1 (binary32 (closest_neighbours.length : ℝ)))
      let d := Vector2Normalize d
      let steer_factor := fmul (binary32 0.1) (fdiv (items bs i).speed 3)
      bs.set i { items bs i with
        direction := Vector2Normalize (Vector2Lerp (items bs i).direction d steer_factor) }
    else bs

/-- Lines 94-141. -/
def separation (bs : Boids) : Boids :=
  if bs.length < 2 then bs else loop separation_body bs.length bs

/-- Lines 155-158 of `cohesion`: the sum of the neighbours' positions. -/
def cohesion_sum (lbs : Boids) : Vector2 :=
  loop (fun j average_pos => Vector2Add average_pos (items lbs j).center) lbs.length
    Vector2Zero

/-- Lines 155-163 of `cohesion`: the desired direction of a boid at `center`
with neighbours `lbs`. -/
def cohesion_desired (center : Vector2) (lbs : Boids) : Vector2 :=
  let average_pos := cohesion_sum lbs
  let average_pos := Vector2Scale average_pos (fdiv 1 (binary32 (lbs.length : ℝ)))
  let desired := Vector2Subtract average_pos center
  Vector2Normalize desired

/-- Lines 148-171: one iteration of the loop of `cohesion`. -/
def cohesion_body (i : Nat) (bs : Boids) : Boids :=
  let lbs := local_neighbours bs i
  if lbs.length < 1 then bs
  else
    let desired := cohesion_desired (items bs i).center lbs
    let steer_factor := fmul (binary32 0.05) (fdiv (items bs i).speed 3)
    bs.set i { items bs i with
      direction := Vector2Normalize (Vector2Lerp (items bs i).direction desired steer_factor) }

/-- Lines 143-173. -/
def cohesion (bs : Boids) : Boids :=
  if bs.length < 2 then bs else loop cohesion_body bs.length bs

/-- Lines 210-212 of `main`: boundary avoidance and integration of boid `i`. -/
def integrate_body (W H : ℤ) (i : Nat) (bs : Boids) : Boids :=
  let bs := bs.set i (avoid_walls W H (items bs i))
  let velocity := Vector2Scale (items bs i).direction (items bs i).speed
  bs.set i { items bs i with center := Vector2Add (items bs i).center velocity }

/-- Lines 205-213 of `main`: one simulation step in a `W` by `H` window. -/
def step (W H : ℤ) (bs : Boids) : Boids :=
  let bs := separation bs
  let bs := alignment bs
  let bs := cohesion bs
  loop (integrate_body W H) bs.length bs

end Single

/-! ## Auxiliary notions for the statements in single precision -/

/-- The mean position as `cohesion` computes it (lines 155-159): the rounded sum
of the centres, from left to right, times the rounded reciprocal of the count. -/
def Single.mean_position (lbs : Boids) : Vector2 :=
  Single.Vector2Scale ((lbs.map (fun n => n.center)).foldl Single.Vector2Add Vector2Zero)
    (Single.fdiv 1 (binary32 (lbs.length : ℝ)))

/-- The neighbours that repel a boid at `c` (line 114): those whose computed
distance is strictly between `0` and `40.0f`, in order. -/
def Single.close_neighbours (c : Vector2) (lbs : Boids) : Boids :=
  lbs.filter (fun n => decide (0 < Single.Vector2Distance c n.center
    ∧ Single.Vector2Distance c n.center < 40))

/-- The weight `(T - distance) / T` of line 120 with `T = 40.0f`, as computed. -/
def Single.repulsion_weight (distance : ℝ) : ℝ :=
  Single.fdiv (Single.fsub 40 distance) 40

/-- The repulsion that the neighbour `n` contributes to a boid at `c` (lines
116-121): the computed normalisation of the difference of the centres, scaled by
the computed weight. -/
def Single.repulsion (c : Vector2) (n : Boid) : Vector2 :=
  Single.Vector2Scale (Single.Vector2Normalize (Single.Vector2Subtract c n.center))
    (Single.repulsion_weight (Single.Vector2Distance c n.center))

/-- The average of the repulsions as lines 123 and 128 compute it: the rounded
sum from left to right, times the rounded reciprocal of the count. -/
def Single.repulsion_average (c : Vector2) (lbs : Boids) : Vector2 :=
  Single.Vector2Scale
    (((Single.close_neighbours c lbs).map (Single.repulsion c)).foldl Single.Vector2Add
      Vector2Zero)
    (Single.fdiv 1 (binary32 ((Single.close_neighbours c lbs).length : ℝ)))

/-- Three boids; the second is at distance `sqrt 1600.0000075`, just above
`BOID_RADIUS / 3 = 40`, from the first, and the third is 200 away from it. -/
def near_threshold : Boids :=
  [⟨⟨64, 0⟩, ⟨1, 0⟩, 3⟩, ⟨⟨13893623 / 524288, 1824439 / 131072⟩, ⟨1, 0⟩, 3⟩,
   ⟨⟨64, 200⟩, ⟨1, 0⟩, 3⟩]

/-- Three boids; the second is at distance `sqrt 1599.99995`, just below
`BOID_RADIUS / 3 = 40`, from the first, and the third is 200 away from it. -/
def under_threshold : Boids :=
  [⟨⟨0, 0⟩, ⟨1, 0⟩, 3⟩, ⟨⟨1453 / 128, 9819 / 256⟩, ⟨1, 0⟩, 3⟩, ⟨⟨0, 200⟩, ⟨1, 0⟩, 3⟩]

/-- Four boids in the 1600 by 900 window; the first, at abscissa
`801 + 2 ^ -14`, sits exactly at the arithmetic mean of the centres of the other
three, which are all its neighbours. -/
def off_centre : Boids :=
  [⟨⟨13123585 / 16384, 450⟩, ⟨0, 1⟩, 3⟩, ⟨⟨12959745 / 16384, 440⟩, ⟨1, 0⟩, 3⟩,
   ⟨⟨13287425 / 16384, 440⟩, ⟨1, 0⟩, 3⟩, ⟨⟨13123585 / 16384, 470⟩, ⟨1, 0⟩, 3⟩]

/-- Three boids: the second is at distance `sqrt 57600.00098`, a little more
than `2 * BOID_RADIUS = 240`, from the first; the third is 241 away from the
first. -/
def beyond_touching : Boids :=
  [⟨⟨0, 0⟩, ⟨1, 0⟩, 3⟩, ⟨⟨240, 1 / 32⟩, ⟨0, 1⟩, 4⟩, ⟨⟨241, 0⟩, ⟨0, 1⟩, 4⟩]

/-! ## Loops and positional access -/

theorem loop_succ {σ : Type} (body : Nat → σ → σ) (k : Nat) (s : σ) :
    loop body (k + 1) s = body k (loop body k s) := rfl

theorem loop_induct {σ : Type} (P : σ → Prop) (body : Nat → σ → σ) (n : Nat) (s : σ)
    (h0 : P s) (hstep : ∀ k t, k < n → P t → P (body k t)) : P (loop body n s) := by
  induction n with
  | zero => exact h0
  | succ k ih =>
    rw [loop_succ]
    exact hstep k _ (Nat.lt_succ_self k)
      (ih (fun j t hj ht => hstep j t (Nat.lt_succ_of_lt hj) ht))

theorem items_eq_getElem (bs : Boids) (i : Nat) (h : i < bs.length) : items bs i = bs[i] := by
  simp [items, List.getD_eq_getElem?_getD, List.getElem?_eq_getElem h]

theorem items_of_le (bs : Boids) (i : Nat) (h : bs.length ≤ i) : items bs i = default := by
  simp [items, List.getD_eq_getElem?_getD, List.getElem?_eq_none h]

theorem items_cons_zero (b : Boid) (bs : Boids) : items (b :: bs) 0 = b := rfl

theorem items_cons_succ (b : Boid) (bs : Boids) (i : Nat) :
    items (b :: bs) (i + 1) = items bs i := rfl

theorem items_mem (bs : Boids) (i : Nat) (h : i < bs.length) : items bs i ∈ bs := by
  rw [items_eq_getElem bs i h]
  exact List.getElem_mem h

theorem items_set_self (bs : Boids) (i : Nat) (b : Boid) (h : i < bs.length) :
    items (bs.set i b) i = b := by
  simp [items, List.getD_eq_getElem?_getD, List.getElem?_set, h]

theorem items_set_ne (bs : Boids) (i j : Nat) (b : Boid) (h : i ≠ j) :
    items (bs.set i b) j = items bs j := by
  simp [items, List.getD_eq_getElem?_getD, List.getElem?_set, h]

theorem set_items_self (bs : Boids) (i : Nat) : bs.set i (items bs i) = bs := by
  by_cases h : i < bs.length
  · apply List.ext_getElem?
    intro n
    by_cases hn : i = n
    · subst hn
      rw [List.getElem?_set_self h, items_eq_getElem bs i h, List.getElem?_eq_getElem h]
    · rw [List.getElem?_set_ne hn]
  · exact List.set_eq_of_length_le (Nat.le_of_not_lt h)

theorem ext_items (bs cs : Boids) (hlen : bs.length = cs.length)
    (h : ∀ i, i < bs.length → items bs i = items cs i) : bs = cs := by
  apply List.ext_getElem hlen
  intro i h1 h2
  rw [← items_eq_getElem bs i h1, ← items_eq_getElem cs i h2]
  exact h i h1

theorem map_items_range (bs : Boids) : (List.range bs.length).map (items bs) = bs := by
  apply List.ext_getElem
  · simp
  · intro i h1 h2
    simp [items_eq_getElem bs i h2]

/-- A loop reading the elements of a list one position after another is a left
fold over the list. -/
theorem loop_items_eq_foldl {σ : Type} (f : Boid → σ → σ) (lbs : Boids) (init : σ) :
    loop (fun j acc => f (items lbs j) acc) lbs.length init
      = lbs.foldl (fun acc n => f n acc) init := by
  have key : ∀ k, k ≤ lbs.length →
      loop (fun j acc => f (items lbs j) acc) k init
        = (lbs.take k).foldl (fun acc n => f n acc) init := by
    intro k
    induction k with
    | zero => intro _; simp [loop]
    | succ k ih =>
      intro hk
      have hk1 : k < lbs.length := hk
      rw [loop_succ, ih (Nat.le_of_lt hk1), List.take_succ,
        List.getElem?_eq_getElem hk1, List.foldl_append, items_eq_getElem lbs k hk1]
      simp
  rw [key lbs.length (Nat.le_refl _), List.take_length]

/-! ## Vector arithmetic -/

theorem sq_sum_nonneg (v : Vector2) : 0 ≤ v.x * v.x + v.y * v.y := by
  nlinarith [mul_self_nonneg v.x, mul_self_nonneg v.y]

theorem length_eq_one_iff (v : Vector2) :
    Vector2Length v = 1 ↔ v.x * v.x + v.y * v.y = 1 := by
  unfold Vector2Length
  exact Real.sqrt_eq_one

theorem length_pos_iff (v : Vector2) :
    0 < Vector2Length v ↔ 0 < v.x * v.x + v.y * v.y := by
  unfold Vector2Length
  exact Real.sqrt_pos

theorem length_zero : Vector2Length ⟨0, 0⟩ = 0 := by
  simp [Vector2Length]

theorem normalize_of_pos (v : Vector2) (h : 0 < v.x * v.x + v.y * v.y) :
    Vector2Normalize v
      = ⟨v.x * (1 / Real.sqrt (v.x * v.x + v.y * v.y)),
         v.y * (1 / Real.sqrt (v.x * v.x + v.y * v.y))⟩ := by
  have hs : Real.sqrt (v.x * v.x + v.y * v.y) > 0 := Real.sqrt_pos.mpr h
  simp only [Vector2Normalize, if_pos hs]

theorem normalize_of_not_pos (v : Vector2) (h : ¬ 0 < v.x * v.x + v.y * v.y) :
    Vector2Normalize v = ⟨0, 0⟩ := by
  have hs : ¬ Real.sqrt (v.x * v.x + v.y * v.y) > 0 := fun hc => h (Real.sqrt_pos.mp hc)
  simp only [Vector2Normalize, if_neg hs]

theorem normalize_sq (v : Vector2) (h : 0 < v.x * v.x + v.y * v.y) :
    (Vector2Normalize v).x * (Vector2Normalize v).x
      + (Vector2Normalize v).y * (Vector2Normalize v).y = 1 := by
  rw [normalize_of_pos v h]
  have hs : Real.sqrt (v.x * v.x + v.y * v.y) > 0 := Real.sqrt_pos.mpr h
  have hm : Real.sqrt (v.x * v.x + v.y * v.y) * Real.sqrt (v.x * v.x + v.y * v.y)
      = v.x * v.x + v.y * v.y := Real.mul_self_sqrt (le_of_lt h)
  have hne : Real.sqrt (v.x * v.x + v.y * v.y) ≠ 0 := ne_of_gt hs
  have e : v.x * (1 / Real.sqrt (v.x * v.x + v.y * v.y))
        * (v.x * (1 / Real.sqrt (v.x * v.x + v.y * v.y)))
      + v.y * (1 / Real.sqrt (v.x * v.x + v.y * v.y))
        * (v.y * (1 / Real.sqrt (v.x * v.x + v.y * v.y)))
      = (v.x * v.x + v.y * v.y)
        / (Real.sqrt (v.x * v.x + v.y * v.y) * Real.sqrt (v.x * v.x + v.y * v.y)) := by
    field_simp
  simp only
  rw [e, hm]
  exact div_self (ne_of_gt h)

theorem normalize_zero_or_unit (v : Vector2) :
    Vector2Normalize v = ⟨0, 0⟩ ∨
      (Vector2Normalize v).x * (Vector2Normalize v).x
        + (Vector2Normalize v).y * (Vector2Normalize v).y = 1 := by
  by_cases h : 0 < v.x * v.x + v.y * v.y
  · exact Or.inr (normalize_sq v h)
  · exact Or.inl (normalize_of_not_pos v h)

theorem normalize_sq_le_one (v : Vector2) :
    (Vector2Normalize v).x * (Vector2Normalize v).x
      + (Vector2Normalize v).y * (Vector2Normalize v).y ≤ 1 := by
  rcases normalize_zero_or_unit v with h | h
  · rw [h]; norm_num
  · exact le_of_eq h

theorem normalize_length (v : Vector2) (h : 0 < v.x * v.x + v.y * v.y) :
    Vector2Length (Vector2Normalize v) = 1 :=
  (length_eq_one_iff _).mpr (normalize_sq v h)

/-- Normalising a positive multiple of a unit vector gives the unit vector back. -/
theorem normalize_scale_unit (h : Vector2) (c : ℝ) (hc : 0 < c)
    (hu : h.x * h.x + h.y * h.y = 1) :
    Vector2Normalize ⟨c * h.x, c * h.y⟩ = h := by
  have hsq : (c * h.x) * (c * h.x) + (c * h.y) * (c * h.y) = c * c := by
    have : (c * h.x) * (c * h.x) + (c * h.y) * (c * h.y)
        = c * c * (h.x * h.x + h.y * h.y) := by ring
    rw [this, hu, mul_one]
  have hpos : 0 < (c * h.x) * (c * h.x) + (c * h.y) * (c * h.y) := by
    rw [hsq]; exact mul_pos hc hc
  rw [normalize_of_pos _ hpos]
  simp only
  rw [hsq, Real.sqrt_mul_self (le_of_lt hc)]
  have hne : c ≠ 0 := ne_of_gt hc
  ext
  · simp only; field_simp
  · simp only; field_simp

/-- A unit heading blended with a vector no longer than one by a factor below
one half is never the zero vector. -/
theorem lerp_sq_pos (h d : Vector2) (t : ℝ) (hu : h.x * h.x + h.y * h.y = 1)
    (hd : d.x * d.x + d.y * d.y ≤ 1) (ht1 : t < 1 / 2) :
    0 < (Vector2Lerp h d t).x * (Vector2Lerp h d t).x
      + (Vector2Lerp h d t).y * (Vector2Lerp h d t).y := by
  simp only [Vector2Lerp]
  by_contra hneg
  have ha0 := mul_self_nonneg (h.x + t * (d.x - h.x))
  have hb0 := mul_self_nonneg (h.y + t * (d.y - h.y))
  have ha : h.x + t * (d.x - h.x) = 0 := mul_self_eq_zero.mp (by linarith)
  have hb : h.y + t * (d.y - h.y) = 0 := mul_self_eq_zero.mp (by linarith)
  have ex : (1 - t) * h.x = -(t * d.x) := by linarith
  have ey : (1 - t) * h.y = -(t * d.y) := by linarith
  have e1 : (1 - t) ^ 2 * (h.x * h.x + h.y * h.y) = t ^ 2 * (d.x * d.x + d.y * d.y) := by
    have hx2 : ((1 - t) * h.x) ^ 2 = (t * d.x) ^ 2 := by rw [ex]; ring
    have hy2 : ((1 - t) * h.y) ^ 2 = (t * d.y) ^ 2 := by rw [ey]; ring
    nlinarith [hx2, hy2]
  rw [hu, mul_one] at e1
  have e2 : t ^ 2 * (d.x * d.x + d.y * d.y) ≤ t ^ 2 * 1 :=
    mul_le_mul_of_nonneg_left hd (sq_nonneg t)
  nlinarith

/-! ## Passes that write one position per iteration -/

theorem set_items_set (s : Boids) (i : Nat) (b : Boid) :
    s.set i (items (s.set i b) i) = s.set i b := by
  by_cases h : i < s.length
  · rw [items_set_self s i b h]
  · rw [List.set_eq_of_length_le (Nat.le_of_not_lt h),
      List.set_eq_of_length_le (Nat.le_of_not_lt h)]

theorem loop_set_length (body : Nat → Boids → Boids)
    (hw : ∀ i s, body i s = s.set i (items (body i s) i)) (n : Nat) (bs : Boids) :
    (loop body n bs).length = bs.length := by
  induction n with
  | zero => rfl
  | succ k ih => rw [loop_succ, hw, List.length_set, ih]

theorem loop_set_items_ge (body : Nat → Boids → Boids)
    (hw : ∀ i s, body i s = s.set i (items (body i s) i)) (n : Nat) (bs : Boids)
    (j : Nat) (hj : n ≤ j) : items (loop body n bs) j = items bs j := by
  induction n with
  | zero => rfl
  | succ k ih =>
    rw [loop_succ, hw, items_set_ne _ _ _ _ (by omega), ih (by omega)]

/-- After the loop has passed position `j`, that position holds what iteration
`j` stored there. -/
theorem loop_set_items_lt (body : Nat → Boids → Boids)
    (hw : ∀ i s, body i s = s.set i (items (body i s) i)) (n : Nat) (bs : Boids)
    (j : Nat) (hj : j < n) :
    items (loop body n bs) j = items (body j (loop body j bs)) j := by
  induction n with
  | zero => omega
  | succ k ih =>
    by_cases hjk : j = k
    · subst hjk
      rfl
    · rw [loop_succ, hw, items_set_ne _ _ _ _ (by omega), ih (by omega)]

/-! ## The neighbour query -/

theorem boid_radius_eq : BOID_RADIUS = 120 := by
  norm_num [BOID_RADIUS, TRIANGLE_SIZE]

/-- The overlap test of line 63 compares the distance of the centres with
`2 * BOID_RADIUS`, equality included. -/
theorem collision_iff_distance (c1 c2 : Vector2) :
    CheckCollisionCircles c1 BOID_RADIUS c2 BOID_RADIUS = true
      ↔ Vector2Distance c1 c2 ≤ 2 * BOID_RADIUS := by
  have hd : (c2.x - c1.x) * (c2.x - c1.x) + (c2.y - c1.y) * (c2.y - c1.y)
      = (c1.x - c2.x) * (c1.x - c2.x) + (c1.y - c2.y) * (c1.y - c2.y) := by ring
  have hr : (BOID_RADIUS + BOID_RADIUS) * (BOID_RADIUS + BOID_RADIUS)
      = (2 * BOID_RADIUS) ^ 2 := by ring
  have h0 : (0 : ℝ) ≤ 2 * BOID_RADIUS := by rw [boid_radius_eq]; norm_num
  simp only [CheckCollisionCircles, Vector2Distance, decide_eq_true_eq]
  rw [hd, hr, Real.sqrt_le_left h0]

theorem collision_symm (c1 c2 : Vector2) (r : ℝ) :
    CheckCollisionCircles c1 r c2 r = CheckCollisionCircles c2 r c1 r := by
  have hd : (c2.x - c1.x) * (c2.x - c1.x) + (c2.y - c1.y) * (c2.y - c1.y)
      = (c1.x - c2.x) * (c1.x - c2.x) + (c1.y - c2.y) * (c1.y - c2.y) := by ring
  simp only [CheckCollisionCircles]
  rw [hd]

/-- The loop of `local_neighbours` keeps, in collection order, the boids at
the positions other than `index_b` that pass the overlap test. -/
theorem local_neighbours_eq_filter (bs : Boids) (index_b : Nat) :
    local_neighbours bs index_b
      = ((List.range bs.length).filter (fun i => decide (i ≠ index_b) &&
          CheckCollisionCircles (items bs index_b).center BOID_RADIUS
            (items bs i).center BOID_RADIUS)).map (items bs) := by
  unfold local_neighbours
  generalize bs.length = n
  induction n with
  | zero => rfl
  | succ k ih =>
    rw [loop_succ, ih, List.range_succ, List.filter_append, List.map_append]
    by_cases h1 : k = index_b
    · simp [h1]
    · by_cases h2 : CheckCollisionCircles (items bs index_b).center BOID_RADIUS
          (items bs k).center BOID_RADIUS = true
      · simp [h1, h2]
      · simp [h1, h2]

theorem mem_local_neighbours (bs : Boids) (index_b : Nat) (b : Boid) :
    b ∈ local_neighbours bs index_b ↔
      ∃ i, i < bs.length ∧ i ≠ index_b ∧
        CheckCollisionCircles (items bs index_b).center BOID_RADIUS
          (items bs i).center BOID_RADIUS = true ∧ items bs i = b := by
  rw [local_neighbours_eq_filter]
  simp only [List.mem_map, List.mem_filter, List.mem_range, Bool.and_eq_true,
    decide_eq_true_eq]
  constructor
  · rintro ⟨i, ⟨hi, hne, hc⟩, rfl⟩
    exact ⟨i, hi, hne, hc, rfl⟩
  · rintro ⟨i, hi, hne, hc, rfl⟩
    exact ⟨i, ⟨hi, hne, hc⟩, rfl⟩

/-! ## C2 and C3: what the neighbour query returns -/

/-- The neighbour query in exact arithmetic: `local_neighbours bs i` is, in collection order, the
list of the boids `bs[j]` with `j ≠ i` whose centre is at distance at most
`2 * BOID_RADIUS = 240` from the centre of `bs[i]`; the bound is inclusive. -/
theorem local_neighbours_within_or_touching (bs : Boids) (i : Nat) :
    local_neighbours bs i
        = ((List.range bs.length).filter (fun j => decide (j ≠ i ∧
            Vector2Distance (items bs i).center (items bs j).center
              ≤ 2 * BOID_RADIUS))).map (items bs)
      ∧ 2 * BOID_RADIUS = 240 := by
  refine ⟨?_, by rw [boid_radius_eq]; norm_num⟩
  rw [local_neighbours_eq_filter]
  congr 1
  apply List.filter_congr
  intro j _
  by_cases hc : CheckCollisionCircles (items bs i).center BOID_RADIUS
      (items bs j).center BOID_RADIUS = true
  · have hd := (collision_iff_distance _ _).mp hc
    simp [hc, hd]
  · have hd : ¬ Vector2Distance (items bs i).center (items bs j).center
        ≤ 2 * BOID_RADIUS := fun h => hc ((collision_iff_distance _ _).mpr h)
    simp [hc, hd]

/-- C2, counterexample to the strict bound: in `touching_pair` the two centres are
exactly `2 * BOID_RADIUS` apart, not strictly closer, and the second boid is
returned as the neighbour of the first. -/
theorem touching_pair_is_neighbour :
    Vector2Distance (items touching_pair 0).center (items touching_pair 1).center
        = 2 * BOID_RADIUS
      ∧ ¬ (Vector2Distance (items touching_pair 0).center (items touching_pair 1).center
            < 2 * BOID_RADIUS)
      ∧ local_neighbours touching_pair 0 = [items touching_pair 1] := by
  have hd : Vector2Distance (items touching_pair 0).center (items touching_pair 1).center
      = 2 * BOID_RADIUS := by
    have h240 : Real.sqrt 57600 = 240 := by
      rw [show (57600 : ℝ) = 240 * 240 by norm_num]
      exact Real.sqrt_mul_self (by norm_num)
    simp only [Vector2Distance, touching_pair, items_cons_zero, items_cons_succ,
      boid_radius_eq]
    norm_num
    rw [h240]
  refine ⟨hd, by rw [hd]; exact lt_irrefl _, ?_⟩
  rw [local_neighbours_eq_filter]
  norm_num [touching_pair, List.range_succ, List.filter_cons, items_cons_zero,
    items_cons_succ, CheckCollisionCircles, boid_radius_eq]

/-- C3: for distinct valid positions `a` and `b`, boid `b` is among the
neighbours of `a` exactly when boid `a` is among the neighbours of `b`. -/
theorem local_neighbours_symm (bs : Boids) (a b : Nat) (ha : a < bs.length)
    (hb : b < bs.length) (hab : a ≠ b) :
    items bs b ∈ local_neighbours bs a ↔ items bs a ∈ local_neighbours bs b := by
  have key : ∀ p q : Nat, q < bs.length → p ≠ q →
      (items bs q ∈ local_neighbours bs p ↔
        CheckCollisionCircles (items bs p).center BOID_RADIUS
          (items bs q).center BOID_RADIUS = true) := by
    intro p q hq hpq
    rw [mem_local_neighbours]
    constructor
    · rintro ⟨j, _, _, hc, hj⟩
      rw [← hj]
      exact hc
    · intro hc
      exact ⟨q, hq, fun h => hpq h.symm, hc, rfl⟩
  rw [key a b hb hab, key b a ha (fun h => hab h.symm), collision_symm]

/-- C3 at a concrete input: the two boids of `touching_pair`. -/
theorem local_neighbours_symm_witness :
    (0 < touching_pair.length ∧ 1 < touching_pair.length ∧ (0 : Nat) ≠ 1) ∧
      (items touching_pair 1 ∈ local_neighbours touching_pair 0
        ↔ items touching_pair 0 ∈ local_neighbours touching_pair 1) :=
  ⟨⟨by decide, by decide, by decide⟩,
    local_neighbours_symm touching_pair 0 1 (by decide) (by decide) (by decide)⟩

/-! ## Frame: the rules write headings only -/

theorem boid_eta (b : Boid) : ({ b with direction := b.direction } : Boid) = b := rfl

theorem headingWrite_refl (bs : Boids) (i : Nat) : HeadingWrite bs i bs :=
  ⟨(items bs i).direction, by rw [boid_eta, set_items_self]⟩

theorem headingWrite_set (bs : Boids) (i : Nat) (d : Vector2) :
    HeadingWrite bs i (bs.set i { items bs i with direction := d }) := ⟨d, rfl⟩

theorem headingWrite_writes (bs cs : Boids) (i : Nat) (h : HeadingWrite bs i cs) :
    cs = bs.set i (items cs i) := by
  obtain ⟨d, rfl⟩ := h
  exact (set_items_set bs i _).symm

theorem headingWrite_frame (bs cs : Boids) (i : Nat) (h : HeadingWrite bs i cs) :
    SameFrame bs cs := by
  obtain ⟨d, rfl⟩ := h
  refine ⟨List.length_set _ _ _, fun j => ?_⟩
  by_cases hj : i = j
  · subst hj
    by_cases hi : i < bs.length
    · rw [items_set_self bs i _ hi]
      exact ⟨rfl, rfl⟩
    · rw [List.set_eq_of_length_le (Nat.le_of_not_lt hi)]
      exact ⟨rfl, rfl⟩
  · rw [items_set_ne bs i j _ hj]
    exact ⟨rfl, rfl⟩

theorem sameFrame_refl (bs : Boids) : SameFrame bs bs := ⟨rfl, fun _ => ⟨rfl, rfl⟩⟩

theorem sameFrame_trans (as bs cs : Boids) (h1 : SameFrame as bs) (h2 : SameFrame bs cs) :
    SameFrame as cs :=
  ⟨h2.1.trans h1.1, fun j =>
    ⟨(h2.2 j).1.trans (h1.2 j).1, (h2.2 j).2.trans (h1.2 j).2⟩⟩

theorem sameFrame_symm (bs cs : Boids) (h : SameFrame bs cs) : SameFrame cs bs :=
  ⟨h.1.symm, fun j => ⟨(h.2 j).1.symm, (h.2 j).2.symm⟩⟩

theorem loop_headingWrite_frame (body : Nat → Boids → Boids)
    (hb : ∀ i s, HeadingWrite s i (body i s)) (n : Nat) (bs : Boids) :
    SameFrame bs (loop body n bs) :=
  loop_induct (SameFrame bs) body n bs (sameFrame_refl bs)
    (fun k t _ ht => sameFrame_trans bs t _ ht (headingWrite_frame t _ k (hb k t)))

theorem alignment_body_write (i : Nat) (bs : Boids) :
    HeadingWrite bs i (alignment_body i bs) := by
  unfold alignment_body
  by_cases h : (local_neighbours bs i).length < 2
  · simp only [if_pos h]
    exact headingWrite_refl bs i
  · simp only [if_neg h, steer_boid_towards_direction]
    exact headingWrite_set bs i _

theorem separation_body_write (i : Nat) (bs : Boids) :
    HeadingWrite bs i (separation_body i bs) := by
  unfold separation_body
  by_cases h : (local_neighbours bs i).length < 2
  · simp only [if_pos h]
    exact headingWrite_refl bs i
  · by_cases h2 : (separation_close (items bs i).center (local_neighbours bs i)).1.length > 0
    · simp only [if_neg h, if_pos h2]
      exact headingWrite_set bs i _
    · simp only [if_neg h, if_neg h2]
      exact headingWrite_refl bs i

theorem cohesion_body_write (i : Nat) (bs : Boids) :
    HeadingWrite bs i (cohesion_body i bs) := by
  unfold cohesion_body
  by_cases h : (local_neighbours bs i).length < 1
  · simp only [if_pos h]
    exact headingWrite_refl bs i
  · simp only [if_neg h]
    exact headingWrite_set bs i _

theorem separation_frame (bs : Boids) : SameFrame bs (separation bs) := by
  unfold separation
  split
  · exact sameFrame_refl bs
  · exact loop_headingWrite_frame _ separation_body_write _ bs

theorem alignment_frame (bs : Boids) : SameFrame bs (alignment bs) := by
  unfold alignment
  split
  · exact sameFrame_refl bs
  · exact loop_headingWrite_frame _ alignment_body_write _ bs

theorem cohesion_frame (bs : Boids) : SameFrame bs (cohesion bs) := by
  unfold cohesion
  split
  · exact sameFrame_refl bs
  · exact loop_headingWrite_frame _ cohesion_body_write _ bs

theorem rules_frame (bs : Boids) :
    SameFrame bs (cohesion (alignment (separation bs))) :=
  sameFrame_trans _ _ _ (separation_frame bs)
    (sameFrame_trans _ _ _ (alignment_frame _) (cohesion_frame _))

/-! ## The avoid-and-move loop and C4 -/

theorem integrate_body_eq (W H : ℤ) (i : Nat) (bs : Boids) :
    integrate_body W H i bs = bs.set i (avoid_and_move W H (items bs i)) := by
  unfold integrate_body avoid_and_move
  by_cases hi : i < bs.length
  · simp only [items_set_self bs i _ hi, List.set_set]
  · simp only [List.set_eq_of_length_le (Nat.le_of_not_lt hi)]

theorem integrate_body_writes (W H : ℤ) (i : Nat) (s : Boids) :
    integrate_body W H i s = s.set i (items (integrate_body W H i s) i) := by
  rw [integrate_body_eq, set_items_set]

theorem integrate_loop_items (W H : ℤ) (bs : Boids) (j : Nat) (hj : j < bs.length) :
    items (loop (integrate_body W H) bs.length bs) j = avoid_and_move W H (items bs j) := by
  rw [loop_set_items_lt _ (integrate_body_writes W H) _ _ j hj, integrate_body_eq,
    items_set_self _ _ _ (by rw [loop_set_length _ (integrate_body_writes W H)]; exact hj),
    loop_set_items_ge _ (integrate_body_writes W H) _ _ j (Nat.le_refl j)]

theorem items_map (f : Boid → Boid) (bs : Boids) (j : Nat) (hj : j < bs.length) :
    items (bs.map f) j = f (items bs j) := by
  rw [items_eq_getElem _ j (by rw [List.length_map]; exact hj), items_eq_getElem bs j hj,
    List.getElem_map]

theorem integrate_loop_eq_map (W H : ℤ) (bs : Boids) :
    loop (integrate_body W H) bs.length bs = bs.map (avoid_and_move W H) := by
  apply ext_items
  · rw [loop_set_length _ (integrate_body_writes W H), List.length_map]
  · intro i hi
    rw [loop_set_length _ (integrate_body_writes W H)] at hi
    rw [integrate_loop_items W H bs i hi, items_map _ bs i hi]

theorem step_eq_map (W H : ℤ) (bs : Boids) :
    step W H bs = (cohesion (alignment (separation bs))).map (avoid_and_move W H) := by
  unfold step
  exact integrate_loop_eq_map W H _

theorem avoid_walls_center (W H : ℤ) (b : Boid) : (avoid_walls W H b).center = b.center := by
  simp only [avoid_walls]
  split <;> rfl

theorem avoid_walls_speed (W H : ℤ) (b : Boid) : (avoid_walls W H b).speed = b.speed := by
  simp only [avoid_walls]
  split <;> rfl

theorem step_length (W H : ℤ) (bs : Boids) : (step W H bs).length = bs.length := by
  rw [step_eq_map, List.length_map]
  exact (rules_frame bs).1

theorem step_items (W H : ℤ) (bs : Boids) (i : Nat) (hi : i < bs.length) :
    (items (step W H bs) i).direction
        = (avoid_walls W H (items (cohesion (alignment (separation bs))) i)).direction
      ∧ (items (step W H bs) i).center
        = Vector2Add (items bs i).center
            (Vector2Scale (items (step W H bs) i).direction (items bs i).speed) := by
  have hf := rules_frame bs
  have hi2 : i < (cohesion (alignment (separation bs))).length := by rw [hf.1]; exact hi
  rw [step_eq_map, items_map _ _ i hi2]
  refine ⟨rfl, ?_⟩
  simp only [avoid_and_move, avoid_walls_center, avoid_walls_speed]
  rw [(hf.2 i).1, (hf.2 i).2]

/-- C4: a simulation step is the separation pass, then the alignment pass, then
the cohesion pass, and only then, boid by boid in index order, `avoid_walls`
followed by `center := center + direction * speed`; the new centre of every boid
is its old centre plus its speed times its heading after boundary avoidance,
which is the heading the step leaves in the boid. -/
theorem step_order (W H : ℤ) (bs : Boids) :
    step W H bs = (cohesion (alignment (separation bs))).map (fun b =>
          { avoid_walls W H b with
            center := Vector2Add (avoid_walls W H b).center
              (Vector2Scale (avoid_walls W H b).direction (avoid_walls W H b).speed) })
      ∧ ∀ i, i < bs.length →
          (items (step W H bs) i).direction
              = (avoid_walls W H (items (cohesion (alignment (separation bs))) i)).direction
            ∧ (items (step W H bs) i).center
              = Vector2Add (items bs i).center
                  (Vector2Scale (items (step W H bs) i).direction (items bs i).speed) :=
  ⟨step_eq_map W H bs, fun i hi => step_items W H bs i hi⟩

/-! ## Unit headings are preserved -/

theorem steer_wellFormed (b : Boid) (v : Vector2) (t : ℝ) (ht : t < 1 / 2)
    (hb : WellFormed b) :
    WellFormed { b with
      direction := Vector2Normalize (Vector2Lerp b.direction (Vector2Normalize v) t) } := by
  refine ⟨?_, hb.2⟩
  exact normalize_length _
    (lerp_sq_pos b.direction (Vector2Normalize v) t ((length_eq_one_iff _).mp hb.1)
      (normalize_sq_le_one v) ht)

theorem set_wellFormed (bs : Boids) (i : Nat) (c : Boid) (hall : ∀ b ∈ bs, WellFormed b)
    (hc : i < bs.length → WellFormed c) : ∀ b ∈ bs.set i c, WellFormed b := by
  intro b hb
  by_cases hi : i < bs.length
  · rcases List.mem_or_eq_of_mem_set hb with h | h
    · exact hall b h
    · rw [h]; exact hc hi
  · rw [List.set_eq_of_length_le (Nat.le_of_not_lt hi)] at hb
    exact hall b hb

theorem alignment_body_wellFormed (i : Nat) (bs : Boids) (hall : ∀ b ∈ bs, WellFormed b) :
    ∀ b ∈ alignment_body i bs, WellFormed b := by
  unfold alignment_body
  by_cases h : (local_neighbours bs i).length < 2
  · simp only [if_pos h]
    exact hall
  · simp only [if_neg h, steer_boid_towards_direction]
    exact set_wellFormed bs i _ hall
      (fun hi => steer_wellFormed _ _ _ (by norm_num) (hall _ (items_mem bs i hi)))

theorem separation_body_wellFormed (i : Nat) (bs : Boids) (hall : ∀ b ∈ bs, WellFormed b) :
    ∀ b ∈ separation_body i bs, WellFormed b := by
  unfold separation_body
  by_cases h : (local_neighbours bs i).length < 2
  · simp only [if_pos h]
    exact hall
  · by_cases h2 : (separation_close (items bs i).center (local_neighbours bs i)).1.length > 0
    · simp only [if_neg h, if_pos h2]
      refine set_wellFormed bs i _ hall (fun hi => ?_)
      have hw := hall _ (items_mem bs i hi)
      exact steer_wellFormed _ _ _ (by linarith [hw.2.2]) hw
    · simp only [if_neg h, if_neg h2]
      exact hall

theorem cohesion_body_wellFormed (i : Nat) (bs : Boids) (hall : ∀ b ∈ bs, WellFormed b) :
    ∀ b ∈ cohesion_body i bs, WellFormed b := by
  unfold cohesion_body
  by_cases h : (local_neighbours bs i).length < 1
  · simp only [if_pos h]
    exact hall
  · simp only [if_neg h, cohesion_desired]
    refine set_wellFormed bs i _ hall (fun hi => ?_)
    have hw := hall _ (items_mem bs i hi)
    exact steer_wellFormed _ _ _ (by linarith [hw.2.2]) hw

theorem separation_wellFormed (bs : Boids) (hall : ∀ b ∈ bs, WellFormed b) :
    ∀ b ∈ separation bs, WellFormed b := by
  unfold separation
  split
  · exact hall
  · exact loop_induct (fun s => ∀ b ∈ s, WellFormed b) separation_body _ bs hall
      (fun k t _ ht => separation_body_wellFormed k t ht)

theorem alignment_wellFormed (bs : Boids) (hall : ∀ b ∈ bs, WellFormed b) :
    ∀ b ∈ alignment bs, WellFormed b := by
  unfold alignment
  split
  · exact hall
  · exact loop_induct (fun s => ∀ b ∈ s, WellFormed b) alignment_body _ bs hall
      (fun k t _ ht => alignment_body_wellFormed k t ht)

theorem cohesion_wellFormed (bs : Boids) (hall : ∀ b ∈ bs, WellFormed b) :
    ∀ b ∈ cohesion bs, WellFormed b := by
  unfold cohesion
  split
  · exact hall
  · exact loop_induct (fun s => ∀ b ∈ s, WellFormed b) cohesion_body _ bs hall
      (fun k t _ ht => cohesion_body_wellFormed k t ht)

/-- Each component of the push vector of `avoid_walls` is `0` or plus or minus
`0.155 * (speed / 3)`. -/
theorem avoid_walls_steer_cases (W H : ℤ) (b : Boid) :
    ((avoid_walls_steer W H b).x = 0 ∨ (avoid_walls_steer W H b).x = 0.155 * (b.speed / 3)
        ∨ (avoid_walls_steer W H b).x = -(0.155 * (b.speed / 3)))
      ∧ ((avoid_walls_steer W H b).y = 0 ∨ (avoid_walls_steer W H b).y = 0.155 * (b.speed / 3)
        ∨ (avoid_walls_steer W H b).y = -(0.155 * (b.speed / 3))) := by
  simp only [avoid_walls_steer]
  constructor
  · split_ifs <;> simp
  · split_ifs <;> simp

theorem avoid_walls_wellFormed (W H : ℤ) (b : Boid) (hb : WellFormed b) :
    WellFormed (avoid_walls W H b) := by
  simp only [avoid_walls]
  split
  · refine ⟨?_, hb.2⟩
    apply normalize_length
    simp only [Vector2Add]
    have hu := (length_eq_one_iff _).mp hb.1
    obtain ⟨hx, hy⟩ := avoid_walls_steer_cases W H b
    have h3 := hb.2.1
    have h5 := hb.2.2
    have hs0 : 0 ≤ 0.155 * (b.speed / 3) := by linarith
    have hs1 : 0.155 * (b.speed / 3) ≤ 0.26 := by linarith
    have hsx : (avoid_walls_steer W H b).x ^ 2 ≤ 0.0676 := by
      rcases hx with h | h | h <;> rw [h] <;> nlinarith
    have hsy : (avoid_walls_steer W H b).y ^ 2 ≤ 0.0676 := by
      rcases hy with h | h | h <;> rw [h] <;> nlinarith
    by_contra hneg
    have ha0 := mul_self_nonneg (b.direction.x + (avoid_walls_steer W H b).x)
    have hb0 := mul_self_nonneg (b.direction.y + (avoid_walls_steer W H b).y)
    have ha : b.direction.x + (avoid_walls_steer W H b).x = 0 :=
      mul_self_eq_zero.mp (by linarith)
    have hb1 : b.direction.y + (avoid_walls_steer W H b).y = 0 :=
      mul_self_eq_zero.mp (by linarith)
    have ex : b.direction.x = -(avoid_walls_steer W H b).x := by linarith
    have ey : b.direction.y = -(avoid_walls_steer W H b).y := by linarith
    rw [ex, ey] at hu
    nlinarith
  · exact hb

theorem avoid_and_move_wellFormed (W H : ℤ) (b : Boid) (hb : WellFormed b) :
    WellFormed (avoid_and_move W H b) :=
  avoid_walls_wellFormed W H b hb

theorem step_wellFormed (W H : ℤ) (bs : Boids) (hall : ∀ b ∈ bs, WellFormed b) :
    ∀ b ∈ step W H bs, WellFormed b := by
  intro b hb
  rw [step_eq_map, List.mem_map] at hb
  obtain ⟨a, ha, rfl⟩ := hb
  exact avoid_and_move_wellFormed W H a
    (cohesion_wellFormed _ (alignment_wellFormed _ (separation_wellFormed bs hall)) a ha)

theorem mem_iff_items (bs : Boids) (b : Boid) :
    b ∈ bs ↔ ∃ i, i < bs.length ∧ items bs i = b := by
  constructor
  · intro hb
    obtain ⟨i, hi, h⟩ := List.getElem_of_mem hb
    exact ⟨i, hi, by rw [items_eq_getElem bs i hi]; exact h⟩
  · rintro ⟨i, hi, rfl⟩
    exact items_mem bs i hi

theorem unit_component_bounds (d : Vector2) (hd : d.x * d.x + d.y * d.y = 1) :
    (-1 ≤ d.x ∧ d.x ≤ 1) ∧ (-1 ≤ d.y ∧ d.y ≤ 1) := by
  refine ⟨⟨?_, ?_⟩, ⟨?_, ?_⟩⟩ <;> nlinarith [mul_self_nonneg d.x, mul_self_nonneg d.y]

/-- In one step a well-formed boid moves at most 5 along each axis. -/
theorem step_displacement (W H : ℤ) (bs : Boids) (hall : ∀ b ∈ bs, WellFormed b)
    (i : Nat) (hi : i < bs.length) :
    ((items bs i).center.x - 5 ≤ (items (step W H bs) i).center.x
        ∧ (items (step W H bs) i).center.x ≤ (items bs i).center.x + 5)
      ∧ ((items bs i).center.y - 5 ≤ (items (step W H bs) i).center.y
        ∧ (items (step W H bs) i).center.y ≤ (items bs i).center.y + 5) := by
  have hi2 : i < (step W H bs).length := by rw [step_length]; exact hi
  have hs := step_wellFormed W H bs hall _ (items_mem _ i hi2)
  have hw := hall _ (items_mem bs i hi)
  have hc := (step_items W H bs i hi).2
  obtain ⟨⟨hx1, hx2⟩, ⟨hy1, hy2⟩⟩ :=
    unit_component_bounds _ ((length_eq_one_iff _).mp hs.1)
  have h3 := hw.2.1
  have h5 := hw.2.2
  rw [hc]
  simp only [Vector2Add, Vector2Scale]
  refine ⟨⟨?_, ?_⟩, ⟨?_, ?_⟩⟩ <;> nlinarith

theorem step_margin (W H : ℤ) (m : ℝ) (bs : Boids) (hall : ∀ b ∈ bs, WellFormed b)
    (hin : WithinMargin W H m bs) : WithinMargin W H (m + 5) (step W H bs) := by
  intro b hb
  obtain ⟨i, hi, rfl⟩ := (mem_iff_items _ b).mp hb
  rw [step_length] at hi
  obtain ⟨⟨hx1, hx2⟩, ⟨hy1, hy2⟩⟩ := step_displacement W H bs hall i hi
  obtain ⟨h1, h2, h3, h4⟩ := hin _ (items_mem bs i hi)
  refine ⟨?_, ?_, ?_, ?_⟩ <;> linarith

theorem iterate_step_wellFormed (W H : ℤ) (N : Nat) (bs : Boids)
    (hall : ∀ b ∈ bs, WellFormed b) : ∀ b ∈ (step W H)^[N] bs, WellFormed b := by
  induction N with
  | zero => exact hall
  | succ k ih =>
    rw [Function.iterate_succ_apply']
    exact step_wellFormed W H _ ih

/-- C5, as the code has it: boundary avoidance only turns headings, so boids can
leave the window; what holds is that from a collection inside the `W` by `H`
window, with unit headings and speeds between 3 and 5, after `N` steps every
centre is within `5 * N` of the window (after one step: within 5). -/
theorem steps_within_margin (W H : ℤ) (bs : Boids) (N : Nat)
    (hall : ∀ b ∈ bs, WellFormed b) (hin : WithinMargin W H 0 bs) :
    WithinMargin W H (5 * (N : ℝ)) ((step W H)^[N] bs) := by
  induction N with
  | zero => simpa using hin
  | succ k ih =>
    rw [Function.iterate_succ_apply']
    have h := step_margin W H _ _ (iterate_step_wellFormed W H k bs hall) ih
    have e : 5 * ((k + 1 : Nat) : ℝ) = 5 * (k : ℝ) + 5 := by push_cast; ring
    rw [e]
    exact h

theorem cluster_wellFormed : ∀ b ∈ cluster, WellFormed b := by
  intro b hb
  simp only [cluster, List.mem_cons, List.mem_singleton, List.mem_nil_iff, or_false] at hb
  rcases hb with h | h | h <;> rw [h] <;> refine ⟨?_, ?_, ?_⟩ <;>
    norm_num [Vector2Length]

theorem cluster_in_window : WithinMargin 1600 900 0 cluster := by
  intro b hb
  simp only [cluster, List.mem_cons, List.mem_singleton, List.mem_nil_iff, or_false] at hb
  rcases hb with h | h | h <;> rw [h] <;> norm_num

/-- C5 at a concrete input: the three clustered boids with divergent headings,
ten steps in the 1600 by 900 window. -/
theorem steps_within_margin_witness :
    (∀ b ∈ cluster, WellFormed b) ∧ WithinMargin 1600 900 0 cluster ∧
      WithinMargin 1600 900 (5 * ((10 : Nat) : ℝ)) ((step 1600 900)^[10] cluster) :=
  ⟨cluster_wellFormed, cluster_in_window,
    steps_within_margin 1600 900 cluster 10 cluster_wellFormed cluster_in_window⟩

theorem step_singleton (W H : ℤ) (b : Boid) : step W H [b] = [avoid_and_move W H b] := by
  rw [step_eq_map]
  rfl

/-- C5, counterexample: `edge_boid` is inside the 1600 by 900 window with a unit
heading and speed 3; the push `(0.155, 0)` is opposite to its heading `(-1, 0)`,
the normalised sum is `(-1, 0)` again, and one step moves it to `x = -1`. -/
theorem edge_boid_leaves_window :
    (∀ b ∈ edge_boid, WellFormed b) ∧ WithinMargin 1600 900 0 edge_boid ∧
      (items (step 1600 900 edge_boid) 0).center = ⟨-1, 450⟩ ∧
      ¬ WithinMargin 1600 900 0 (step 1600 900 edge_boid) := by
  have hn : Vector2Normalize ⟨0.845 * (-1 : ℝ), 0.845 * (0 : ℝ)⟩ = ⟨-1, 0⟩ :=
    normalize_scale_unit ⟨-1, 0⟩ 0.845 (by norm_num) (by norm_num)
  have hstep : step 1600 900 edge_boid = [⟨⟨-1, 450⟩, ⟨-1, 0⟩, 3⟩] := by
    rw [edge_boid, step_singleton]
    have hsteer : avoid_walls_steer 1600 900 ⟨⟨2, 450⟩, ⟨-1, 0⟩, 3⟩ = ⟨0.155, 0⟩ := by
      simp only [avoid_walls_steer]
      norm_num
    have hlen : Vector2Length (⟨0.155, 0⟩ : Vector2) > 0 := by
      rw [gt_iff_lt, length_pos_iff]; norm_num
    have hav : avoid_walls 1600 900 ⟨⟨2, 450⟩, ⟨-1, 0⟩, 3⟩ = ⟨⟨2, 450⟩, ⟨-1, 0⟩, 3⟩ := by
      simp only [avoid_walls, hsteer, if_pos hlen, Vector2Add]
      have e : (⟨-1 + 0.155, 0 + 0⟩ : Vector2) = ⟨0.845 * (-1 : ℝ), 0.845 * (0 : ℝ)⟩ := by
        ext <;> norm_num
      rw [e, hn]
    simp only [avoid_and_move, hav, Vector2Add, Vector2Scale]
    norm_num
  refine ⟨?_, ?_, ?_, ?_⟩
  · intro b hb
    simp only [edge_boid, List.mem_singleton] at hb
    rw [hb]
    refine ⟨?_, ?_, ?_⟩ <;> norm_num [Vector2Length]
  · intro b hb
    simp only [edge_boid, List.mem_singleton] at hb
    rw [hb]
    norm_num
  · rw [hstep]
    rfl
  · rw [hstep]
    intro h
    have := (h _ (List.mem_singleton.mpr rfl)).1
    norm_num at this

/-! ## What a pass stores at a position -/

/-- Under `SameFrame` the neighbour query selects the same positions, so the
neighbours have the same centres in the same order. -/
theorem local_neighbours_centers (bs s : Boids) (i : Nat) (hf : SameFrame bs s) :
    (local_neighbours s i).map (fun n => n.center)
      = (local_neighbours bs i).map (fun n => n.center) := by
  rw [local_neighbours_eq_filter, local_neighbours_eq_filter, hf.1, List.map_map,
    List.map_map]
  have hp : (fun j => decide (j ≠ i) &&
        CheckCollisionCircles (items s i).center BOID_RADIUS (items s j).center BOID_RADIUS)
      = (fun j => decide (j ≠ i) &&
        CheckCollisionCircles (items bs i).center BOID_RADIUS (items bs j).center
          BOID_RADIUS) := by
    funext j
    rw [(hf.2 i).1, (hf.2 j).1]
  rw [hp]
  apply List.map_congr_left
  intro j _
  exact (hf.2 j).1

theorem local_neighbours_length (bs s : Boids) (i : Nat) (hf : SameFrame bs s) :
    (local_neighbours s i).length = (local_neighbours bs i).length := by
  have h := congrArg List.length (local_neighbours_centers bs s i hf)
  simpa using h

theorem foldl_add_eq (vs : List Vector2) (acc : Vector2) :
    vs.foldl Vector2Add acc
      = ⟨acc.x + (vs.map (fun v => v.x)).sum, acc.y + (vs.map (fun v => v.y)).sum⟩ := by
  induction vs generalizing acc with
  | nil => simp
  | cons v vs ih =>
    rw [List.foldl_cons, ih]
    simp only [Vector2Add, List.map_cons, List.sum_cons]
    ext <;> simp only <;> ring

theorem cohesion_sum_eq (lbs : Boids) :
    cohesion_sum lbs
      = ⟨(lbs.map (fun n => n.center.x)).sum, (lbs.map (fun n => n.center.y)).sum⟩ := by
  unfold cohesion_sum
  rw [loop_items_eq_foldl (fun n acc => Vector2Add acc n.center) lbs Vector2Zero]
  have h : lbs.foldl (fun acc n => Vector2Add acc n.center) Vector2Zero
      = (lbs.map (fun n => n.center)).foldl Vector2Add Vector2Zero := by
    rw [List.foldl_map]
  rw [h, foldl_add_eq]
  simp [Vector2Zero, List.map_map, Function.comp_def]

/-- The desired direction of `cohesion` is the normalised vector from the boid
to the centroid of its neighbours. -/
theorem cohesion_desired_eq (c : Vector2) (lbs : Boids) :
    cohesion_desired c lbs = Vector2Normalize (Vector2Subtract (centroid lbs) c) := by
  unfold cohesion_desired centroid
  rw [cohesion_sum_eq]
  simp only [Vector2Scale, Vector2Subtract, mul_one_div]

theorem centroid_congr (lbs lbs2 : Boids)
    (h : lbs.map (fun n => n.center) = lbs2.map (fun n => n.center)) :
    centroid lbs = centroid lbs2 := by
  have hx : lbs.map (fun n => n.center.x) = lbs2.map (fun n => n.center.x) := by
    have := congrArg (List.map (fun v : Vector2 => v.x)) h
    simpa [List.map_map, Function.comp_def] using this
  have hy : lbs.map (fun n => n.center.y) = lbs2.map (fun n => n.center.y) := by
    have := congrArg (List.map (fun v : Vector2 => v.y)) h
    simpa [List.map_map, Function.comp_def] using this
  have hl : lbs.length = lbs2.length := by
    have := congrArg List.length h
    simpa using this
  unfold centroid
  rw [hx, hy, hl]

theorem pass_items (body : Nat → Boids → Boids)
    (hb : ∀ i s, HeadingWrite s i (body i s)) (bs : Boids) (i : Nat) (hi : i < bs.length) :
    items (loop body bs.length bs) i = items (body i (loop body i bs)) i
      ∧ SameFrame bs (loop body i bs)
      ∧ items (loop body i bs) i = items bs i := by
  have hw : ∀ i s, body i s = s.set i (items (body i s) i) :=
    fun i s => headingWrite_writes s _ i (hb i s)
  exact ⟨loop_set_items_lt body hw _ bs i hi, loop_headingWrite_frame body hb i bs,
    loop_set_items_ge body hw i bs i (Nat.le_refl i)⟩

theorem cohesion_body_items (s : Boids) (i : Nat) (hi : i < s.length) :
    items (cohesion_body i s) i
      = if (local_neighbours s i).length < 1 then items s i
        else { items s i with
          direction := Vector2Normalize (Vector2Lerp (items s i).direction
            (cohesion_desired (items s i).center (local_neighbours s i))
            (0.05 * ((items s i).speed / 3))) } := by
  unfold cohesion_body
  by_cases h : (local_neighbours s i).length < 1
  · simp only [if_pos h]
  · simp only [if_neg h]
    rw [items_set_self s i _ hi]

/-- The boid that `cohesion` leaves at position `i`, in terms of the collection
before the pass. -/
theorem cohesion_items (bs : Boids) (i : Nat) (hi : i < bs.length) :
    items (cohesion bs) i
      = if (local_neighbours bs i).length < 1 then items bs i
        else { items bs i with
          direction := Vector2Normalize (Vector2Lerp (items bs i).direction
            (cohesion_desired (items bs i).center (local_neighbours bs i))
            (0.05 * ((items bs i).speed / 3))) } := by
  by_cases h2 : bs.length < 2
  · have hn : (local_neighbours bs i).length < 1 := by
      rw [local_neighbours_eq_filter, List.length_map]
      have hnil : (List.range bs.length).filter (fun j => decide (j ≠ i) &&
          CheckCollisionCircles (items bs i).center BOID_RADIUS (items bs j).center
            BOID_RADIUS) = [] := by
        rw [List.filter_eq_nil_iff]
        intro j hj
        have hj2 := List.mem_range.mp hj
        have : j = i := by omega
        simp [this]
      rw [hnil]
      exact Nat.zero_lt_one
    simp only [cohesion, if_pos h2, if_pos hn]
  · simp only [cohesion, if_neg h2]
    obtain ⟨h1, hf, h3⟩ := pass_items cohesion_body cohesion_body_write bs i hi
    have hi2 : i < (loop cohesion_body i bs).length := by rw [hf.1]; exact hi
    rw [h1, cohesion_body_items _ i hi2, h3, local_neighbours_length bs _ i hf,
      cohesion_desired_eq, cohesion_desired_eq,
      centroid_congr _ _ (local_neighbours_centers bs _ i hf)]

/-! ## The cohesion rule in exact arithmetic -/

/-- The cohesion rule in exact arithmetic: for a boid with at least one neighbour, the desired direction of
`cohesion` is the normalised vector from the boid's centre to the arithmetic
mean of its neighbours' centres, and the heading after the pass is
`normalize(lerp(heading, desired, 0.05 * speed / 3))`. -/
theorem cohesion_heading (bs : Boids) (i : Nat) (hi : i < bs.length)
    (hn : 1 ≤ (local_neighbours bs i).length) :
    cohesion_desired (items bs i).center (local_neighbours bs i)
        = Vector2Normalize
            (Vector2Subtract (centroid (local_neighbours bs i)) (items bs i).center)
      ∧ (items (cohesion bs) i).direction
        = Vector2Normalize (Vector2Lerp (items bs i).direction
            (Vector2Normalize
              (Vector2Subtract (centroid (local_neighbours bs i)) (items bs i).center))
            (0.05 * (items bs i).speed / 3)) := by
  refine ⟨cohesion_desired_eq _ _, ?_⟩
  rw [cohesion_items bs i hi, if_neg (by omega), cohesion_desired_eq, mul_div_assoc]

theorem triangle_neighbours :
    local_neighbours triangle 0 = [items triangle 1, items triangle 2] := by
  rw [local_neighbours_eq_filter]
  norm_num [triangle, List.range_succ, List.filter_cons, items_cons_zero, items_cons_succ,
    CheckCollisionCircles, boid_radius_eq]

theorem triangle_centroid : centroid (local_neighbours triangle 0) = ⟨1, 1⟩ := by
  rw [triangle_neighbours]
  norm_num [centroid, triangle, items_cons_zero, items_cons_succ]

theorem triangle_desired :
    Vector2Normalize
        (Vector2Subtract (centroid (local_neighbours triangle 0)) (items triangle 0).center)
      = ⟨1 / Real.sqrt 2, 1 / Real.sqrt 2⟩ := by
  rw [triangle_centroid]
  have e : Vector2Subtract ⟨1, 1⟩ (items triangle 0).center = ⟨1, 1⟩ := by
    norm_num [Vector2Subtract, triangle, items_cons_zero]
  rw [e, normalize_of_pos _ (by norm_num)]
  norm_num

/-- The exact cohesion rule at the input of the spec: boids at `(0,0)`, `(2,0)`, `(0,2)`; the first
has the other two as neighbours, their centroid is `(1,1)`, and the desired
direction is `(1/sqrt 2, 1/sqrt 2)`. -/
theorem cohesion_heading_witness :
    (0 < triangle.length ∧ 1 ≤ (local_neighbours triangle 0).length) ∧
      local_neighbours triangle 0 = [items triangle 1, items triangle 2] ∧
      centroid (local_neighbours triangle 0) = ⟨1, 1⟩ ∧
      cohesion_desired (items triangle 0).center (local_neighbours triangle 0)
        = ⟨1 / Real.sqrt 2, 1 / Real.sqrt 2⟩ ∧
      (items (cohesion triangle) 0).direction
        = Vector2Normalize (Vector2Lerp (items triangle 0).direction
            ⟨1 / Real.sqrt 2, 1 / Real.sqrt 2⟩ (0.05 * (items triangle 0).speed / 3)) := by
  have h0 : 0 < triangle.length := by decide
  have h1 : 1 ≤ (local_neighbours triangle 0).length := by
    rw [triangle_neighbours]; decide
  have h := cohesion_heading triangle 0 h0 h1
  rw [triangle_desired] at h
  exact ⟨⟨h0, h1⟩, triangle_neighbours, triangle_centroid, h.1, h.2⟩

/-! ## C6: degenerate desired directions -/

theorem local_neighbours_short (bs : Boids) (i : Nat) (hi : i < bs.length)
    (h2 : bs.length < 2) : local_neighbours bs i = [] := by
  rw [local_neighbours_eq_filter]
  have hnil : (List.range bs.length).filter (fun j => decide (j ≠ i) &&
      CheckCollisionCircles (items bs i).center BOID_RADIUS (items bs j).center
        BOID_RADIUS) = [] := by
    rw [List.filter_eq_nil_iff]
    intro j hj
    have hj2 := List.mem_range.mp hj
    have : j = i := by omega
    simp [this]
  rw [hnil]
  rfl

theorem alignment_body_items (s : Boids) (i : Nat) (hi : i < s.length) :
    items (alignment_body i s) i
      = if (local_neighbours s i).length < 2 then items s i
        else steer_boid_towards_direction (items s i)
          (Vector2Normalize (alignment_sum (local_neighbours s i))) := by
  unfold alignment_body
  by_cases h : (local_neighbours s i).length < 2
  · simp only [if_pos h]
  · simp only [if_neg h]
    rw [items_set_self s i _ hi]

/-- The boid that `alignment` leaves at position `i`: the rule is applied to the
collection as it stands when the loop reaches `i`, that is after the iterations
`0 .. i-1`. -/
theorem alignment_items (bs : Boids) (i : Nat) (hi : i < bs.length) :
    items (alignment bs) i
      = if (local_neighbours (loop alignment_body i bs) i).length < 2 then items bs i
        else steer_boid_towards_direction (items bs i)
          (Vector2Normalize (alignment_sum (local_neighbours (loop alignment_body i bs) i))) := by
  obtain ⟨h1, hf, h3⟩ := pass_items alignment_body alignment_body_write bs i hi
  by_cases h2 : bs.length < 2
  · have hn : (local_neighbours (loop alignment_body i bs) i).length < 2 := by
      rw [local_neighbours_length bs _ i hf, local_neighbours_short bs i hi h2]
      exact Nat.zero_lt_two
    simp only [alignment, if_pos h2, if_pos hn]
  · simp only [alignment, if_neg h2]
    have hi2 : i < (loop alignment_body i bs).length := by rw [hf.1]; exact hi
    rw [h1, alignment_body_items _ i hi2, h3]

/-- Blending a unit heading with the zero vector and normalising gives the
heading back. -/
theorem lerp_zero_keeps (h : Vector2) (t : ℝ) (hu : Vector2Length h = 1) (ht : t < 1) :
    Vector2Normalize (Vector2Lerp h ⟨0, 0⟩ t) = h := by
  have e : Vector2Lerp h ⟨0, 0⟩ t = ⟨(1 - t) * h.x, (1 - t) * h.y⟩ := by
    simp only [Vector2Lerp]
    ext <;> simp only <;> ring
  rw [e]
  exact normalize_scale_unit h (1 - t) (by linarith) ((length_eq_one_iff h).mp hu)

theorem normalize_zero : Vector2Normalize ⟨0, 0⟩ = ⟨0, 0⟩ :=
  normalize_of_not_pos _ (by norm_num)

theorem normalize_y_pos (v : Vector2) (h : 0 < v.y) : 0 < (Vector2Normalize v).y := by
  have hp : 0 < v.x * v.x + v.y * v.y := by nlinarith [mul_self_nonneg v.x]
  rw [normalize_of_pos v hp]
  exact mul_pos h (one_div_pos.mpr (Real.sqrt_pos.mpr hp))

/-- Away from the draw `(0, 0)` the spawn heading is a unit vector. -/
theorem random_direction_unit (rx ry : ℤ) (h : rx ≠ 0 ∨ ry ≠ 0) :
    Vector2Length (random_direction rx ry) = 1 := by
  unfold random_direction
  apply normalize_length
  simp only
  have hx : (0 : ℝ) ≤ (rx : ℝ) * (rx : ℝ) := mul_self_nonneg _
  have hy : (0 : ℝ) ≤ (ry : ℝ) * (ry : ℝ) := mul_self_nonneg _
  rcases h with h | h
  · have : (rx : ℝ) ≠ 0 := Int.cast_ne_zero.mpr h
    have : 0 < (rx : ℝ) * (rx : ℝ) := mul_self_pos.mpr this
    linarith
  · have : (ry : ℝ) ≠ 0 := Int.cast_ne_zero.mpr h
    have : 0 < (ry : ℝ) * (ry : ℝ) := mul_self_pos.mpr this
    linarith

/-- C7 at the failing input: when both draws are `0` (a value inside both
ranges), `random_direction` returns the zero vector, whose length is `0`, and
the boid is spawned with that heading. -/
theorem random_direction_zero_draw :
    random_direction 0 0 = ⟨0, 0⟩ ∧ Vector2Length (random_direction 0 0) = 0 ∧
      Vector2Length (random_direction 0 0) ≠ 1 ∧
      spawn [] ⟨800, 450⟩ 0 0 3 = [⟨⟨800, 450⟩, ⟨0, 0⟩, 3⟩] := by
  have h : random_direction 0 0 = ⟨0, 0⟩ := by
    unfold random_direction
    simp only [Int.cast_zero]
    exact normalize_zero
  refine ⟨h, ?_, ?_, ?_⟩
  · rw [h, length_zero]
  · rw [h, length_zero]; exact zero_ne_one
  · simp only [spawn, h, List.nil_append, Int.cast_ofNat]

/-! ## The separation threshold in exact arithmetic -/

theorem separation_close_eq_foldl (c : Vector2) (lbs : Boids) :
    separation_close c lbs
      = lbs.foldl (fun acc n => separation_accum c n acc) ([], Vector2Zero) := by
  unfold separation_close
  exact loop_items_eq_foldl (fun n acc => separation_accum c n acc) lbs ([], Vector2Zero)

theorem separation_threshold_eq : BOID_RADIUS / 3 = 40 := by
  rw [boid_radius_eq]; norm_num

/-- A neighbour at distance `40` or more, or at distance `0`, leaves the pair
(`closest_neighbours`, `d`) as it is. -/
theorem separation_accum_far (c : Vector2) (n : Boid) (acc : Boids × Vector2)
    (h : ¬ (0 < Vector2Distance c n.center ∧ Vector2Distance c n.center < 40)) :
    separation_accum c n acc = acc := by
  unfold separation_accum
  simp only [separation_threshold_eq]
  rw [if_neg]
  intro hc
  exact h ⟨hc.2, hc.1⟩

theorem separation_accum_congr (c : Vector2) (n n2 : Boid) (acc acc2 : Boids × Vector2)
    (hn : n.center = n2.center) (h1 : acc.1.length = acc2.1.length) (h2 : acc.2 = acc2.2) :
    (separation_accum c n acc).1.length = (separation_accum c n2 acc2).1.length
      ∧ (separation_accum c n acc).2 = (separation_accum c n2 acc2).2 := by
  unfold separation_accum
  simp only [hn]
  split
  · simp only [List.length_append, h1, h2, List.length_singleton, and_self]
  · exact ⟨h1, h2⟩

theorem separation_foldl_congr (c : Vector2) (lbs lbs2 : Boids)
    (h : lbs.map (fun n => n.center) = lbs2.map (fun n => n.center)) :
    ∀ acc acc2 : Boids × Vector2, acc.1.length = acc2.1.length → acc.2 = acc2.2 →
      (lbs.foldl (fun acc n => separation_accum c n acc) acc).1.length
          = (lbs2.foldl (fun acc n => separation_accum c n acc) acc2).1.length
        ∧ (lbs.foldl (fun acc n => separation_accum c n acc) acc).2
          = (lbs2.foldl (fun acc n => separation_accum c n acc) acc2).2 := by
  induction lbs generalizing lbs2 with
  | nil =>
    cases lbs2 with
    | nil => intro acc acc2 h1 h2; exact ⟨h1, h2⟩
    | cons m ms => simp at h
  | cons n ns ih =>
    cases lbs2 with
    | nil => simp at h
    | cons m ms =>
      simp only [List.map_cons, List.cons.injEq] at h
      intro acc acc2 h1 h2
      have hs := separation_accum_congr c n m acc acc2 h.1 h1 h2
      simp only [List.foldl_cons]
      exact ih ms h.2 _ _ hs.1 hs.2

/-- What the inner loop of `separation` computes depends on the neighbours'
centres only. -/
theorem separation_close_congr (c : Vector2) (lbs lbs2 : Boids)
    (h : lbs.map (fun n => n.center) = lbs2.map (fun n => n.center)) :
    (separation_close c lbs).1.length = (separation_close c lbs2).1.length
      ∧ (separation_close c lbs).2 = (separation_close c lbs2).2 := by
  rw [separation_close_eq_foldl, separation_close_eq_foldl]
  exact separation_foldl_congr c lbs lbs2 h _ _ rfl rfl

theorem separation_body_items (s : Boids) (i : Nat) (hi : i < s.length) :
    items (separation_body i s) i
      = if (local_neighbours s i).length < 2 then items s i
        else if (separation_close (items s i).center (local_neighbours s i)).1.length > 0 then
          { items s i with
            direction := Vector2Normalize (Vector2Lerp (items s i).direction
              (Vector2Normalize (Vector2Scale
                (separation_close (items s i).center (local_neighbours s i)).2
                (1 / ((separation_close (items s i).center (local_neighbours s i)).1.length : ℝ))))
              (0.1 * ((items s i).speed / 3))) }
        else items s i := by
  unfold separation_body
  by_cases h : (local_neighbours s i).length < 2
  · simp only [if_pos h]
  · by_cases h2 : (separation_close (items s i).center (local_neighbours s i)).1.length > 0
    · simp only [if_neg h, if_pos h2]
      rw [items_set_self s i _ hi]
    · simp only [if_neg h, if_neg h2]

/-- The boid that `separation` leaves at position `i`, in terms of the
collection before the pass. -/
theorem separation_items (bs : Boids) (i : Nat) (hi : i < bs.length) :
    items (separation bs) i
      = if (local_neighbours bs i).length < 2 then items bs i
        else if (separation_close (items bs i).center (local_neighbours bs i)).1.length > 0 then
          { items bs i with
            direction := Vector2Normalize (Vector2Lerp (items bs i).direction
              (Vector2Normalize (Vector2Scale
                (separation_close (items bs i).center (local_neighbours bs i)).2
                (1 / ((separation_close (items bs i).center (local_neighbours bs i)).1.length : ℝ))))
              (0.1 * ((items bs i).speed / 3))) }
        else items bs i := by
  by_cases h2 : bs.length < 2
  · have hn : (local_neighbours bs i).length < 2 := by
      rw [local_neighbours_short bs i hi h2]
      exact Nat.zero_lt_two
    simp only [separation, if_pos h2, if_pos hn]
  · simp only [separation, if_neg h2]
    obtain ⟨h1, hf, h3⟩ := pass_items separation_body separation_body_write bs i hi
    have hi2 : i < (loop separation_body i bs).length := by rw [hf.1]; exact hi
    have hc := separation_close_congr (items bs i).center _ _
      (local_neighbours_centers bs _ i hf)
    rw [h1, separation_body_items _ i hi2, h3, local_neighbours_length bs _ i hf,
      hc.1, hc.2]

theorem separation_close_none (c : Vector2) (lbs : Boids)
    (h : ∀ n ∈ lbs, ¬ (0 < Vector2Distance c n.center ∧ Vector2Distance c n.center < 40)) :
    separation_close c lbs = ([], Vector2Zero) := by
  rw [separation_close_eq_foldl]
  generalize (([], Vector2Zero) : Boids × Vector2) = acc
  induction lbs generalizing acc with
  | nil => rfl
  | cons n ns ih =>
    rw [List.foldl_cons, separation_accum_far c n acc (h n (List.mem_cons_self n ns))]
    exact ih (fun m hm => h m (List.mem_cons_of_mem n hm)) acc

/-- The threshold `T = BOID_RADIUS / 3 = 40` of `separation` in exact arithmetic.
A neighbour at distance `T` or more adds nothing to the repulsion, and a boid
none of whose neighbours is at a distance strictly between `0` and `T` keeps
its heading (and everything else) through the pass. -/
theorem separation_threshold_exclusive (bs : Boids) (i : Nat) (hi : i < bs.length) :
    BOID_RADIUS / 3 = 40
      ∧ (∀ (n : Boid) (acc : Boids × Vector2),
          40 ≤ Vector2Distance (items bs i).center n.center →
          separation_accum (items bs i).center n acc = acc)
      ∧ ((∀ n ∈ local_neighbours bs i,
            ¬ (0 < Vector2Distance (items bs i).center n.center
              ∧ Vector2Distance (items bs i).center n.center < 40)) →
          items (separation bs) i = items bs i) := by
  refine ⟨separation_threshold_eq, ?_, ?_⟩
  · intro n acc hd
    exact separation_accum_far _ n acc (fun h => absurd h.2 (not_lt.mpr hd))
  · intro hnone
    rw [separation_items bs i hi, separation_close_none _ _ hnone]
    simp

theorem sqrt_1600 : Real.sqrt 1600 = 40 := by
  rw [show (1600 : ℝ) = 40 * 40 by norm_num]
  exact Real.sqrt_mul_self (by norm_num)

theorem pair_at_threshold_far (i : Nat) (hi : i < pair_at_threshold.length) :
    ∀ n ∈ local_neighbours pair_at_threshold i,
      ¬ (0 < Vector2Distance (items pair_at_threshold i).center n.center
        ∧ Vector2Distance (items pair_at_threshold i).center n.center < 40) := by
  have hi2 : i = 0 ∨ i = 1 := by
    simp only [pair_at_threshold, List.length_cons, List.length_nil] at hi
    omega
  intro n hn
  rw [local_neighbours_eq_filter] at hn
  rcases hi2 with h | h <;> subst h
  · norm_num [pair_at_threshold, List.range_succ, List.filter_cons, items_cons_zero,
      items_cons_succ, CheckCollisionCircles, boid_radius_eq] at hn
    rw [hn]
    norm_num [pair_at_threshold, items_cons_zero, Vector2Distance, sqrt_1600]
  · norm_num [pair_at_threshold, List.range_succ, List.filter_cons, items_cons_zero,
      items_cons_succ, CheckCollisionCircles, boid_radius_eq] at hn
    rw [hn]
    norm_num [pair_at_threshold, items_cons_zero, items_cons_succ, Vector2Distance, sqrt_1600]

theorem trio_at_threshold_far :
    ∀ n ∈ local_neighbours trio_at_threshold 0,
      ¬ (0 < Vector2Distance (items trio_at_threshold 0).center n.center
        ∧ Vector2Distance (items trio_at_threshold 0).center n.center < 40) := by
  intro n hn
  rw [local_neighbours_eq_filter] at hn
  norm_num [trio_at_threshold, List.range_succ, List.filter_cons, items_cons_zero,
    items_cons_succ, CheckCollisionCircles, boid_radius_eq] at hn
  rcases hn with h | h <;> rw [h] <;>
    norm_num [trio_at_threshold, items_cons_zero, Vector2Distance, sqrt_1600]

/-- The exact threshold at concrete inputs: two boids exactly 40 apart are both left unchanged
by `separation`; so is a boid with two neighbours, each exactly 40 away. -/
theorem separation_threshold_exclusive_witness :
    (0 < pair_at_threshold.length ∧ 1 < pair_at_threshold.length
        ∧ 0 < trio_at_threshold.length) ∧
      Vector2Distance (items pair_at_threshold 0).center (items pair_at_threshold 1).center
        = 40 ∧
      items (separation pair_at_threshold) 0 = items pair_at_threshold 0 ∧
      items (separation pair_at_threshold) 1 = items pair_at_threshold 1 ∧
      (local_neighbours trio_at_threshold 0).length = 2 ∧
      items (separation trio_at_threshold) 0 = items trio_at_threshold 0 := by
  refine ⟨⟨by decide, by decide, by decide⟩, ?_,
    (separation_threshold_exclusive pair_at_threshold 0 (by decide)).2.2
      (pair_at_threshold_far 0 (by decide)),
    (separation_threshold_exclusive pair_at_threshold 1 (by decide)).2.2
      (pair_at_threshold_far 1 (by decide)), ?_,
    (separation_threshold_exclusive trio_at_threshold 0 (by decide)).2.2
      trio_at_threshold_far⟩
  · norm_num [pair_at_threshold, items_cons_zero, items_cons_succ, Vector2Distance, sqrt_1600]
  · rw [local_neighbours_eq_filter]
    norm_num [trio_at_threshold, List.range_succ, List.filter_cons, items_cons_zero,
      items_cons_succ, CheckCollisionCircles, boid_radius_eq]

/-! ## C9: alignment of two boids -/

theorem local_neighbours_length_lt (bs : Boids) (i : Nat) (hi : i < bs.length) :
    (local_neighbours bs i).length < bs.length := by
  rw [local_neighbours_eq_filter, List.length_map]
  have h := (List.length_filter_lt_length_iff_exists
    (p := fun j => decide (j ≠ i) &&
      CheckCollisionCircles (items bs i).center BOID_RADIUS (items bs j).center BOID_RADIUS)
    (l := List.range bs.length)).mpr ⟨i, List.mem_range.mpr hi, by simp⟩
  rw [List.length_range] at h
  exact h

/-- C9: `alignment` on a collection of exactly two boids that are neighbours of
each other and have the same heading leaves both headings (indeed the whole
collection) unchanged. -/
theorem alignment_pair_unchanged (a b : Boid)
    (_hab : b ∈ local_neighbours [a, b] 0) (_hba : a ∈ local_neighbours [a, b] 1)
    (_hd : a.direction = b.direction) :
    alignment [a, b] = [a, b]
      ∧ (items (alignment [a, b]) 0).direction = a.direction
      ∧ (items (alignment [a, b]) 1).direction = b.direction := by
  have key : ∀ i, i < ([a, b] : Boids).length → items (alignment [a, b]) i = items [a, b] i := by
    intro i hi
    obtain ⟨_, hf, _⟩ := pass_items alignment_body alignment_body_write [a, b] i hi
    have hlt := local_neighbours_length_lt [a, b] i hi
    have hn : (local_neighbours (loop alignment_body i [a, b]) i).length < 2 := by
      rw [local_neighbours_length _ _ i hf]
      exact hlt
    rw [alignment_items [a, b] i hi, if_pos hn]
  have hall : alignment [a, b] = [a, b] :=
    ext_items _ _ (alignment_frame [a, b]).1
      (fun i hi => key i (by rw [(alignment_frame [a, b]).1] at hi; exact hi))
  refine ⟨hall, ?_, ?_⟩ <;> rw [hall] <;> rfl

/-- C9 at a concrete input: two boids ten apart, both heading `(1, 0)`. -/
theorem alignment_pair_unchanged_witness :
    (items aligned_pair 1 ∈ local_neighbours aligned_pair 0
        ∧ items aligned_pair 0 ∈ local_neighbours aligned_pair 1
        ∧ (items aligned_pair 0).direction = (items aligned_pair 1).direction) ∧
      alignment aligned_pair = aligned_pair := by
  have h1 : items aligned_pair 1 ∈ local_neighbours aligned_pair 0 := by
    rw [local_neighbours_eq_filter]
    norm_num [aligned_pair, List.range_succ, List.filter_cons, items_cons_zero,
      items_cons_succ, CheckCollisionCircles, boid_radius_eq]
  have h2 : items aligned_pair 0 ∈ local_neighbours aligned_pair 1 := by
    rw [local_neighbours_eq_filter]
    norm_num [aligned_pair, List.range_succ, List.filter_cons, items_cons_zero,
      items_cons_succ, CheckCollisionCircles, boid_radius_eq]
  exact ⟨⟨h1, h2, rfl⟩,
    (alignment_pair_unchanged (items aligned_pair 0) (items aligned_pair 1) h1 h2 rfl).1⟩

/-! ## C11: the push at the left edge -/

/-- C11: for a boid with `center.x = 0` and positive speed, whatever its heading,
its `center.y` and the window size, the push vector of `avoid_walls` has the x
component `0.155 * speed / 3`, which is strictly positive. -/
theorem left_edge_push (b : Boid) (W H : ℤ) (hx : b.center.x = 0) (hs : 0 < b.speed) :
    (avoid_walls_steer W H b).x = 0.155 * b.speed / 3 ∧ 0 < (avoid_walls_steer W H b).x := by
  have hl : b.center.x < 50 + b.speed * 5 := by rw [hx]; linarith
  have e : (avoid_walls_steer W H b).x = 0.155 * b.speed / 3 := by
    simp only [avoid_walls_steer, if_pos hl]
    split_ifs <;> simp only <;> ring
  refine ⟨e, ?_⟩
  rw [e]
  linarith

/-- C11 at a concrete input: a boid at `(0, 450)` heading `(-1, 0)` with speed 3
in the 1600 by 900 window. -/
theorem left_edge_push_witness :
    (left_edge_boid.center.x = 0 ∧ 0 < left_edge_boid.speed) ∧
      (avoid_walls_steer 1600 900 left_edge_boid).x = 0.155 * left_edge_boid.speed / 3 ∧
      0 < (avoid_walls_steer 1600 900 left_edge_boid).x :=
  ⟨⟨rfl, by norm_num [left_edge_boid]⟩,
    left_edge_push left_edge_boid 1600 900 rfl (by norm_num [left_edge_boid])⟩

/-! ## C12: the empty collection -/

/-- C12: on the empty collection each of `separation`, `alignment`, `cohesion`
and the avoid-and-move loop returns the empty collection, and so does the whole
simulation step, for every window size. -/
theorem step_empty (W H : ℤ) :
    separation [] = [] ∧ alignment [] = [] ∧ cohesion [] = [] ∧
      loop (integrate_body W H) ([] : Boids).length [] = [] ∧ step W H [] = [] := by
  have hs : separation [] = [] := by simp [separation]
  have ha : alignment [] = [] := by simp [alignment]
  have hc : cohesion [] = [] := by simp [cohesion]
  refine ⟨hs, ha, hc, rfl, ?_⟩
  simp only [step, hs, ha, hc]
  rfl

/-! ## C13: the frame of the rules -/

theorem items_default_speed (bs cs : Boids) (j : Nat) (h1 : bs.length ≤ j)
    (h2 : cs.length ≤ j) : items cs j = items bs j := by
  rw [items_of_le bs j h1, items_of_le cs j h2]

theorem step_speed (W H : ℤ) (bs : Boids) (j : Nat) :
    (items (step W H bs) j).speed = (items bs j).speed := by
  by_cases hj : j < bs.length
  · have hf := rules_frame bs
    have hj2 : j < (cohesion (alignment (separation bs))).length := by rw [hf.1]; exact hj
    rw [step_eq_map, items_map _ _ j hj2]
    simp only [avoid_and_move, avoid_walls_speed]
    exact (hf.2 j).2
  · rw [items_default_speed bs (step W H bs) j (Nat.le_of_not_lt hj)
      (by rw [step_length]; exact Nat.le_of_not_lt hj)]

/-- C13: `separation`, `alignment` and `cohesion` return a collection of the
same length in which every position holds the same centre and the same speed
as before; `avoid_walls` leaves the centre and the speed of its boid as they
are; hence a simulation step keeps the number of boids and, position by
position, every speed. -/
theorem rules_write_headings_only (W H : ℤ) (bs : Boids) :
    ((separation bs).length = bs.length ∧
        ∀ j, (items (separation bs) j).center = (items bs j).center
          ∧ (items (separation bs) j).speed = (items bs j).speed)
      ∧ ((alignment bs).length = bs.length ∧
        ∀ j, (items (alignment bs) j).center = (items bs j).center
          ∧ (items (alignment bs) j).speed = (items bs j).speed)
      ∧ ((cohesion bs).length = bs.length ∧
        ∀ j, (items (cohesion bs) j).center = (items bs j).center
          ∧ (items (cohesion bs) j).speed = (items bs j).speed)
      ∧ (∀ b : Boid, (avoid_walls W H b).center = b.center
          ∧ (avoid_walls W H b).speed = b.speed)
      ∧ ((step W H bs).length = bs.length ∧
        ∀ j, (items (step W H bs) j).speed = (items bs j).speed) :=
  ⟨separation_frame bs, alignment_frame bs, cohesion_frame bs,
    fun b => ⟨avoid_walls_center W H b, avoid_walls_speed W H b⟩,
    step_length W H bs, step_speed W H bs⟩

/-! ## C14: the push rule of `avoid_walls` -/

theorem avoid_walls_of_zero (W H : ℤ) (b : Boid) (h : avoid_walls_steer W H b = ⟨0, 0⟩) :
    avoid_walls W H b = b := by
  have hl : ¬ Vector2Length (avoid_walls_steer W H b) > 0 := by
    rw [h, length_zero]; exact lt_irrefl 0
  simp only [avoid_walls, if_neg hl]

theorem avoid_walls_of_ne_zero (W H : ℤ) (b : Boid) (h : avoid_walls_steer W H b ≠ ⟨0, 0⟩) :
    avoid_walls W H b
      = { b with direction := Vector2Normalize (Vector2Add b.direction
          (avoid_walls_steer W H b)) } := by
  have hl : Vector2Length (avoid_walls_steer W H b) > 0 := by
    rw [gt_iff_lt, length_pos_iff]
    by_contra hneg
    have hx0 := mul_self_nonneg (avoid_walls_steer W H b).x
    have hy0 := mul_self_nonneg (avoid_walls_steer W H b).y
    have hx : (avoid_walls_steer W H b).x = 0 := mul_self_eq_zero.mp (by linarith)
    have hy : (avoid_walls_steer W H b).y = 0 := mul_self_eq_zero.mp (by linarith)
    exact h (Vector2.ext hx hy)
  simp only [avoid_walls, if_pos hl]

/-- C14: with `L = 50 + 5 * speed` and `s = 0.155 * speed / 3`, the x component of
the push of `avoid_walls` is `s` if `center.x < L`, otherwise `-s` if
`center.x > W - L`, otherwise `0`, and the same for y with `H`; the second test
of an axis is reached only when the first fails, whatever `W` and `H`.  If the
push is the zero vector the boid is unchanged; otherwise its heading becomes
`normalize(heading + push)`. -/
theorem avoid_walls_push_rule (W H : ℤ) (b : Boid) :
    (avoid_walls_steer W H b).x
        = (if b.center.x < 50 + 5 * b.speed then 0.155 * b.speed / 3
          else if b.center.x > (W : ℝ) - (50 + 5 * b.speed) then -(0.155 * b.speed / 3)
          else 0)
      ∧ (avoid_walls_steer W H b).y
        = (if b.center.y < 50 + 5 * b.speed then 0.155 * b.speed / 3
          else if b.center.y > (H : ℝ) - (50 + 5 * b.speed) then -(0.155 * b.speed / 3)
          else 0)
      ∧ (avoid_walls_steer W H b = ⟨0, 0⟩ → avoid_walls W H b = b)
      ∧ (avoid_walls_steer W H b ≠ ⟨0, 0⟩ →
          avoid_walls W H b
            = { b with direction := Vector2Normalize (Vector2Add b.direction
                (avoid_walls_steer W H b)) }) := by
  have hL : 50 + b.speed * 5 = 50 + 5 * b.speed := by ring
  refine ⟨?_, ?_, avoid_walls_of_zero W H b, avoid_walls_of_ne_zero W H b⟩
  · simp only [avoid_walls_steer, hL]
    split_ifs <;> simp only <;> ring
  · simp only [avoid_walls_steer, hL]
    split_ifs <;> simp only <;> ring

/-! ## C15: the damped turn -/

theorem centroid_singleton (n : Boid) : centroid [n] = n.center := by
  simp [centroid]

/-- C16: a boid with fewer than two neighbours (as `local_neighbours` returns
them) is left unchanged by `separation`, however close its single neighbour
is, and by `alignment`; `cohesion` does turn a boid with exactly one neighbour
`n`: its heading becomes
`normalize(lerp(heading, normalize(n.center - center), 0.05 * speed / 3))`. -/
theorem neighbour_count_thresholds (bs : Boids) (i : Nat) (hi : i < bs.length) :
    ((local_neighbours bs i).length < 2 → items (separation bs) i = items bs i)
      ∧ ((local_neighbours bs i).length < 2 → items (alignment bs) i = items bs i)
      ∧ (∀ n : Boid, local_neighbours bs i = [n] →
          (items (cohesion bs) i).direction
            = Vector2Normalize (Vector2Lerp (items bs i).direction
                (Vector2Normalize (Vector2Subtract n.center (items bs i).center))
                (0.05 * (items bs i).speed / 3))) := by
  refine ⟨?_, ?_, ?_⟩
  · intro h
    rw [separation_items bs i hi, if_pos h]
  · intro h
    obtain ⟨_, hf, _⟩ := pass_items alignment_body alignment_body_write bs i hi
    have hn : (local_neighbours (loop alignment_body i bs) i).length < 2 := by
      rw [local_neighbours_length bs _ i hf]; exact h
    rw [alignment_items bs i hi, if_pos hn]
  · intro n hn
    have h1 : ¬ (local_neighbours bs i).length < 1 := by
      rw [hn, List.length_singleton]; exact Nat.lt_irrefl 1
    rw [cohesion_items bs i hi, if_neg h1, cohesion_desired_eq, hn, centroid_singleton,
      mul_div_assoc]

theorem close_pair_neighbours :
    local_neighbours close_pair 0 = [items close_pair 1] := by
  rw [local_neighbours_eq_filter]
  norm_num [close_pair, List.range_succ, List.filter_cons, items_cons_zero, items_cons_succ,
    CheckCollisionCircles, boid_radius_eq]

/-- C16 at a concrete input: in `close_pair` the first boid has one neighbour,
ten away; `separation` and `alignment` leave it unchanged, and `cohesion` turns
its heading away from `(1, 0)`. -/
theorem neighbour_count_thresholds_witness :
    (0 < close_pair.length ∧ (local_neighbours close_pair 0).length < 2
        ∧ local_neighbours close_pair 0 = [items close_pair 1]) ∧
      Vector2Distance (items close_pair 0).center (items close_pair 1).center = 10 ∧
      items (separation close_pair) 0 = items close_pair 0 ∧
      items (alignment close_pair) 0 = items close_pair 0 ∧
      (items (cohesion close_pair) 0).direction ≠ (items close_pair 0).direction := by
  have h0 : 0 < close_pair.length := by decide
  have hlen : (local_neighbours close_pair 0).length < 2 := by
    rw [close_pair_neighbours]; decide
  have h := neighbour_count_thresholds close_pair 0 h0
  refine ⟨⟨h0, hlen, close_pair_neighbours⟩, ?_, h.1 hlen, h.2.1 hlen, ?_⟩
  · have h100 : Real.sqrt 100 = 10 := by
      rw [show (100 : ℝ) = 10 * 10 by norm_num]
      exact Real.sqrt_mul_self (by norm_num)
    norm_num [close_pair, items_cons_zero, items_cons_succ, Vector2Distance, h100]
  · rw [h.2.2 _ close_pair_neighbours]
    intro heq
    have hy := congrArg Vector2.y heq
    have hd : 0 < (Vector2Normalize
        (Vector2Subtract (items close_pair 1).center (items close_pair 0).center)).y := by
      apply normalize_y_pos
      norm_num [close_pair, items_cons_zero, items_cons_succ, Vector2Subtract]
    have hpos : 0 < (Vector2Normalize (Vector2Lerp (items close_pair 0).direction
        (Vector2Normalize
          (Vector2Subtract (items close_pair 1).center (items close_pair 0).center))
        (0.05 * (items close_pair 0).speed / 3))).y := by
      apply normalize_y_pos
      have e0 : (items close_pair 0).direction.y = 0 := rfl
      have e1 : (items close_pair 0).speed = 3 := rfl
      simp only [Vector2Lerp, e0, e1]
      nlinarith
    rw [hy] at hpos
    have e0 : (items close_pair 0).direction.y = 0 := rfl
    rw [e0] at hpos
    exact lt_irrefl _ hpos

/-! ## The repulsion weights of `separation` in exact arithmetic -/

theorem separation_accum_close (c : Vector2) (n : Boid) (acc : Boids × Vector2)
    (h : 0 < Vector2Distance c n.center ∧ Vector2Distance c n.center < 40) :
    separation_accum c n acc = (acc.1 ++ [n], Vector2Add acc.2 (repulsion c n)) := by
  unfold separation_accum repulsion
  simp only [separation_threshold_eq]
  rw [if_pos ⟨h.2, h.1⟩]

theorem separation_foldl_eq (c : Vector2) (lbs : Boids) :
    ∀ acc : Boids × Vector2,
      lbs.foldl (fun acc n => separation_accum c n acc) acc
        = (acc.1 ++ close_neighbours c lbs,
           ((close_neighbours c lbs).map (repulsion c)).foldl Vector2Add acc.2) := by
  induction lbs with
  | nil => intro acc; simp [close_neighbours]
  | cons n ns ih =>
    intro acc
    rw [List.foldl_cons]
    by_cases h : 0 < Vector2Distance c n.center ∧ Vector2Distance c n.center < 40
    · rw [separation_accum_close c n acc h, ih]
      have hf : close_neighbours c (n :: ns) = n :: close_neighbours c ns := by
        simp only [close_neighbours, List.filter_cons, decide_eq_true h, if_true]
      rw [hf]
      simp
    · rw [separation_accum_far c n acc h, ih]
      have hf : close_neighbours c (n :: ns) = close_neighbours c ns := by
        simp only [close_neighbours, List.filter_cons, decide_eq_false h]
        rfl
      rw [hf]

/-- The inner loop of `separation` collects the close neighbours and sums their
repulsions. -/
theorem separation_close_eq (c : Vector2) (lbs : Boids) :
    separation_close c lbs
      = (close_neighbours c lbs,
         ⟨((close_neighbours c lbs).map (fun n => (repulsion c n).x)).sum,
          ((close_neighbours c lbs).map (fun n => (repulsion c n).y)).sum⟩) := by
  rw [separation_close_eq_foldl, separation_foldl_eq, foldl_add_eq]
  simp [Vector2Zero, List.map_map, Function.comp_def]

theorem repulsion_unit (c : Vector2) (n : Boid) (h : 0 < Vector2Distance c n.center) :
    Vector2Length (Vector2Normalize (Vector2Subtract c n.center)) = 1 := by
  apply normalize_length
  exact Real.sqrt_pos.mp h

/-- The repulsion weights in exact arithmetic: for a boid with at least two neighbours, a neighbour at distance `dist`
with `0 < dist < T = 40` adds to the repulsion the unit vector from that
neighbour towards the boid scaled by `w = (T - dist) / T`, where `0 < w < 1` and
`w` decreases strictly as `dist` grows; when at least one neighbour is that
close, the desired direction is the normalised average of these contributions
and the heading after the pass is
`normalize(lerp(heading, desired, 0.1 * speed / 3))`. -/
theorem separation_weights (bs : Boids) (i : Nat) (hi : i < bs.length)
    (h2 : 2 ≤ (local_neighbours bs i).length)
    (hc : close_neighbours (items bs i).center (local_neighbours bs i) ≠ []) :
    (∀ n ∈ local_neighbours bs i,
        0 < Vector2Distance (items bs i).center n.center →
        Vector2Distance (items bs i).center n.center < 40 →
        (∀ acc : Boids × Vector2,
            separation_accum (items bs i).center n acc
              = (acc.1 ++ [n], Vector2Add acc.2
                  (Vector2Scale (Vector2Normalize (Vector2Subtract (items bs i).center n.center))
                    ((40 - Vector2Distance (items bs i).center n.center) / 40))))
          ∧ Vector2Length (Vector2Normalize (Vector2Subtract (items bs i).center n.center)) = 1
          ∧ 0 < (40 - Vector2Distance (items bs i).center n.center) / 40
          ∧ (40 - Vector2Distance (items bs i).center n.center) / 40 < 1)
      ∧ (∀ d1 d2 : ℝ, d1 < d2 → (40 - d2) / 40 < (40 - d1) / 40)
      ∧ BOID_RADIUS / 3 = 40
      ∧ (items (separation bs) i).direction
        = Vector2Normalize (Vector2Lerp (items bs i).direction
            (Vector2Normalize (repulsion_average (items bs i).center (local_neighbours bs i)))
            (0.1 * (items bs i).speed / 3)) := by
  refine ⟨?_, ?_, separation_threshold_eq, ?_⟩
  · intro n _ h0 h40
    refine ⟨fun acc => separation_accum_close _ n acc ⟨h0, h40⟩, repulsion_unit _ n h0, ?_, ?_⟩
    · apply div_pos <;> linarith
    · rw [div_lt_one (by norm_num)]; linarith
  · intro d1 d2 h
    apply div_lt_div_of_pos_right _ (by norm_num)
    linarith
  · have hlen : ¬ (local_neighbours bs i).length < 2 := by omega
    have hpos : (close_neighbours (items bs i).center (local_neighbours bs i)).length > 0 :=
      List.length_pos.mpr hc
    rw [separation_items bs i hi, if_neg hlen, separation_close_eq]
    simp only [if_pos hpos, Vector2Scale, repulsion_average, mul_one_div, mul_div_assoc]

theorem sqrt_100 : Real.sqrt 100 = 10 := by
  rw [show (100 : ℝ) = 10 * 10 by norm_num]
  exact Real.sqrt_mul_self (by norm_num)

theorem crowded_neighbours :
    local_neighbours crowded 0 = [items crowded 1, items crowded 2] := by
  rw [local_neighbours_eq_filter]
  norm_num [crowded, List.range_succ, List.filter_cons, items_cons_zero, items_cons_succ,
    CheckCollisionCircles, boid_radius_eq]

theorem crowded_close :
    close_neighbours (items crowded 0).center (local_neighbours crowded 0) ≠ [] := by
  have hm : items crowded 1
      ∈ close_neighbours (items crowded 0).center (local_neighbours crowded 0) := by
    rw [crowded_neighbours]
    simp only [close_neighbours, List.mem_filter, List.mem_cons, true_or, true_and,
      decide_eq_true_eq]
    norm_num [crowded, items_cons_zero, items_cons_succ, Vector2Distance, sqrt_100]
  exact List.ne_nil_of_mem hm

/-- The exact repulsion weights at a concrete input: in `crowded` the first boid has two neighbours, at
distances 10 and 20, both closer than 40. -/
theorem separation_weights_witness :
    (0 < crowded.length ∧ 2 ≤ (local_neighbours crowded 0).length
        ∧ close_neighbours (items crowded 0).center (local_neighbours crowded 0) ≠ []) ∧
      (items (separation crowded) 0).direction
        = Vector2Normalize (Vector2Lerp (items crowded 0).direction
            (Vector2Normalize
              (repulsion_average (items crowded 0).center (local_neighbours crowded 0)))
            (0.1 * (items crowded 0).speed / 3)) := by
  have h0 : 0 < crowded.length := by decide
  have h2 : 2 ≤ (local_neighbours crowded 0).length := by
    rw [crowded_neighbours]; decide
  exact ⟨⟨h0, h2, crowded_close⟩, (separation_weights crowded 0 h0 h2 crowded_close).2.2.2⟩

/-! ## C18: separation and cohesion do not depend on the iteration order -/

theorem items_simultaneous (body : Nat → Boids → Boids) (bs : Boids) (i : Nat)
    (hi : i < bs.length) : items (simultaneous body bs) i = items (body i bs) i := by
  unfold simultaneous
  have hl : i < ((List.range bs.length).map (fun i => items (body i bs) i)).length := by
    rw [List.length_map, List.length_range]; exact hi
  rw [items_eq_getElem _ i hl, List.getElem_map, List.getElem_range]

theorem simultaneous_length (body : Nat → Boids → Boids) (bs : Boids) :
    (simultaneous body bs).length = bs.length := by
  unfold simultaneous
  rw [List.length_map, List.length_range]

/-- C18: the in-place, index-order pass of `separation` returns the collection
obtained by computing every boid's new heading from the collection as it was
before the pass, and so does the pass of `cohesion`; the reason is that what an
iteration stores depends on the centres and speeds, which no iteration writes,
and on the boid's own heading. -/
theorem separation_cohesion_order_independent (bs : Boids) :
    separation bs = simultaneous separation_body bs
      ∧ cohesion bs = simultaneous cohesion_body bs
      ∧ (∀ (s : Boids) (i : Nat), i < bs.length → SameFrame bs s → items s i = items bs i →
          items (separation_body i s) i = items (separation_body i bs) i
            ∧ items (cohesion_body i s) i = items (cohesion_body i bs) i) := by
  refine ⟨?_, ?_, ?_⟩
  · apply ext_items
    · rw [(separation_frame bs).1, simultaneous_length]
    · intro i hi
      rw [(separation_frame bs).1] at hi
      rw [items_simultaneous _ bs i hi, separation_items bs i hi,
        separation_body_items bs i hi]
  · apply ext_items
    · rw [(cohesion_frame bs).1, simultaneous_length]
    · intro i hi
      rw [(cohesion_frame bs).1] at hi
      rw [items_simultaneous _ bs i hi, cohesion_items bs i hi, cohesion_body_items bs i hi]
  · intro s i hi hf hs
    have hi2 : i < s.length := by rw [hf.1]; exact hi
    have hc := separation_close_congr (items bs i).center _ _
      (local_neighbours_centers bs s i hf)
    constructor
    · rw [separation_body_items s i hi2, separation_body_items bs i hi, hs,
        local_neighbours_length bs s i hf, hc.1, hc.2]
    · rw [cohesion_body_items s i hi2, cohesion_body_items bs i hi, hs,
        local_neighbours_length bs s i hf, cohesion_desired_eq, cohesion_desired_eq,
        centroid_congr _ _ (local_neighbours_centers bs s i hf)]

/-! ## C19: an aligned flock -/

theorem round_half_even_eq (y : ℝ) (m : ℤ) (h : |y - m| < 1 / 2) : round_half_even y = m := by
  have h1 := abs_lt.mp h
  by_cases hm : (m : ℝ) ≤ y
  · have hf : ⌊y⌋ = m := by
      rw [Int.floor_eq_iff]
      constructor
      · exact hm
      · linarith [h1.2]
    unfold round_half_even
    rw [hf, if_pos (by linarith [h1.2])]
  · have hf : ⌊y⌋ = m - 1 := by
      rw [Int.floor_eq_iff]
      push_cast
      constructor
      · linarith [h1.1]
      · linarith [lt_of_not_ge hm]
    unfold round_half_even
    rw [hf]
    push_cast
    rw [if_neg (by linarith [h1.1]), if_pos (by linarith [h1.1])]
    ring

theorem round_half_even_err (y : ℝ) : |(round_half_even y : ℝ) - y| ≤ 1 / 2 := by
  have hfl := Int.floor_le y
  have hlt := Int.lt_floor_add_one y
  unfold round_half_even
  split_ifs with h1 h2 h3
  · rw [abs_le]; constructor <;> linarith
  · rw [abs_le]; push_cast; constructor <;> linarith
  · rw [abs_le]; constructor <;> linarith
  · rw [abs_le]; push_cast; constructor <;> linarith

theorem ulp_exponent_eq (x : ℝ) (e : ℤ) (he : -149 ≤ e) (hx : x ≠ 0)
    (hlo : e = -149 ∨ (2 : ℝ) ^ (e + 23) ≤ |x|) (hhi : |x| < (2 : ℝ) ^ (e + 24)) :
    ulp_exponent x = e := by
  have hpos : 0 < |x| := abs_pos.mpr hx
  have h2 : ((2 : ℕ) : ℝ) = 2 := by norm_num
  have hlt : Int.log 2 |x| < e + 24 := by
    rw [← Int.lt_zpow_iff_log_lt (by norm_num) hpos, h2]
    exact hhi
  unfold ulp_exponent
  rcases hlo with h | h
  · rw [h] at hlt ⊢
    exact max_eq_right (by omega)
  · have hle : e + 23 ≤ Int.log 2 |x| := by
      rw [← Int.zpow_le_iff_le_log (by norm_num) hpos, h2]
      exact h
    have : Int.log 2 |x| - 23 = e := by omega
    rw [this]
    exact max_eq_left he

theorem binary32_zero : binary32 0 = 0 := by
  have h : round_half_even 0 = 0 := round_half_even_eq 0 0 (by norm_num)
  simp [binary32, h]

/-- How a rounding is checked: `binary32 x = m * 2 ^ e` when `e` is the exponent
of the last place at `x` and `x` is strictly within half a unit of `m * 2 ^ e`. -/
theorem binary32_eq (x : ℝ) (m e : ℤ) (he : -149 ≤ e)
    (hlo : e = -149 ∨ (2 : ℝ) ^ (e + 23) ≤ |x|) (hhi : |x| < (2 : ℝ) ^ (e + 24))
    (hm : |x - (m : ℝ) * (2 : ℝ) ^ e| < (2 : ℝ) ^ e / 2) :
    binary32 x = (m : ℝ) * (2 : ℝ) ^ e := by
  have hp : (0 : ℝ) < (2 : ℝ) ^ e := zpow_pos (by norm_num) e
  by_cases hx : x = 0
  · subst hx
    have hm0 : m = 0 := by
      by_contra hne
      have h1 : (1 : ℝ) ≤ |(m : ℝ)| := by
        have : (1 : ℤ) ≤ |m| := Int.one_le_abs hne
        exact_mod_cast this
      rw [zero_sub, abs_neg, abs_mul, abs_of_pos hp] at hm
      nlinarith
    rw [binary32_zero, hm0]
    simp
  · have hu := ulp_exponent_eq x e he hx hlo hhi
    unfold binary32
    rw [hu]
    have hr : round_half_even (x / (2 : ℝ) ^ e) = m := by
      apply round_half_even_eq
      have : x / (2 : ℝ) ^ e - m = (x - m * (2 : ℝ) ^ e) / (2 : ℝ) ^ e := by
        field_simp
        ring
      rw [this, abs_div, abs_of_pos hp, div_lt_iff₀ hp]
      linarith
    rw [hr]

/-- A value `m * 2 ^ e` with a 24-bit `m` is a binary32 number: rounding keeps it. -/
theorem binary32_exact (m e : ℤ) (he : -149 ≤ e) (hm : |m| < 2 ^ 24)
    (hlo : e = -149 ∨ 2 ^ 23 ≤ |m|) : binary32 ((m : ℝ) * (2 : ℝ) ^ e) = (m : ℝ) * (2 : ℝ) ^ e := by
  have hp : (0 : ℝ) < (2 : ℝ) ^ e := zpow_pos (by norm_num) e
  apply binary32_eq _ m e he
  · rcases hlo with h | h
    · exact Or.inl h
    · right
      rw [abs_mul, abs_of_pos hp, zpow_add₀ (by norm_num : (2 : ℝ) ≠ 0), mul_comm]
      apply mul_le_mul_of_nonneg_right _ (le_of_lt hp)
      have : ((2 : ℤ) ^ 23 : ℤ) ≤ |m| := h
      have h2 : (((2 : ℤ) ^ 23 : ℤ) : ℝ) ≤ ((|m| : ℤ) : ℝ) := by exact_mod_cast this
      rw [Int.cast_abs] at h2
      push_cast at h2
      exact le_trans (le_of_eq (by norm_num)) h2
  · rw [abs_mul, abs_of_pos hp, zpow_add₀ (by norm_num : (2 : ℝ) ≠ 0), mul_comm ((2:ℝ)^e)]
    apply mul_lt_mul_of_pos_right _ hp
    have h2 : ((|m| : ℤ) : ℝ) < (((2 : ℤ) ^ 24 : ℤ) : ℝ) := by exact_mod_cast hm
    rw [Int.cast_abs] at h2
    push_cast at h2
    exact lt_of_lt_of_le h2 (le_of_eq (by norm_num))
  · simp [hp]

/-! ## Single-precision rounding: checking a concrete rounding -/

/-- Checking a rounding with a positive result `r = m * 2 ^ e`. -/
theorem binary32_val_pos (x r : ℝ) (m e : ℤ) (hr : r = (m : ℝ) * (2 : ℝ) ^ e) (he : -149 ≤ e)
    (hlo : e = -149 ∨ (2 : ℝ) ^ (e + 23) ≤ x) (hhi : x < (2 : ℝ) ^ (e + 24)) (hx : 0 < x)
    (h1 : r - (2 : ℝ) ^ e / 2 < x) (h2 : x < r + (2 : ℝ) ^ e / 2) : binary32 x = r := by
  rw [hr]
  apply binary32_eq x m e he
  · rw [abs_of_pos hx]; exact hlo
  · rw [abs_of_pos hx]; exact hhi
  · rw [← hr, abs_lt]; constructor <;> linarith

/-- Checking a rounding with a negative result `r = -(m * 2 ^ e)`. -/
theorem binary32_val_neg (x r : ℝ) (m e : ℤ) (hr : r = -((m : ℝ) * (2 : ℝ) ^ e)) (he : -149 ≤ e)
    (hlo : e = -149 ∨ (2 : ℝ) ^ (e + 23) ≤ -x) (hhi : -x < (2 : ℝ) ^ (e + 24)) (hx : x < 0)
    (h1 : r - (2 : ℝ) ^ e / 2 < x) (h2 : x < r + (2 : ℝ) ^ e / 2) : binary32 x = r := by
  have h := binary32_eq x (-m) e he (by rw [abs_of_neg hx]; exact hlo)
    (by rw [abs_of_neg hx]; exact hhi)
    (by
      have : ((-m : ℤ) : ℝ) * (2 : ℝ) ^ e = r := by rw [hr]; push_cast; ring
      rw [this, abs_lt]; constructor <;> linarith)
  rw [h, hr]
  push_cast
  ring

theorem binary32_val_zero (x : ℝ) (hx : x = 0) : binary32 x = 0 := by
  rw [hx, binary32_zero]

/-- Checking the rounding of a square root: `sqrtf x = r` with `r = m * 2 ^ e`
when `x` lies strictly between the squares of `r` minus and plus half a unit. -/
theorem binary32_sqrt_val (x r lo hi : ℝ) (m e : ℤ) (hr : r = (m : ℝ) * (2 : ℝ) ^ e)
    (he : -149 ≤ e) (hlo : lo = (2 : ℝ) ^ (e + 23)) (hhi : hi = (2 : ℝ) ^ (e + 24))
    (h1 : lo * lo ≤ x) (h2 : x < hi * hi)
    (h3 : 0 < r - (2 : ℝ) ^ e / 2)
    (h4 : (r - (2 : ℝ) ^ e / 2) * (r - (2 : ℝ) ^ e / 2) < x)
    (h5 : x < (r + (2 : ℝ) ^ e / 2) * (r + (2 : ℝ) ^ e / 2)) :
    binary32 (Real.sqrt x) = r := by
  have hp : (0 : ℝ) < (2 : ℝ) ^ e := zpow_pos (by norm_num) e
  have hlo0 : 0 < lo := by rw [hlo]; exact zpow_pos (by norm_num) _
  have hhi0 : 0 < hi := by rw [hhi]; exact zpow_pos (by norm_num) _
  have hx0 : 0 < x := lt_of_lt_of_le (mul_pos hlo0 hlo0) h1
  have hs0 : 0 < Real.sqrt x := Real.sqrt_pos.mpr hx0
  have hss : Real.sqrt x * Real.sqrt x = x := Real.mul_self_sqrt (le_of_lt hx0)
  apply binary32_val_pos (Real.sqrt x) r m e hr he
  · right
    rw [← hlo]
    by_contra hc
    have := mul_self_lt_mul_self (le_of_lt hs0) (lt_of_not_ge hc)
    linarith
  · rw [← hhi]
    by_contra hc
    have := mul_self_le_mul_self (le_of_lt hhi0) (le_of_not_gt hc)
    linarith
  · exact hs0
  · by_contra hc
    have := mul_self_le_mul_self (le_of_lt hs0) (le_of_not_gt hc)
    linarith
  · by_contra hc
    have hr0 : 0 ≤ r + (2 : ℝ) ^ e / 2 := by linarith
    have := mul_self_le_mul_self hr0 (le_of_not_gt hc)
    linarith

/-- A value halfway between two integers rounds to the even one. -/
theorem round_half_even_tie_up (m : ℤ) (hm : m % 2 = 0) :
    round_half_even ((m : ℝ) - 1 / 2) = m := by
  have hf : ⌊(m : ℝ) - 1 / 2⌋ = m - 1 := by
    rw [Int.floor_eq_iff]
    push_cast
    constructor <;> linarith
  unfold round_half_even
  rw [hf]
  push_cast
  rw [if_neg (by linarith), if_neg (by linarith), if_neg (by omega)]
  ring

theorem round_half_even_tie_down (m : ℤ) (hm : m % 2 = 0) :
    round_half_even ((m : ℝ) + 1 / 2) = m := by
  have hf : ⌊(m : ℝ) + 1 / 2⌋ = m := by
    rw [Int.floor_eq_iff]
    constructor <;> linarith
  unfold round_half_even
  rw [hf]
  rw [if_neg (by linarith), if_neg (by linarith), if_pos hm]

/-- Checking a rounding that is a tie: `x` lies halfway between `r = m * 2 ^ e`,
with `m` even, and one of its two neighbours. -/
theorem binary32_val_tie (x r : ℝ) (m e : ℤ) (hr : r = (m : ℝ) * (2 : ℝ) ^ e) (he : -149 ≤ e)
    (hlo : e = -149 ∨ (2 : ℝ) ^ (e + 23) ≤ |x|) (hhi : |x| < (2 : ℝ) ^ (e + 24))
    (hx : x ≠ 0) (hm : m % 2 = 0)
    (h : x = r + (2 : ℝ) ^ e / 2 ∨ x = r - (2 : ℝ) ^ e / 2) : binary32 x = r := by
  have hp : (0 : ℝ) < (2 : ℝ) ^ e := zpow_pos (by norm_num) e
  have hu : ulp_exponent x = e := ulp_exponent_eq x e he hx hlo hhi
  unfold binary32
  rw [hu, hr]
  congr 1
  rcases h with h | h
  · have : x / (2 : ℝ) ^ e = (m : ℝ) + 1 / 2 := by
      rw [h, hr]; field_simp; ring
    rw [this, round_half_even_tie_down m hm]
  · have : x / (2 : ℝ) ^ e = (m : ℝ) - 1 / 2 := by
      rw [h, hr]; field_simp; ring
    rw [this, round_half_even_tie_up m hm]

theorem binary32_val_tie_pos (x r : ℝ) (m e : ℤ) (hr : r = (m : ℝ) * (2 : ℝ) ^ e)
    (he : -149 ≤ e) (hlo : e = -149 ∨ (2 : ℝ) ^ (e + 23) ≤ x) (hhi : x < (2 : ℝ) ^ (e + 24))
    (hx : 0 < x) (hm : m % 2 = 0)
    (h : x = r + (2 : ℝ) ^ e / 2 ∨ x = r - (2 : ℝ) ^ e / 2) : binary32 x = r :=
  binary32_val_tie x r m e hr he (by rw [abs_of_pos hx]; exact hlo)
    (by rw [abs_of_pos hx]; exact hhi) (ne_of_gt hx) hm h

theorem binary32_val_tie_neg (x r : ℝ) (m e : ℤ) (hr : r = -((m : ℝ) * (2 : ℝ) ^ e))
    (he : -149 ≤ e) (hlo : e = -149 ∨ (2 : ℝ) ^ (e + 23) ≤ -x) (hhi : -x < (2 : ℝ) ^ (e + 24))
    (hx : x < 0) (hm : m % 2 = 0)
    (h : x = r + (2 : ℝ) ^ e / 2 ∨ x = r - (2 : ℝ) ^ e / 2) : binary32 x = r :=
  binary32_val_tie x r (-m) e (by rw [hr]; push_cast; ring) he
    (by rw [abs_of_neg hx]; exact hlo) (by rw [abs_of_neg hx]; exact hhi) (ne_of_lt hx)
    (by omega) h

/-! ## Single-precision rounding: symmetry, monotonicity, error -/

theorem round_half_even_int (m : ℤ) : round_half_even (m : ℝ) = m :=
  round_half_even_eq _ m (by simp)

theorem round_half_even_floor_le (y : ℝ) : ⌊y⌋ ≤ round_half_even y := by
  unfold round_half_even
  split_ifs <;> omega

theorem round_half_even_le_floor_succ (y : ℝ) : round_half_even y ≤ ⌊y⌋ + 1 := by
  unfold round_half_even
  split_ifs <;> omega

theorem round_half_even_neg (y : ℝ) : round_half_even (-y) = -round_half_even y := by
  have hfl := Int.floor_le y
  have hlt := Int.lt_floor_add_one y
  rcases lt_trichotomy (y - ⌊y⌋) (1 / 2) with h | h | h
  · have h1 : round_half_even y = ⌊y⌋ := round_half_even_eq y _ (by
      rw [abs_lt]; constructor <;> linarith)
    have h2 : round_half_even (-y) = -⌊y⌋ := round_half_even_eq (-y) _ (by
      push_cast
      rw [abs_lt]; constructor <;> linarith)
    rw [h1, h2]
  · have hy : y = (⌊y⌋ : ℝ) + 1 / 2 := by linarith
    rcases Int.emod_two_eq_zero_or_one ⌊y⌋ with he | ho
    · have h1 : round_half_even y = ⌊y⌋ := by
        conv_lhs => rw [hy]
        exact round_half_even_tie_down _ he
      have h2 : round_half_even (-y) = -⌊y⌋ := by
        have : -y = ((-⌊y⌋ : ℤ) : ℝ) - 1 / 2 := by push_cast; linarith
        rw [this]
        exact round_half_even_tie_up _ (by omega)
      rw [h1, h2]
    · have h1 : round_half_even y = ⌊y⌋ + 1 := by
        have : y = ((⌊y⌋ + 1 : ℤ) : ℝ) - 1 / 2 := by push_cast; linarith
        conv_lhs => rw [this]
        exact round_half_even_tie_up _ (by omega)
      have h2 : round_half_even (-y) = -(⌊y⌋ + 1) := by
        have : -y = ((-(⌊y⌋ + 1) : ℤ) : ℝ) + 1 / 2 := by push_cast; linarith
        rw [this]
        exact round_half_even_tie_down _ (by omega)
      rw [h1, h2]
  · have h1 : round_half_even y = ⌊y⌋ + 1 := round_half_even_eq y _ (by
      push_cast
      rw [abs_lt]; constructor <;> linarith)
    have h2 : round_half_even (-y) = -(⌊y⌋ + 1) := round_half_even_eq (-y) _ (by
      push_cast
      rw [abs_lt]; constructor <;> linarith)
    rw [h1, h2]

theorem round_half_even_mono (y z : ℝ) (h : y ≤ z) : round_half_even y ≤ round_half_even z := by
  have hf : ⌊y⌋ ≤ ⌊z⌋ := Int.floor_mono h
  rcases lt_or_eq_of_le hf with hlt | heq
  · have h1 := round_half_even_le_floor_succ y
    have h2 := round_half_even_floor_le z
    omega
  · have h2 := round_half_even_floor_le z
    have h1 := round_half_even_le_floor_succ y
    by_cases hy : y - ⌊y⌋ < 1 / 2
    · have : round_half_even y = ⌊y⌋ := by
        unfold round_half_even
        rw [if_pos hy]
      omega
    · by_cases hz : 1 / 2 < z - ⌊z⌋
      · have : round_half_even z = ⌊z⌋ + 1 := by
          unfold round_half_even
          rw [if_neg (by linarith), if_pos hz]
        omega
      · have hzy : z = y := by
          have e : (⌊y⌋ : ℝ) = ⌊z⌋ := by rw [heq]
          linarith
        rw [hzy]

theorem ulp_exponent_neg (x : ℝ) : ulp_exponent (-x) = ulp_exponent x := by
  unfold ulp_exponent
  rw [abs_neg]

/-- Rounding commutes with negation. -/
theorem binary32_neg (x : ℝ) : binary32 (-x) = -binary32 x := by
  unfold binary32
  rw [ulp_exponent_neg, neg_div, round_half_even_neg]
  push_cast
  ring

theorem binary32_nonneg (x : ℝ) (hx : 0 ≤ x) : 0 ≤ binary32 x := by
  unfold binary32
  have hp : (0 : ℝ) < (2 : ℝ) ^ ulp_exponent x := zpow_pos (by norm_num) _
  apply mul_nonneg _ (le_of_lt hp)
  have h0 : (0 : ℤ) ≤ ⌊x / (2 : ℝ) ^ ulp_exponent x⌋ := Int.floor_nonneg.mpr (div_nonneg hx (le_of_lt hp))
  have h1 := round_half_even_floor_le (x / (2 : ℝ) ^ ulp_exponent x)
  exact_mod_cast le_trans h0 h1

theorem binary32_nonpos (x : ℝ) (hx : x ≤ 0) : binary32 x ≤ 0 := by
  have h := binary32_nonneg (-x) (by linarith)
  rw [binary32_neg] at h
  linarith

theorem ulp_exponent_ge (x : ℝ) : -149 ≤ ulp_exponent x := le_max_right _ _

theorem ulp_exponent_mono (x y : ℝ) (hx : 0 < x) (h : x ≤ y) :
    ulp_exponent x ≤ ulp_exponent y := by
  unfold ulp_exponent
  rw [abs_of_pos hx, abs_of_pos (lt_of_lt_of_le hx h)]
  have := Int.log_mono_right (b := 2) hx h
  exact max_le_max (by omega) le_rfl

theorem binary32_mono_pos (x y : ℝ) (hx : 0 < x) (h : x ≤ y) : binary32 x ≤ binary32 y := by
  have hy : 0 < y := lt_of_lt_of_le hx h
  have h2 : ((2 : ℕ) : ℝ) = 2 := by norm_num
  have he := ulp_exponent_mono x y hx h
  have hpx : (0 : ℝ) < (2 : ℝ) ^ ulp_exponent x := zpow_pos (by norm_num) _
  have hpy : (0 : ℝ) < (2 : ℝ) ^ ulp_exponent y := zpow_pos (by norm_num) _
  rcases lt_or_eq_of_le he with hlt | heq
  · -- different binades: compare with the power of two in between
    have hxlt : x < (2 : ℝ) ^ (ulp_exponent x + 24) := by
      have h1 := Int.lt_zpow_succ_log_self (b := 2) (by norm_num) x
      rw [h2] at h1
      have h3 : Int.log 2 x + 1 ≤ ulp_exponent x + 24 := by
        have : Int.log 2 x - 23 ≤ ulp_exponent x := by
          unfold ulp_exponent
          rw [abs_of_pos hx]
          exact le_max_left _ _
        omega
      exact lt_of_lt_of_le h1 (zpow_le_zpow_right₀ (by norm_num) h3)
    have hyge : (2 : ℝ) ^ (ulp_exponent y + 23) ≤ y := by
      have hey : ulp_exponent y = Int.log 2 y - 23 := by
        have h149 := ulp_exponent_ge x
        unfold ulp_exponent at hlt ⊢
        rw [abs_of_pos hy] at hlt ⊢
        apply max_eq_left
        by_contra hc
        rw [max_eq_right (le_of_lt (lt_of_not_ge hc))] at hlt
        unfold ulp_exponent at h149
        omega
      have h1 := Int.zpow_log_le_self (b := 2) (by norm_num) hy
      rw [h2] at h1
      rw [hey]
      simpa using h1
    have hrx : round_half_even (x / (2 : ℝ) ^ ulp_exponent x) ≤ 2 ^ 24 := by
      have hle : x / (2 : ℝ) ^ ulp_exponent x ≤ ((2 ^ 24 : ℤ) : ℝ) := by
        rw [div_le_iff₀ hpx]
        push_cast
        rw [zpow_add₀ (by norm_num)] at hxlt
        have : (2 : ℝ) ^ (24 : ℤ) = 2 ^ 24 := by norm_cast
        rw [this] at hxlt
        linarith
      have := round_half_even_mono _ _ hle
      rwa [round_half_even_int] at this
    have hry : 2 ^ 23 ≤ round_half_even (y / (2 : ℝ) ^ ulp_exponent y) := by
      have hle : ((2 ^ 23 : ℤ) : ℝ) ≤ y / (2 : ℝ) ^ ulp_exponent y := by
        rw [le_div_iff₀ hpy]
        push_cast
        rw [zpow_add₀ (by norm_num)] at hyge
        have : (2 : ℝ) ^ (23 : ℤ) = 2 ^ 23 := by norm_cast
        rw [this] at hyge
        linarith
      have := round_half_even_mono _ _ hle
      rwa [round_half_even_int] at this
    unfold binary32
    have hrx2 : (round_half_even (x / (2 : ℝ) ^ ulp_exponent x) : ℝ) ≤ 2 ^ 24 := by
      exact_mod_cast hrx
    have hry2 : (2 : ℝ) ^ 23 ≤ (round_half_even (y / (2 : ℝ) ^ ulp_exponent y) : ℝ) := by
      exact_mod_cast hry
    have hstep : (2 : ℝ) ^ 24 * (2 : ℝ) ^ ulp_exponent x ≤ (2 : ℝ) ^ 23 * (2 : ℝ) ^ ulp_exponent y := by
      have h3 : ulp_exponent x + 1 ≤ ulp_exponent y := hlt
      have h4 : (2 : ℝ) ^ (ulp_exponent x + 1) ≤ (2 : ℝ) ^ ulp_exponent y :=
        zpow_le_zpow_right₀ (by norm_num) h3
      rw [zpow_add₀ (by norm_num), zpow_one] at h4
      nlinarith
    calc (round_half_even (x / (2 : ℝ) ^ ulp_exponent x) : ℝ) * (2 : ℝ) ^ ulp_exponent x
        ≤ 2 ^ 24 * (2 : ℝ) ^ ulp_exponent x := mul_le_mul_of_nonneg_right hrx2 (le_of_lt hpx)
      _ ≤ 2 ^ 23 * (2 : ℝ) ^ ulp_exponent y := hstep
      _ ≤ (round_half_even (y / (2 : ℝ) ^ ulp_exponent y) : ℝ) * (2 : ℝ) ^ ulp_exponent y :=
          mul_le_mul_of_nonneg_right hry2 (le_of_lt hpy)
  · unfold binary32
    rw [heq]
    apply mul_le_mul_of_nonneg_right _ (le_of_lt hpy)
    have : x / (2 : ℝ) ^ ulp_exponent y ≤ y / (2 : ℝ) ^ ulp_exponent y :=
      div_le_div_of_nonneg_right h (le_of_lt hpy)
    exact_mod_cast round_half_even_mono _ _ this

/-- Rounding is monotone. -/
theorem binary32_mono (x y : ℝ) (h : x ≤ y) : binary32 x ≤ binary32 y := by
  rcases lt_trichotomy 0 x with hx | hx | hx
  · exact binary32_mono_pos x y hx h
  · rw [← hx, binary32_zero]
    exact binary32_nonneg y (by linarith)
  · rcases le_or_lt 0 y with hy | hy
    · exact le_trans (binary32_nonpos x (le_of_lt hx)) (binary32_nonneg y hy)
    · have := binary32_mono_pos (-y) (-x) (by linarith) (by linarith)
      rw [binary32_neg, binary32_neg] at this
      linarith

/-- The rounding error is at most half a unit in the last place. -/
theorem binary32_err_ulp (x : ℝ) : |binary32 x - x| ≤ (2 : ℝ) ^ ulp_exponent x / 2 := by
  have hp : (0 : ℝ) < (2 : ℝ) ^ ulp_exponent x := zpow_pos (by norm_num) _
  have h := round_half_even_err (x / (2 : ℝ) ^ ulp_exponent x)
  unfold binary32
  have e : (round_half_even (x / (2 : ℝ) ^ ulp_exponent x) : ℝ) * (2 : ℝ) ^ ulp_exponent x - x
      = ((round_half_even (x / (2 : ℝ) ^ ulp_exponent x) : ℝ) - x / (2 : ℝ) ^ ulp_exponent x)
        * (2 : ℝ) ^ ulp_exponent x := by
    field_simp
  rw [e, abs_mul, abs_of_pos hp]
  calc _ ≤ 1 / 2 * (2 : ℝ) ^ ulp_exponent x := mul_le_mul_of_nonneg_right h (le_of_lt hp)
    _ = (2 : ℝ) ^ ulp_exponent x / 2 := by ring

theorem ulp_le (x : ℝ) (hx : x ≠ 0) :
    (2 : ℝ) ^ ulp_exponent x ≤ max ((2 : ℝ) ^ (-149 : ℤ)) (|x| * (2 : ℝ) ^ (-23 : ℤ)) := by
  have hpos : 0 < |x| := abs_pos.mpr hx
  have h2 : ((2 : ℕ) : ℝ) = 2 := by norm_num
  unfold ulp_exponent
  rcases le_total (Int.log 2 |x| - 23) (-149) with h | h
  · rw [max_eq_right h]
    exact le_max_left _ _
  · rw [max_eq_left h]
    apply le_trans _ (le_max_right _ _)
    have h1 := Int.zpow_log_le_self (b := 2) (by norm_num) hpos
    rw [h2] at h1
    rw [sub_eq_add_neg, zpow_add₀ (by norm_num)]
    exact mul_le_mul_of_nonneg_right h1 (le_of_lt (zpow_pos (by norm_num) _))

/-- The rounding error: relative `2 ^ -24`, or `2 ^ -150` where the result is
subnormal. -/
theorem binary32_err (x : ℝ) : |binary32 x - x| ≤ |x| / 16777216 + (2 : ℝ) ^ (-150 : ℤ) := by
  by_cases hx : x = 0
  · rw [hx, binary32_zero]
    simp
    positivity
  · have h1 := binary32_err_ulp x
    have h2 := ulp_le x hx
    have h3 : (2 : ℝ) ^ (-149 : ℤ) = 2 * (2 : ℝ) ^ (-150 : ℤ) := by
      rw [show (-149 : ℤ) = 1 + (-150) by norm_num, zpow_add₀ (by norm_num), zpow_one]
    have h4 : (2 : ℝ) ^ (-23 : ℤ) = 2 / 16777216 := by norm_num
    have h5 : (0 : ℝ) < (2 : ℝ) ^ (-150 : ℤ) := zpow_pos (by norm_num) _
    have h6 : 0 ≤ |x| := abs_nonneg x
    rcases max_cases ((2 : ℝ) ^ (-149 : ℤ)) (|x| * (2 : ℝ) ^ (-23 : ℤ)) with ⟨hm, _⟩ | ⟨hm, _⟩
    · rw [hm, h3] at h2
      generalize (2 : ℝ) ^ (-150 : ℤ) = η at h2 h5 ⊢
      generalize (2 : ℝ) ^ ulp_exponent x = u at h1 h2
      linarith
    · rw [hm, h4] at h2
      generalize (2 : ℝ) ^ (-150 : ℤ) = η at h5 ⊢
      generalize (2 : ℝ) ^ ulp_exponent x = u at h1 h2
      linarith

/-- The rounding error of a value of magnitude at least `2 ^ -126` is relative. -/
theorem binary32_err_rel (x : ℝ) (hx : (2 : ℝ) ^ (-126 : ℤ) ≤ |x|) :
    |binary32 x - x| ≤ |x| / 16777216 := by
  have hpos : 0 < |x| := lt_of_lt_of_le (zpow_pos (by norm_num) _) hx
  have h2 : ((2 : ℕ) : ℝ) = 2 := by norm_num
  have h1 := binary32_err_ulp x
  have hlog : -126 ≤ Int.log 2 |x| := by
    rw [← Int.zpow_le_iff_le_log (by norm_num) hpos, h2]
    exact hx
  have hu : ulp_exponent x = Int.log 2 |x| - 23 := by
    unfold ulp_exponent
    exact max_eq_left (by omega)
  have h3 : (2 : ℝ) ^ ulp_exponent x ≤ |x| * (2 : ℝ) ^ (-23 : ℤ) := by
    rw [hu, sub_eq_add_neg, zpow_add₀ (by norm_num)]
    have h4 := Int.zpow_log_le_self (b := 2) (by norm_num) hpos
    rw [h2] at h4
    exact mul_le_mul_of_nonneg_right h4 (le_of_lt (zpow_pos (by norm_num) _))
  have h4 : (2 : ℝ) ^ (-23 : ℤ) = 2 / 16777216 := by norm_num
  rw [h4] at h3
  linarith

/-- A positive rounded value is at least the smallest subnormal number. -/
theorem binary32_pos_ge (x : ℝ) (h : 0 < binary32 x) : (2 : ℝ) ^ (-149 : ℤ) ≤ binary32 x := by
  unfold binary32 at h ⊢
  have hp : (0 : ℝ) < (2 : ℝ) ^ ulp_exponent x := zpow_pos (by norm_num) _
  have hm : (0 : ℝ) < (round_half_even (x / (2 : ℝ) ^ ulp_exponent x) : ℝ) := by
    by_contra hc
    have := mul_nonpos_of_nonpos_of_nonneg (le_of_not_gt hc) (le_of_lt hp)
    linarith
  have hm1 : (1 : ℝ) ≤ (round_half_even (x / (2 : ℝ) ^ ulp_exponent x) : ℝ) := by
    have : (0 : ℤ) < round_half_even (x / (2 : ℝ) ^ ulp_exponent x) := by exact_mod_cast hm
    exact_mod_cast this
  have he : (2 : ℝ) ^ (-149 : ℤ) ≤ (2 : ℝ) ^ ulp_exponent x :=
    zpow_le_zpow_right₀ (by norm_num) (ulp_exponent_ge x)
  calc (2 : ℝ) ^ (-149 : ℤ) ≤ (2 : ℝ) ^ ulp_exponent x := he
    _ = 1 * (2 : ℝ) ^ ulp_exponent x := by ring
    _ ≤ _ := mul_le_mul_of_nonneg_right hm1 (le_of_lt hp)

/-! ## Single precision: the neighbour query -/

theorem single_radius : Single.BOID_RADIUS = 120 := by
  have h := binary32_exact 15728640 (-17) (by norm_num) (by norm_num) (by norm_num)
  norm_num at h
  simp only [Single.BOID_RADIUS, Single.fmul, TRIANGLE_SIZE]
  norm_num
  exact h

theorem single_radius_sum_sq :
    Single.fmul (Single.fadd Single.BOID_RADIUS Single.BOID_RADIUS)
      (Single.fadd Single.BOID_RADIUS Single.BOID_RADIUS) = 57600 := by
  have h1 := binary32_exact 15728640 (-16) (by norm_num) (by norm_num) (by norm_num)
  have h2 := binary32_exact 14745600 (-8) (by norm_num) (by norm_num) (by norm_num)
  norm_num at h1 h2
  simp only [single_radius, Single.fmul, Single.fadd]
  norm_num
  rw [h1]
  norm_num
  exact h2

theorem single_threshold : Single.fdiv Single.BOID_RADIUS 3 = 40 := by
  have h := binary32_exact 10485760 (-18) (by norm_num) (by norm_num) (by norm_num)
  norm_num at h
  simp only [single_radius, Single.fdiv]
  norm_num
  exact h

/-- The loop of `local_neighbours` keeps, in collection order, the boids at
the positions other than `index_b` that pass the overlap test. -/
theorem single_local_neighbours_eq_filter (bs : Boids) (index_b : Nat) :
    Single.local_neighbours bs index_b
      = ((List.range bs.length).filter (fun i => decide (i ≠ index_b) &&
          Single.CheckCollisionCircles (items bs index_b).center Single.BOID_RADIUS
            (items bs i).center Single.BOID_RADIUS)).map (items bs) := by
  unfold Single.local_neighbours
  generalize bs.length = n
  induction n with
  | zero => rfl
  | succ k ih =>
    rw [loop_succ, ih, List.range_succ, List.filter_append, List.map_append]
    by_cases h1 : k = index_b
    · simp [h1]
    · by_cases h2 : Single.CheckCollisionCircles (items bs index_b).center Single.BOID_RADIUS
          (items bs k).center Single.BOID_RADIUS = true
      · simp [h1, h2]
      · simp [h1, h2]

theorem single_local_neighbours_centers (bs s : Boids) (i : Nat) (hf : SameFrame bs s) :
    (Single.local_neighbours s i).map (fun n => n.center)
      = (Single.local_neighbours bs i).map (fun n => n.center) := by
  rw [single_local_neighbours_eq_filter, single_local_neighbours_eq_filter, hf.1,
    List.map_map, List.map_map]
  have hp : (fun j => decide (j ≠ i) &&
        Single.CheckCollisionCircles (items s i).center Single.BOID_RADIUS
          (items s j).center Single.BOID_RADIUS)
      = (fun j => decide (j ≠ i) &&
        Single.CheckCollisionCircles (items bs i).center Single.BOID_RADIUS
          (items bs j).center Single.BOID_RADIUS) := by
    funext j
    rw [(hf.2 i).1, (hf.2 j).1]
  rw [hp]
  apply List.map_congr_left
  intro j _
  exact (hf.2 j).1

theorem single_local_neighbours_length (bs s : Boids) (i : Nat) (hf : SameFrame bs s) :
    (Single.local_neighbours s i).length = (Single.local_neighbours bs i).length := by
  have h := congrArg List.length (single_local_neighbours_centers bs s i hf)
  simpa using h

theorem single_local_neighbours_short (bs : Boids) (i : Nat) (hi : i < bs.length)
    (h2 : bs.length < 2) : Single.local_neighbours bs i = [] := by
  rw [single_local_neighbours_eq_filter]
  have hnil : (List.range bs.length).filter (fun j => decide (j ≠ i) &&
      Single.CheckCollisionCircles (items bs i).center Single.BOID_RADIUS (items bs j).center
        Single.BOID_RADIUS) = [] := by
    rw [List.filter_eq_nil_iff]
    intro j hj
    have hj2 := List.mem_range.mp hj
    have : j = i := by omega
    simp [this]
  rw [hnil]
  rfl

/-! ## Single precision: the frame of the rules -/

theorem single_alignment_body_write (i : Nat) (bs : Boids) :
    HeadingWrite bs i (Single.alignment_body i bs) := by
  unfold Single.alignment_body
  by_cases h : (Single.local_neighbours bs i).length < 2
  · simp only [if_pos h]
    exact headingWrite_refl bs i
  · simp only [if_neg h, Single.steer_boid_towards_direction]
    exact headingWrite_set bs i _

theorem single_separation_body_write (i : Nat) (bs : Boids) :
    HeadingWrite bs i (Single.separation_body i bs) := by
  unfold Single.separation_body
  by_cases h : (Single.local_neighbours bs i).length < 2
  · simp only [if_pos h]
    exact headingWrite_refl bs i
  · by_cases h2 : (Single.separation_close (items bs i).center
        (Single.local_neighbours bs i)).1.length > 0
    · simp only [if_neg h, if_pos h2]
      exact headingWrite_set bs i _
    · simp only [if_neg h, if_neg h2]
      exact headingWrite_refl bs i

theorem single_cohesion_body_write (i : Nat) (bs : Boids) :
    HeadingWrite bs i (Single.cohesion_body i bs) := by
  unfold Single.cohesion_body
  by_cases h : (Single.local_neighbours bs i).length < 1
  · simp only [if_pos h]
    exact headingWrite_refl bs i
  · simp only [if_neg h]
    exact headingWrite_set bs i _

theorem single_separation_frame (bs : Boids) : SameFrame bs (Single.separation bs) := by
  unfold Single.separation
  split
  · exact sameFrame_refl bs
  · exact loop_headingWrite_frame _ single_separation_body_write _ bs

theorem single_alignment_frame (bs : Boids) : SameFrame bs (Single.alignment bs) := by
  unfold Single.alignment
  split
  · exact sameFrame_refl bs
  · exact loop_headingWrite_frame _ single_alignment_body_write _ bs

theorem single_cohesion_frame (bs : Boids) : SameFrame bs (Single.cohesion bs) := by
  unfold Single.cohesion
  split
  · exact sameFrame_refl bs
  · exact loop_headingWrite_frame _ single_cohesion_body_write _ bs

/-! ## Single precision: what a pass stores at a position -/

theorem single_separation_close_eq_foldl (c : Vector2) (lbs : Boids) :
    Single.separation_close c lbs
      = lbs.foldl (fun acc n => Single.separation_accum c n acc) ([], Vector2Zero) := by
  unfold Single.separation_close
  exact loop_items_eq_foldl (fun n acc => Single.separation_accum c n acc) lbs ([], Vector2Zero)

/-- A neighbour whose computed distance is `40` or more, or `0`, leaves the pair
(`closest_neighbours`, `d`) as it is. -/
theorem single_separation_accum_far (c : Vector2) (n : Boid) (acc : Boids × Vector2)
    (h : ¬ (0 < Single.Vector2Distance c n.center ∧ Single.Vector2Distance c n.center < 40)) :
    Single.separation_accum c n acc = acc := by
  unfold Single.separation_accum
  simp only [single_threshold]
  rw [if_neg]
  intro hc
  exact h ⟨hc.2, hc.1⟩

theorem single_separation_accum_close (c : Vector2) (n : Boid) (acc : Boids × Vector2)
    (h : 0 < Single.Vector2Distance c n.center ∧ Single.Vector2Distance c n.center < 40) :
    Single.separation_accum c n acc
      = (acc.1 ++ [n], Single.Vector2Add acc.2
          (Single.Vector2Scale (Single.Vector2Normalize (Single.Vector2Subtract c n.center))
            (Single.fdiv (Single.fsub 40 (Single.Vector2Distance c n.center)) 40))) := by
  unfold Single.separation_accum
  simp only [single_threshold]
  rw [if_pos ⟨h.2, h.1⟩]

theorem single_separation_accum_congr (c : Vector2) (n n2 : Boid) (acc acc2 : Boids × Vector2)
    (hn : n.center = n2.center) (h1 : acc.1.length = acc2.1.length) (h2 : acc.2 = acc2.2) :
    (Single.separation_accum c n acc).1.length = (Single.separation_accum c n2 acc2).1.length
      ∧ (Single.separation_accum c n acc).2 = (Single.separation_accum c n2 acc2).2 := by
  unfold Single.separation_accum
  simp only [hn]
  split
  · simp only [List.length_append, h1, h2, List.length_singleton, and_self]
  · exact ⟨h1, h2⟩

theorem single_separation_foldl_congr (c : Vector2) (lbs lbs2 : Boids)
    (h : lbs.map (fun n => n.center) = lbs2.map (fun n => n.center)) :
    ∀ acc acc2 : Boids × Vector2, acc.1.length = acc2.1.length → acc.2 = acc2.2 →
      (lbs.foldl (fun acc n => Single.separation_accum c n acc) acc).1.length
          = (lbs2.foldl (fun acc n => Single.separation_accum c n acc) acc2).1.length
        ∧ (lbs.foldl (fun acc n => Single.separation_accum c n acc) acc).2
          = (lbs2.foldl (fun acc n => Single.separation_accum c n acc) acc2).2 := by
  induction lbs generalizing lbs2 with
  | nil =>
    cases lbs2 with
    | nil => intro acc acc2 h1 h2; exact ⟨h1, h2⟩
    | cons m ms => simp at h
  | cons n ns ih =>
    cases lbs2 with
    | nil => simp at h
    | cons m ms =>
      simp only [List.map_cons, List.cons.injEq] at h
      intro acc acc2 h1 h2
      have hs := single_separation_accum_congr c n m acc acc2 h.1 h1 h2
      simp only [List.foldl_cons]
      exact ih ms h.2 _ _ hs.1 hs.2

theorem single_separation_close_congr (c : Vector2) (lbs lbs2 : Boids)
    (h : lbs.map (fun n => n.center) = lbs2.map (fun n => n.center)) :
    (Single.separation_close c lbs).1.length = (Single.separation_close c lbs2).1.length
      ∧ (Single.separation_close c lbs).2 = (Single.separation_close c lbs2).2 := by
  rw [single_separation_close_eq_foldl, single_separation_close_eq_foldl]
  exact single_separation_foldl_congr c lbs lbs2 h _ _ rfl rfl

theorem single_separation_body_items (s : Boids) (i : Nat) (hi : i < s.length) :
    items (Single.separation_body i s) i
      = if (Single.local_neighbours s i).length < 2 then items s i
        else if (Single.separation_close (items s i).center
            (Single.local_neighbours s i)).1.length > 0 then
          { items s i with
            direction := Single.Vector2Normalize (Single.Vector2Lerp (items s i).direction
              (Single.Vector2Normalize (Single.Vector2Scale
                (Single.separation_close (items s i).center (Single.local_neighbours s i)).2
                (Single.fdiv 1 (binary32 ((Single.separation_close (items s i).center
                  (Single.local_neighbours s i)).1.length : ℝ)))))
              (Single.fmul (binary32 0.1) (Single.fdiv (items s i).speed 3))) }
        else items s i := by
  unfold Single.separation_body
  by_cases h : (Single.local_neighbours s i).length < 2
  · simp only [if_pos h]
  · by_cases h2 : (Single.separation_close (items s i).center
        (Single.local_neighbours s i)).1.length > 0
    · simp only [if_neg h, if_pos h2]
      rw [items_set_self s i _ hi]
    · simp only [if_neg h, if_neg h2]

/-- The boid that `separation` leaves at position `i`, in terms of the
collection before the pass. -/
theorem single_separation_items (bs : Boids) (i : Nat) (hi : i < bs.length) :
    items (Single.separation bs) i
      = if (Single.local_neighbours bs i).length < 2 then items bs i
        else if (Single.separation_close (items bs i).center
            (Single.local_neighbours bs i)).1.length > 0 then
          { items bs i with
            direction := Single.Vector2Normalize (Single.Vector2Lerp (items bs i).direction
              (Single.Vector2Normalize (Single.Vector2Scale
                (Single.separation_close (items bs i).center (Single.local_neighbours bs i)).2
                (Single.fdiv 1 (binary32 ((Single.separation_close (items bs i).center
                  (Single.local_neighbours bs i)).1.length : ℝ)))))
              (Single.fmul (binary32 0.1) (Single.fdiv (items bs i).speed 3))) }
        else items bs i := by
  by_cases h2 : bs.length < 2
  · have hn : (Single.local_neighbours bs i).length < 2 := by
      rw [single_local_neighbours_short bs i hi h2]
      exact Nat.zero_lt_two
    simp only [Single.separation, if_pos h2, if_pos hn]
  · simp only [Single.separation, if_neg h2]
    obtain ⟨h1, hf, h3⟩ := pass_items Single.separation_body single_separation_body_write bs i hi
    have hi2 : i < (loop Single.separation_body i bs).length := by rw [hf.1]; exact hi
    have hc := single_separation_close_congr (items bs i).center _ _
      (single_local_neighbours_centers bs _ i hf)
    rw [h1, single_separation_body_items _ i hi2, h3, single_local_neighbours_length bs _ i hf,
      hc.1, hc.2]

theorem single_separation_close_none (c : Vector2) (lbs : Boids)
    (h : ∀ n ∈ lbs, ¬ (0 < Single.Vector2Distance c n.center
      ∧ Single.Vector2Distance c n.center < 40)) :
    Single.separation_close c lbs = ([], Vector2Zero) := by
  rw [single_separation_close_eq_foldl]
  generalize (([], Vector2Zero) : Boids × Vector2) = acc
  induction lbs generalizing acc with
  | nil => rfl
  | cons n ns ih =>
    rw [List.foldl_cons, single_separation_accum_far c n acc (h n (List.mem_cons_self n ns))]
    exact ih (fun m hm => h m (List.mem_cons_of_mem n hm)) acc

/-- The loop sum of `cohesion` is the left-to-right rounded sum of the centres. -/
theorem single_cohesion_sum_eq (lbs : Boids) :
    Single.cohesion_sum lbs
      = (lbs.map (fun n => n.center)).foldl Single.Vector2Add Vector2Zero := by
  unfold Single.cohesion_sum
  rw [loop_items_eq_foldl (fun n acc => Single.Vector2Add acc n.center) lbs Vector2Zero,
    List.foldl_map]

theorem single_alignment_sum_eq (lbs : Boids) :
    Single.alignment_sum lbs
      = (lbs.map (fun n => n.direction)).foldl Single.Vector2Add Vector2Zero := by
  unfold Single.alignment_sum
  rw [loop_items_eq_foldl (fun n acc => Single.Vector2Add acc n.direction) lbs Vector2Zero,
    List.foldl_map]

theorem single_cohesion_desired_congr (c : Vector2) (lbs lbs2 : Boids)
    (h : lbs.map (fun n => n.center) = lbs2.map (fun n => n.center)) :
    Single.cohesion_desired c lbs = Single.cohesion_desired c lbs2 := by
  have hl : lbs.length = lbs2.length := by
    have := congrArg List.length h
    simpa using this
  unfold Single.cohesion_desired
  rw [single_cohesion_sum_eq, single_cohesion_sum_eq, h, hl]

theorem single_cohesion_body_items (s : Boids) (i : Nat) (hi : i < s.length) :
    items (Single.cohesion_body i s) i
      = if (Single.local_neighbours s i).length < 1 then items s i
        else { items s i with
          direction := Single.Vector2Normalize (Single.Vector2Lerp (items s i).direction
            (Single.cohesion_desired (items s i).center (Single.local_neighbours s i))
            (Single.fmul (binary32 0.05) (Single.fdiv (items s i).speed 3))) } := by
  unfold Single.cohesion_body
  by_cases h : (Single.local_neighbours s i).length < 1
  · simp only [if_pos h]
  · simp only [if_neg h]
    rw [items_set_self s i _ hi]

/-- The boid that `cohesion` leaves at position `i`, in terms of the collection
before the pass. -/
theorem single_cohesion_items (bs : Boids) (i : Nat) (hi : i < bs.length) :
    items (Single.cohesion bs) i
      = if (Single.local_neighbours bs i).length < 1 then items bs i
        else { items bs i with
          direction := Single.Vector2Normalize (Single.Vector2Lerp (items bs i).direction
            (Single.cohesion_desired (items bs i).center (Single.local_neighbours bs i))
            (Single.fmul (binary32 0.05) (Single.fdiv (items bs i).speed 3))) } := by
  by_cases h2 : bs.length < 2
  · have hn : (Single.local_neighbours bs i).length < 1 := by
      rw [single_local_neighbours_short bs i hi h2]
      exact Nat.zero_lt_one
    simp only [Single.cohesion, if_pos h2, if_pos hn]
  · simp only [Single.cohesion, if_neg h2]
    obtain ⟨h1, hf, h3⟩ := pass_items Single.cohesion_body single_cohesion_body_write bs i hi
    have hi2 : i < (loop Single.cohesion_body i bs).length := by rw [hf.1]; exact hi
    rw [h1, single_cohesion_body_items _ i hi2, h3, single_local_neighbours_length bs _ i hf,
      single_cohesion_desired_congr _ _ _ (single_local_neighbours_centers bs _ i hf)]

theorem single_alignment_body_items (s : Boids) (i : Nat) (hi : i < s.length) :
    items (Single.alignment_body i s) i
      = if (Single.local_neighbours s i).length < 2 then items s i
        else Single.steer_boid_towards_direction (items s i)
          (Single.Vector2Normalize (Single.alignment_sum (Single.local_neighbours s i))) := by
  unfold Single.alignment_body
  by_cases h : (Single.local_neighbours s i).length < 2
  · simp only [if_pos h]
  · simp only [if_neg h]
    rw [items_set_self s i _ hi]

/-- The boid that `alignment` leaves at position `i`: the rule is applied to the
collection as it stands when the loop reaches `i`. -/
theorem single_alignment_items (bs : Boids) (i : Nat) (hi : i < bs.length) :
    items (Single.alignment bs) i
      = if (Single.local_neighbours (loop Single.alignment_body i bs) i).length < 2 then
          items bs i
        else Single.steer_boid_towards_direction (items bs i)
          (Single.Vector2Normalize (Single.alignment_sum
            (Single.local_neighbours (loop Single.alignment_body i bs) i))) := by
  obtain ⟨h1, hf, h3⟩ := pass_items Single.alignment_body single_alignment_body_write bs i hi
  by_cases h2 : bs.length < 2
  · have hn : (Single.local_neighbours (loop Single.alignment_body i bs) i).length < 2 := by
      rw [single_local_neighbours_length bs _ i hf, single_local_neighbours_short bs i hi h2]
      exact Nat.zero_lt_two
    simp only [Single.alignment, if_pos h2, if_pos hn]
  · simp only [Single.alignment, if_neg h2]
    have hi2 : i < (loop Single.alignment_body i bs).length := by rw [hf.1]; exact hi
    rw [h1, single_alignment_body_items _ i hi2, h3]

/-- The overlap test of `local_neighbours`, with the radii filled in: the rounded
sum of the rounded squares of the rounded coordinate differences is compared
with `57600`. -/
theorem single_collision_eq (c1 c2 : Vector2) :
    Single.CheckCollisionCircles c1 Single.BOID_RADIUS c2 Single.BOID_RADIUS
      = decide (Single.fadd
          (Single.fmul (Single.fsub c2.x c1.x) (Single.fsub c2.x c1.x))
          (Single.fmul (Single.fsub c2.y c1.y) (Single.fsub c2.y c1.y)) ≤ 57600) := by
  unfold Single.CheckCollisionCircles
  simp only [single_radius_sum_sq]

theorem single_touching_overlap :
    Single.CheckCollisionCircles (⟨0, 0⟩ : Vector2) Single.BOID_RADIUS (⟨240, 0⟩ : Vector2)
      Single.BOID_RADIUS = true := by
  have h1 : binary32 (240 - 0) = 240 :=
    binary32_val_pos _ _ 15728640 (-16) (by norm_num) (by norm_num) (Or.inr (by norm_num)) (by
      norm_num) (by norm_num) (by norm_num) (by norm_num)
  have h2 : binary32 (0 - 0) = 0 :=
    binary32_val_zero _ (by norm_num)
  have h3 : binary32 (240 * 240) = 57600 :=
    binary32_val_pos _ _ 14745600 (-8) (by norm_num) (by norm_num) (Or.inr (by norm_num)) (by
      norm_num) (by norm_num) (by norm_num) (by norm_num)
  have h4 : binary32 (0 * 0) = 0 :=
    binary32_val_zero _ (by norm_num)
  have h5 : binary32 (57600 + 0) = 57600 :=
    binary32_val_pos _ _ 14745600 (-8) (by norm_num) (by norm_num) (Or.inr (by norm_num)) (by
      norm_num) (by norm_num) (by norm_num) (by norm_num)
  have h6 : decide ((57600 : ℝ) ≤ 57600) = true :=
    decide_eq_true (by norm_num)
  simp only [single_collision_eq, Single.fadd, Single.fsub, Single.fmul, Single.fdiv, Single.sqrtf,
    h1, h2, h3, h4, h5, h6]

theorem beyond_touching_overlap :
    Single.CheckCollisionCircles (⟨0, 0⟩ : Vector2) Single.BOID_RADIUS (⟨240, (1/32)⟩ : Vector2)
      Single.BOID_RADIUS = true := by
  have h1 : binary32 (240 - 0) = 240 :=
    binary32_val_pos _ _ 15728640 (-16) (by norm_num) (by norm_num) (Or.inr (by norm_num)) (by
      norm_num) (by norm_num) (by norm_num) (by norm_num)
  have h2 : binary32 ((1/32) - 0) = (1/32) :=
    binary32_val_pos _ _ 8388608 (-28) (by norm_num) (by norm_num) (Or.inr (by norm_num)) (by
      norm_num) (by norm_num) (by norm_num) (by norm_num)
  have h3 : binary32 (240 * 240) = 57600 :=
    binary32_val_pos _ _ 14745600 (-8) (by norm_num) (by norm_num) (Or.inr (by norm_num)) (by
      norm_num) (by norm_num) (by norm_num) (by norm_num)
  have h4 : binary32 ((1/32) * (1/32)) = (1/1024) :=
    binary32_val_pos _ _ 8388608 (-33) (by norm_num) (by norm_num) (Or.inr (by norm_num)) (by
      norm_num) (by norm_num) (by norm_num) (by norm_num)
  have h5 : binary32 (57600 + (1/1024)) = 57600 :=
    binary32_val_pos _ _ 14745600 (-8) (by norm_num) (by norm_num) (Or.inr (by norm_num)) (by
      norm_num) (by norm_num) (by norm_num) (by norm_num)
  have h6 : decide ((57600 : ℝ) ≤ 57600) = true :=
    decide_eq_true (by norm_num)
  simp only [single_collision_eq, Single.fadd, Single.fsub, Single.fmul, Single.fdiv, Single.sqrtf,
    h1, h2, h3, h4, h5, h6]

theorem beyond_touching_overlap_back :
    Single.CheckCollisionCircles (⟨240, (1/32)⟩ : Vector2) Single.BOID_RADIUS (⟨0, 0⟩ : Vector2)
      Single.BOID_RADIUS = true := by
  have h1 : binary32 (0 - 240) = (-240) :=
    binary32_val_neg _ _ 15728640 (-16) (by norm_num) (by norm_num) (Or.inr (by norm_num)) (by
      norm_num) (by norm_num) (by norm_num) (by norm_num)
  have h2 : binary32 (0 - (1/32)) = (-1/32) :=
    binary32_val_neg _ _ 8388608 (-28) (by norm_num) (by norm_num) (Or.inr (by norm_num)) (by
      norm_num) (by norm_num) (by norm_num) (by norm_num)
  have h3 : binary32 ((-240) * (-240)) = 57600 :=
    binary32_val_pos _ _ 14745600 (-8) (by norm_num) (by norm_num) (Or.inr (by norm_num)) (by
      norm_num) (by norm_num) (by norm_num) (by norm_num)
  have h4 : binary32 ((-1/32) * (-1/32)) = (1/1024) :=
    binary32_val_pos _ _ 8388608 (-33) (by norm_num) (by norm_num) (Or.inr (by norm_num)) (by
      norm_num) (by norm_num) (by norm_num) (by norm_num)
  have h5 : binary32 (57600 + (1/1024)) = 57600 :=
    binary32_val_pos _ _ 14745600 (-8) (by norm_num) (by norm_num) (Or.inr (by norm_num)) (by
      norm_num) (by norm_num) (by norm_num) (by norm_num)
  have h6 : decide ((57600 : ℝ) ≤ 57600) = true :=
    decide_eq_true (by norm_num)
  simp only [single_collision_eq, Single.fadd, Single.fsub, Single.fmul, Single.fdiv, Single.sqrtf,
    h1, h2, h3, h4, h5, h6]

theorem apart_no_overlap :
    Single.CheckCollisionCircles (⟨0, 0⟩ : Vector2) Single.BOID_RADIUS (⟨241, 0⟩ : Vector2)
      Single.BOID_RADIUS = false := by
  have h1 : binary32 (241 - 0) = 241 :=
    binary32_val_pos _ _ 15794176 (-16) (by norm_num) (by norm_num) (Or.inr (by norm_num)) (by
      norm_num) (by norm_num) (by norm_num) (by norm_num)
  have h2 : binary32 (0 - 0) = 0 :=
    binary32_val_zero _ (by norm_num)
  have h3 : binary32 (241 * 241) = 58081 :=
    binary32_val_pos _ _ 14868736 (-8) (by norm_num) (by norm_num) (Or.inr (by norm_num)) (by
      norm_num) (by norm_num) (by norm_num) (by norm_num)
  have h4 : binary32 (0 * 0) = 0 :=
    binary32_val_zero _ (by norm_num)
  have h5 : binary32 (58081 + 0) = 58081 :=
    binary32_val_pos _ _ 14868736 (-8) (by norm_num) (by norm_num) (Or.inr (by norm_num)) (by
      norm_num) (by norm_num) (by norm_num) (by norm_num)
  have h6 : decide ((58081 : ℝ) ≤ 57600) = false :=
    decide_eq_false (by norm_num)
  simp only [single_collision_eq, Single.fadd, Single.fsub, Single.fmul, Single.fdiv, Single.sqrtf,
    h1, h2, h3, h4, h5, h6]

/-! ## C2 in single precision: what the neighbour query returns -/

/-- C2, as the code has it: `local_neighbours bs i` is, in collection order, the
list of the boids `bs[j]` with `j ≠ i` that pass the overlap test of raylib as
it is computed: with `dx` and `dy` the rounded differences of the coordinates,
the rounded sum of the rounded squares `dx * dx` and `dy * dy` is at most
`(120 + 120)² = 57600`.  The comparison is inclusive. -/
theorem single_local_neighbours_overlap (bs : Boids) (i : Nat) :
    Single.local_neighbours bs i
        = ((List.range bs.length).filter (fun j => decide (j ≠ i ∧
            Single.fadd
              (Single.fmul (Single.fsub (items bs j).center.x (items bs i).center.x)
                (Single.fsub (items bs j).center.x (items bs i).center.x))
              (Single.fmul (Single.fsub (items bs j).center.y (items bs i).center.y)
                (Single.fsub (items bs j).center.y (items bs i).center.y))
              ≤ 57600))).map (items bs)
      ∧ Single.BOID_RADIUS = 120
      ∧ Single.fmul (Single.fadd Single.BOID_RADIUS Single.BOID_RADIUS)
          (Single.fadd Single.BOID_RADIUS Single.BOID_RADIUS) = 57600 := by
  refine ⟨?_, single_radius, single_radius_sum_sq⟩
  rw [single_local_neighbours_eq_filter]
  congr 1
  apply List.filter_congr
  intro j _
  rw [single_collision_eq]
  by_cases h1 : j = i <;> simp [h1]

/-- C2 at concrete inputs: in `touching_pair` the second boid, exactly 240 away,
is returned as the neighbour of the first.  In `beyond_touching` the second
boid is farther than 240 from the first and is returned all the same, because
the sum `57600 + 0.0009765625` rounds to `57600`; the third, 241 away, is not
returned. -/
theorem single_local_neighbours_overlap_witness :
    Single.local_neighbours touching_pair 0 = [items touching_pair 1]
      ∧ 240 < Vector2Distance (items beyond_touching 0).center
          (items beyond_touching 1).center
      ∧ Single.local_neighbours beyond_touching 0 = [items beyond_touching 1] := by
  refine ⟨?_, ?_, ?_⟩
  · rw [(single_local_neighbours_overlap touching_pair 0).1]
    have h := single_touching_overlap
    rw [single_collision_eq] at h
    simp only [decide_eq_true_eq] at h
    simp [touching_pair, List.range_succ, List.filter_cons, items_cons_zero, items_cons_succ, h]
  · simp only [beyond_touching, items_cons_zero, items_cons_succ, Vector2Distance]
    rw [Real.lt_sqrt (by norm_num)]
    norm_num
  · rw [(single_local_neighbours_overlap beyond_touching 0).1]
    have h1 := beyond_touching_overlap
    have h2 := apart_no_overlap
    rw [single_collision_eq] at h1 h2
    simp only [decide_eq_true_eq, decide_eq_false_iff_not, one_div] at h1 h2
    simp [beyond_touching, List.range_succ, List.filter_cons, items_cons_zero, items_cons_succ,
      h1, h2]

/-! ## C8 in single precision: the separation threshold -/

theorem at_threshold_overlap_right :
    Single.CheckCollisionCircles (⟨0, 0⟩ : Vector2) Single.BOID_RADIUS (⟨40, 0⟩ : Vector2)
      Single.BOID_RADIUS = true := by
  have h1 : binary32 (40 - 0) = 40 :=
    binary32_val_pos _ _ 10485760 (-18) (by norm_num) (by norm_num) (Or.inr (by norm_num)) (by
      norm_num) (by norm_num) (by norm_num) (by norm_num)
  have h2 : binary32 (0 - 0) = 0 :=
    binary32_val_zero _ (by norm_num)
  have h3 : binary32 (40 * 40) = 1600 :=
    binary32_val_pos _ _ 13107200 (-13) (by norm_num) (by norm_num) (Or.inr (by norm_num)) (by
      norm_num) (by norm_num) (by norm_num) (by norm_num)
  have h4 : binary32 (0 * 0) = 0 :=
    binary32_val_zero _ (by norm_num)
  have h5 : binary32 (1600 + 0) = 1600 :=
    binary32_val_pos _ _ 13107200 (-13) (by norm_num) (by norm_num) (Or.inr (by norm_num)) (by
      norm_num) (by norm_num) (by norm_num) (by norm_num)
  have h6 : decide ((1600 : ℝ) ≤ 57600) = true :=
    decide_eq_true (by norm_num)
  simp only [single_collision_eq, Single.fadd, Single.fsub, Single.fmul, Single.fdiv, Single.sqrtf,
    h1, h2, h3, h4, h5, h6]

theorem at_threshold_overlap_up :
    Single.CheckCollisionCircles (⟨0, 0⟩ : Vector2) Single.BOID_RADIUS (⟨0, 40⟩ : Vector2)
      Single.BOID_RADIUS = true := by
  have h1 : binary32 (0 - 0) = 0 :=
    binary32_val_zero _ (by norm_num)
  have h2 : binary32 (40 - 0) = 40 :=
    binary32_val_pos _ _ 10485760 (-18) (by norm_num) (by norm_num) (Or.inr (by norm_num)) (by
      norm_num) (by norm_num) (by norm_num) (by norm_num)
  have h3 : binary32 (0 * 0) = 0 :=
    binary32_val_zero _ (by norm_num)
  have h4 : binary32 (40 * 40) = 1600 :=
    binary32_val_pos _ _ 13107200 (-13) (by norm_num) (by norm_num) (Or.inr (by norm_num)) (by
      norm_num) (by norm_num) (by norm_num) (by norm_num)
  have h5 : binary32 (0 + 1600) = 1600 :=
    binary32_val_pos _ _ 13107200 (-13) (by norm_num) (by norm_num) (Or.inr (by norm_num)) (by
      norm_num) (by norm_num) (by norm_num) (by norm_num)
  have h6 : decide ((1600 : ℝ) ≤ 57600) = true :=
    decide_eq_true (by norm_num)
  simp only [single_collision_eq, Single.fadd, Single.fsub, Single.fmul, Single.fdiv, Single.sqrtf,
    h1, h2, h3, h4, h5, h6]

theorem at_threshold_overlap_left :
    Single.CheckCollisionCircles (⟨40, 0⟩ : Vector2) Single.BOID_RADIUS (⟨0, 0⟩ : Vector2)
      Single.BOID_RADIUS = true := by
  have h1 : binary32 (0 - 40) = (-40) :=
    binary32_val_neg _ _ 10485760 (-18) (by norm_num) (by norm_num) (Or.inr (by norm_num)) (by
      norm_num) (by norm_num) (by norm_num) (by norm_num)
  have h2 : binary32 (0 - 0) = 0 :=
    binary32_val_zero _ (by norm_num)
  have h3 : binary32 ((-40) * (-40)) = 1600 :=
    binary32_val_pos _ _ 13107200 (-13) (by norm_num) (by norm_num) (Or.inr (by norm_num)) (by
      norm_num) (by norm_num) (by norm_num) (by norm_num)
  have h4 : binary32 (0 * 0) = 0 :=
    binary32_val_zero _ (by norm_num)
  have h5 : binary32 (1600 + 0) = 1600 :=
    binary32_val_pos _ _ 13107200 (-13) (by norm_num) (by norm_num) (Or.inr (by norm_num)) (by
      norm_num) (by norm_num) (by norm_num) (by norm_num)
  have h6 : decide ((1600 : ℝ) ≤ 57600) = true :=
    decide_eq_true (by norm_num)
  simp only [single_collision_eq, Single.fadd, Single.fsub, Single.fmul, Single.fdiv, Single.sqrtf,
    h1, h2, h3, h4, h5, h6]

theorem at_threshold_distance_right :
    Single.Vector2Distance (⟨0, 0⟩ : Vector2) (⟨40, 0⟩ : Vector2) = 40 := by
  have h1 : binary32 (0 - 40) = (-40) :=
    binary32_val_neg _ _ 10485760 (-18) (by norm_num) (by norm_num) (Or.inr (by norm_num)) (by
      norm_num) (by norm_num) (by norm_num) (by norm_num)
  have h2 : binary32 (0 - 0) = 0 :=
    binary32_val_zero _ (by norm_num)
  have h3 : binary32 ((-40) * (-40)) = 1600 :=
    binary32_val_pos _ _ 13107200 (-13) (by norm_num) (by norm_num) (Or.inr (by norm_num)) (by
      norm_num) (by norm_num) (by norm_num) (by norm_num)
  have h4 : binary32 (0 * 0) = 0 :=
    binary32_val_zero _ (by norm_num)
  have h5 : binary32 (1600 + 0) = 1600 :=
    binary32_val_pos _ _ 13107200 (-13) (by norm_num) (by norm_num) (Or.inr (by norm_num)) (by
      norm_num) (by norm_num) (by norm_num) (by norm_num)
  have h6 : binary32 (Real.sqrt 1600) = 40 :=
    binary32_sqrt_val _ _ 32 64 10485760 (-18) (by norm_num) (by norm_num) (by norm_num) (by
      norm_num) (by norm_num) (by norm_num) (by norm_num) (by norm_num) (by norm_num)
  simp only [Single.Vector2Distance, Single.fadd, Single.fsub, Single.fmul, Single.fdiv,
    Single.sqrtf, h1, h2, h3, h4, h5, h6]

theorem at_threshold_distance_up :
    Single.Vector2Distance (⟨0, 0⟩ : Vector2) (⟨0, 40⟩ : Vector2) = 40 := by
  have h1 : binary32 (0 - 0) = 0 :=
    binary32_val_zero _ (by norm_num)
  have h2 : binary32 (0 - 40) = (-40) :=
    binary32_val_neg _ _ 10485760 (-18) (by norm_num) (by norm_num) (Or.inr (by norm_num)) (by
      norm_num) (by norm_num) (by norm_num) (by norm_num)
  have h3 : binary32 (0 * 0) = 0 :=
    binary32_val_zero _ (by norm_num)
  have h4 : binary32 ((-40) * (-40)) = 1600 :=
    binary32_val_pos _ _ 13107200 (-13) (by norm_num) (by norm_num) (Or.inr (by norm_num)) (by
      norm_num) (by norm_num) (by norm_num) (by norm_num)
  have h5 : binary32 (0 + 1600) = 1600 :=
    binary32_val_pos _ _ 13107200 (-13) (by norm_num) (by norm_num) (Or.inr (by norm_num)) (by
      norm_num) (by norm_num) (by norm_num) (by norm_num)
  have h6 : binary32 (Real.sqrt 1600) = 40 :=
    binary32_sqrt_val _ _ 32 64 10485760 (-18) (by norm_num) (by norm_num) (by norm_num) (by
      norm_num) (by norm_num) (by norm_num) (by norm_num) (by norm_num) (by norm_num)
  simp only [Single.Vector2Distance, Single.fadd, Single.fsub, Single.fmul, Single.fdiv,
    Single.sqrtf, h1, h2, h3, h4, h5, h6]

theorem at_threshold_distance_left :
    Single.Vector2Distance (⟨40, 0⟩ : Vector2) (⟨0, 0⟩ : Vector2) = 40 := by
  have h1 : binary32 (40 - 0) = 40 :=
    binary32_val_pos _ _ 10485760 (-18) (by norm_num) (by norm_num) (Or.inr (by norm_num)) (by
      norm_num) (by norm_num) (by norm_num) (by norm_num)
  have h2 : binary32 (0 - 0) = 0 :=
    binary32_val_zero _ (by norm_num)
  have h3 : binary32 (40 * 40) = 1600 :=
    binary32_val_pos _ _ 13107200 (-13) (by norm_num) (by norm_num) (Or.inr (by norm_num)) (by
      norm_num) (by norm_num) (by norm_num) (by norm_num)
  have h4 : binary32 (0 * 0) = 0 :=
    binary32_val_zero _ (by norm_num)
  have h5 : binary32 (1600 + 0) = 1600 :=
    binary32_val_pos _ _ 13107200 (-13) (by norm_num) (by norm_num) (Or.inr (by norm_num)) (by
      norm_num) (by norm_num) (by norm_num) (by norm_num)
  have h6 : binary32 (Real.sqrt 1600) = 40 :=
    binary32_sqrt_val _ _ 32 64 10485760 (-18) (by norm_num) (by norm_num) (by norm_num) (by
      norm_num) (by norm_num) (by norm_num) (by norm_num) (by norm_num) (by norm_num)
  simp only [Single.Vector2Distance, Single.fadd, Single.fsub, Single.fmul, Single.fdiv,
    Single.sqrtf, h1, h2, h3, h4, h5, h6]

theorem single_trio_neighbours :
    Single.local_neighbours trio_at_threshold 0
      = [items trio_at_threshold 1, items trio_at_threshold 2] := by
  rw [single_local_neighbours_eq_filter]
  simp [trio_at_threshold, List.range_succ, List.filter_cons, items_cons_zero, items_cons_succ,
    at_threshold_overlap_right, at_threshold_overlap_up]

theorem single_trio_far :
    ∀ n ∈ Single.local_neighbours trio_at_threshold 0,
      ¬ (0 < Single.Vector2Distance (items trio_at_threshold 0).center n.center
        ∧ Single.Vector2Distance (items trio_at_threshold 0).center n.center < 40) := by
  intro n hn
  rw [single_trio_neighbours] at hn
  simp only [List.mem_cons, List.mem_singleton, List.mem_nil_iff, or_false] at hn
  rcases hn with h | h <;> rw [h] <;>
    simp only [trio_at_threshold, items_cons_zero, items_cons_succ,
      at_threshold_distance_right, at_threshold_distance_up] <;> norm_num

/-- C8, as the code has it: the threshold `T = BOID_RADIUS / 3` of `separation`
is `40.0f`, and the test is made on the distance as `Vector2Distance` computes
it in single precision.  A neighbour whose computed distance is `T` or more adds
nothing to the repulsion, and a boid none of whose neighbours has a computed
distance strictly between `0` and `T` keeps its heading (and everything else)
through the pass. -/
theorem single_separation_threshold (bs : Boids) (i : Nat) (hi : i < bs.length) :
    Single.fdiv Single.BOID_RADIUS 3 = 40
      ∧ (∀ (n : Boid) (acc : Boids × Vector2),
          40 ≤ Single.Vector2Distance (items bs i).center n.center →
          Single.separation_accum (items bs i).center n acc = acc)
      ∧ ((∀ n ∈ Single.local_neighbours bs i,
            ¬ (0 < Single.Vector2Distance (items bs i).center n.center
              ∧ Single.Vector2Distance (items bs i).center n.center < 40)) →
          items (Single.separation bs) i = items bs i) := by
  refine ⟨single_threshold, ?_, ?_⟩
  · intro n acc hd
    exact single_separation_accum_far _ n acc (fun h => absurd h.2 (not_lt.mpr hd))
  · intro hnone
    rw [single_separation_items bs i hi, single_separation_close_none _ _ hnone]
    simp

/-- C8 at a concrete input: the first boid of `trio_at_threshold` has two
neighbours, each at computed distance exactly `40`, and `separation` leaves it
unchanged. -/
theorem single_separation_threshold_witness :
    0 < trio_at_threshold.length ∧
      Single.local_neighbours trio_at_threshold 0
        = [items trio_at_threshold 1, items trio_at_threshold 2] ∧
      Single.Vector2Distance (items trio_at_threshold 0).center
        (items trio_at_threshold 1).center = 40 ∧
      Single.Vector2Distance (items trio_at_threshold 0).center
        (items trio_at_threshold 2).center = 40 ∧
      items (Single.separation trio_at_threshold) 0 = items trio_at_threshold 0 :=
  ⟨by decide, single_trio_neighbours, at_threshold_distance_right, at_threshold_distance_up,
    (single_separation_threshold trio_at_threshold 0 (by decide)).2.2 single_trio_far⟩

theorem near_threshold_overlap_first :
    Single.CheckCollisionCircles (⟨64, 0⟩ : Vector2) Single.BOID_RADIUS (⟨(13893623/524288),
      (1824439/131072)⟩ : Vector2) Single.BOID_RADIUS = true := by
  have h1 : binary32 ((13893623/524288) - 64) = (-2457601/65536) :=
    binary32_val_tie_neg _ _ 9830404 (-18) (by norm_num) (by norm_num) (Or.inr (by norm_num)) (by
      norm_num) (by norm_num) (by decide) (Or.inr (by norm_num))
  have h2 : binary32 ((1824439/131072) - 0) = (1824439/131072) :=
    binary32_val_pos _ _ 14595512 (-20) (by norm_num) (by norm_num) (Or.inr (by norm_num)) (by
      norm_num) (by norm_num) (by norm_num) (by norm_num)
  have h3 : binary32 ((-2457601/65536) * (-2457601/65536)) = (11520009/8192) :=
    binary32_val_pos _ _ 11520009 (-13) (by norm_num) (by norm_num) (Or.inr (by norm_num)) (by
      norm_num) (by norm_num) (by norm_num) (by norm_num)
  have h4 : binary32 ((1824439/131072) * (1824439/131072)) = (3174379/16384) :=
    binary32_val_pos _ _ 12697516 (-16) (by norm_num) (by norm_num) (Or.inr (by norm_num)) (by
      norm_num) (by norm_num) (by norm_num) (by norm_num)
  have h5 : binary32 ((11520009/8192) + (3174379/16384)) = (6553599/4096) :=
    binary32_val_tie_pos _ _ 13107198 (-13) (by norm_num) (by norm_num) (Or.inr (by norm_num)) (by
      norm_num) (by norm_num) (by decide) (Or.inl (by norm_num))
  have h6 : decide (((6553599/4096) : ℝ) ≤ 57600) = true :=
    decide_eq_true (by norm_num)
  simp only [single_collision_eq, Single.fadd, Single.fsub, Single.fmul, Single.fdiv, Single.sqrtf,
    h1, h2, h3, h4, h5, h6]

theorem near_threshold_overlap_second :
    Single.CheckCollisionCircles (⟨64, 0⟩ : Vector2) Single.BOID_RADIUS (⟨64, 200⟩ : Vector2)
      Single.BOID_RADIUS = true := by
  have h1 : binary32 (64 - 64) = 0 :=
    binary32_val_zero _ (by norm_num)
  have h2 : binary32 (200 - 0) = 200 :=
    binary32_val_pos _ _ 13107200 (-16) (by norm_num) (by norm_num) (Or.inr (by norm_num)) (by
      norm_num) (by norm_num) (by norm_num) (by norm_num)
  have h3 : binary32 (0 * 0) = 0 :=
    binary32_val_zero _ (by norm_num)
  have h4 : binary32 (200 * 200) = 40000 :=
    binary32_val_pos _ _ 10240000 (-8) (by norm_num) (by norm_num) (Or.inr (by norm_num)) (by
      norm_num) (by norm_num) (by norm_num) (by norm_num)
  have h5 : binary32 (0 + 40000) = 40000 :=
    binary32_val_pos _ _ 10240000 (-8) (by norm_num) (by norm_num) (Or.inr (by norm_num)) (by
      norm_num) (by norm_num) (by norm_num) (by norm_num)
  have h6 : decide ((40000 : ℝ) ≤ 57600) = true :=
    decide_eq_true (by norm_num)
  simp only [single_collision_eq, Single.fadd, Single.fsub, Single.fmul, Single.fdiv, Single.sqrtf,
    h1, h2, h3, h4, h5, h6]

theorem near_threshold_distance_first :
    Single.Vector2Distance (⟨64, 0⟩ : Vector2) (⟨(13893623/524288), (1824439/131072)⟩ : Vector2) =
      (10485759/262144) := by
  have h1 : binary32 (64 - (13893623/524288)) = (2457601/65536) :=
    binary32_val_tie_pos _ _ 9830404 (-18) (by norm_num) (by norm_num) (Or.inr (by norm_num)) (by
      norm_num) (by norm_num) (by decide) (Or.inl (by norm_num))
  have h2 : binary32 (0 - (1824439/131072)) = (-1824439/131072) :=
    binary32_val_neg _ _ 14595512 (-20) (by norm_num) (by norm_num) (Or.inr (by norm_num)) (by
      norm_num) (by norm_num) (by norm_num) (by norm_num)
  have h3 : binary32 ((2457601/65536) * (2457601/65536)) = (11520009/8192) :=
    binary32_val_pos _ _ 11520009 (-13) (by norm_num) (by norm_num) (Or.inr (by norm_num)) (by
      norm_num) (by norm_num) (by norm_num) (by norm_num)
  have h4 : binary32 ((-1824439/131072) * (-1824439/131072)) = (3174379/16384) :=
    binary32_val_pos _ _ 12697516 (-16) (by norm_num) (by norm_num) (Or.inr (by norm_num)) (by
      norm_num) (by norm_num) (by norm_num) (by norm_num)
  have h5 : binary32 ((11520009/8192) + (3174379/16384)) = (6553599/4096) :=
    binary32_val_tie_pos _ _ 13107198 (-13) (by norm_num) (by norm_num) (Or.inr (by norm_num)) (by
      norm_num) (by norm_num) (by decide) (Or.inl (by norm_num))
  have h6 : binary32 (Real.sqrt (6553599/4096)) = (10485759/262144) :=
    binary32_sqrt_val _ _ 32 64 10485759 (-18) (by norm_num) (by norm_num) (by norm_num) (by
      norm_num) (by norm_num) (by norm_num) (by norm_num) (by norm_num) (by norm_num)
  simp only [Single.Vector2Distance, Single.fadd, Single.fsub, Single.fmul, Single.fdiv,
    Single.sqrtf, h1, h2, h3, h4, h5, h6]

theorem near_threshold_distance_second :
    Single.Vector2Distance (⟨64, 0⟩ : Vector2) (⟨64, 200⟩ : Vector2) = 200 := by
  have h1 : binary32 (64 - 64) = 0 :=
    binary32_val_zero _ (by norm_num)
  have h2 : binary32 (0 - 200) = (-200) :=
    binary32_val_neg _ _ 13107200 (-16) (by norm_num) (by norm_num) (Or.inr (by norm_num)) (by
      norm_num) (by norm_num) (by norm_num) (by norm_num)
  have h3 : binary32 (0 * 0) = 0 :=
    binary32_val_zero _ (by norm_num)
  have h4 : binary32 ((-200) * (-200)) = 40000 :=
    binary32_val_pos _ _ 10240000 (-8) (by norm_num) (by norm_num) (Or.inr (by norm_num)) (by
      norm_num) (by norm_num) (by norm_num) (by norm_num)
  have h5 : binary32 (0 + 40000) = 40000 :=
    binary32_val_pos _ _ 10240000 (-8) (by norm_num) (by norm_num) (Or.inr (by norm_num)) (by
      norm_num) (by norm_num) (by norm_num) (by norm_num)
  have h6 : binary32 (Real.sqrt 40000) = 200 :=
    binary32_sqrt_val _ _ 128 256 13107200 (-16) (by norm_num) (by norm_num) (by norm_num) (by
      norm_num) (by norm_num) (by norm_num) (by norm_num) (by norm_num) (by norm_num)
  simp only [Single.Vector2Distance, Single.fadd, Single.fsub, Single.fmul, Single.fdiv,
    Single.sqrtf, h1, h2, h3, h4, h5, h6]

theorem near_threshold_repulsion :
    Single.Vector2Add Vector2Zero (Single.Vector2Scale (Single.Vector2Normalize
      (Single.Vector2Subtract (⟨64, 0⟩ : Vector2) (⟨(13893623/524288), (1824439/131072)⟩ :
      Vector2))) (Single.fdiv (Single.fsub 40 (10485759/262144)) 40)) =
      (⟨(12582919/140737488355328), (-9341129/281474976710656)⟩ : Vector2) := by
  have h1 : binary32 (64 - (13893623/524288)) = (2457601/65536) :=
    binary32_val_tie_pos _ _ 9830404 (-18) (by norm_num) (by norm_num) (Or.inr (by norm_num)) (by
      norm_num) (by norm_num) (by decide) (Or.inl (by norm_num))
  have h2 : binary32 (0 - (1824439/131072)) = (-1824439/131072) :=
    binary32_val_neg _ _ 14595512 (-20) (by norm_num) (by norm_num) (Or.inr (by norm_num)) (by
      norm_num) (by norm_num) (by norm_num) (by norm_num)
  have h3 : binary32 ((2457601/65536) * (2457601/65536)) = (11520009/8192) :=
    binary32_val_pos _ _ 11520009 (-13) (by norm_num) (by norm_num) (Or.inr (by norm_num)) (by
      norm_num) (by norm_num) (by norm_num) (by norm_num)
  have h4 : binary32 ((-1824439/131072) * (-1824439/131072)) = (3174379/16384) :=
    binary32_val_pos _ _ 12697516 (-16) (by norm_num) (by norm_num) (Or.inr (by norm_num)) (by
      norm_num) (by norm_num) (by norm_num) (by norm_num)
  have h5 : binary32 ((11520009/8192) + (3174379/16384)) = (6553599/4096) :=
    binary32_val_tie_pos _ _ 13107198 (-13) (by norm_num) (by norm_num) (Or.inr (by norm_num)) (by
      norm_num) (by norm_num) (by decide) (Or.inl (by norm_num))
  have h6 : binary32 (Real.sqrt (6553599/4096)) = (10485759/262144) :=
    binary32_sqrt_val _ _ 32 64 10485759 (-18) (by norm_num) (by norm_num) (by norm_num) (by
      norm_num) (by norm_num) (by norm_num) (by norm_num) (by norm_num) (by norm_num)
  have h7 : (((10485759/262144) : ℝ) > 0) = True :=
    eq_true (by norm_num)
  have h8 : binary32 (1 / (10485759/262144)) = (6710887/268435456) :=
    binary32_val_pos _ _ 13421774 (-29) (by norm_num) (by norm_num) (Or.inr (by norm_num)) (by
      norm_num) (by norm_num) (by norm_num) (by norm_num)
  have h9 : binary32 ((2457601/65536) * (6710887/268435456)) = (1966081/2097152) :=
    binary32_val_pos _ _ 15728648 (-24) (by norm_num) (by norm_num) (Or.inr (by norm_num)) (by
      norm_num) (by norm_num) (by norm_num) (by norm_num)
  have h10 : binary32 ((-1824439/131072) * (6710887/268435456)) = (-11676411/33554432) :=
    binary32_val_neg _ _ 11676411 (-25) (by norm_num) (by norm_num) (Or.inr (by norm_num)) (by
      norm_num) (by norm_num) (by norm_num) (by norm_num)
  have h11 : binary32 (40 - (10485759/262144)) = (1/262144) :=
    binary32_val_pos _ _ 8388608 (-41) (by norm_num) (by norm_num) (Or.inr (by norm_num)) (by
      norm_num) (by norm_num) (by norm_num) (by norm_num)
  have h12 : binary32 ((1/262144) / 40) = (13421773/140737488355328) :=
    binary32_val_pos _ _ 13421773 (-47) (by norm_num) (by norm_num) (Or.inr (by norm_num)) (by
      norm_num) (by norm_num) (by norm_num) (by norm_num)
  have h13 : binary32 ((1966081/2097152) * (13421773/140737488355328)) = (12582919/140737488355328)
      :=
    binary32_val_pos _ _ 12582919 (-47) (by norm_num) (by norm_num) (Or.inr (by norm_num)) (by
      norm_num) (by norm_num) (by norm_num) (by norm_num)
  have h14 : binary32 ((-11676411/33554432) * (13421773/140737488355328)) =
      (-9341129/281474976710656) :=
    binary32_val_neg _ _ 9341129 (-48) (by norm_num) (by norm_num) (Or.inr (by norm_num)) (by
      norm_num) (by norm_num) (by norm_num) (by norm_num)
  have h15 : binary32 (0 + (12582919/140737488355328)) = (12582919/140737488355328) :=
    binary32_val_pos _ _ 12582919 (-47) (by norm_num) (by norm_num) (Or.inr (by norm_num)) (by
      norm_num) (by norm_num) (by norm_num) (by norm_num)
  have h16 : binary32 (0 + (-9341129/281474976710656)) = (-9341129/281474976710656) :=
    binary32_val_neg _ _ 9341129 (-48) (by norm_num) (by norm_num) (Or.inr (by norm_num)) (by
      norm_num) (by norm_num) (by norm_num) (by norm_num)
  simp only [Single.Vector2Normalize, Single.Vector2Subtract, Single.Vector2Scale,
    Single.Vector2Add, Single.Vector2Lerp, Single.Vector2Distance, Vector2Zero, Single.fadd,
    Single.fsub, Single.fmul, Single.fdiv, Single.sqrtf, if_true, if_false, h1, h2, h3, h4, h5, h6,
    h7, h8, h9, h10, h11, h12, h13, h14, h15, h16]

theorem near_threshold_heading :
    Single.Vector2Normalize (Single.Vector2Lerp (⟨1, 0⟩ : Vector2) (Single.Vector2Normalize
      (Single.Vector2Scale (⟨(12582919/140737488355328), (-9341129/281474976710656)⟩ : Vector2)
      (Single.fdiv 1 (binary32 1)))) (Single.fmul (binary32 0.1) (Single.fdiv 3 3))) =
      (⟨(8383469/8388608), (-9394117/268435456)⟩ : Vector2) := by
  have h1 : binary32 1 = 1 :=
    binary32_val_pos _ _ 8388608 (-23) (by norm_num) (by norm_num) (Or.inr (by norm_num)) (by
      norm_num) (by norm_num) (by norm_num) (by norm_num)
  have h2 : binary32 (1 / 1) = 1 :=
    binary32_val_pos _ _ 8388608 (-23) (by norm_num) (by norm_num) (Or.inr (by norm_num)) (by
      norm_num) (by norm_num) (by norm_num) (by norm_num)
  have h3 : binary32 ((12582919/140737488355328) * 1) = (12582919/140737488355328) :=
    binary32_val_pos _ _ 12582919 (-47) (by norm_num) (by norm_num) (Or.inr (by norm_num)) (by
      norm_num) (by norm_num) (by norm_num) (by norm_num)
  have h4 : binary32 ((-9341129/281474976710656) * 1) = (-9341129/281474976710656) :=
    binary32_val_neg _ _ 9341129 (-48) (by norm_num) (by norm_num) (Or.inr (by norm_num)) (by
      norm_num) (by norm_num) (by norm_num) (by norm_num)
  have h5 : binary32 ((12582919/140737488355328) * (12582919/140737488355328)) =
      (9437195/1180591620717411303424) :=
    binary32_val_pos _ _ 9437195 (-70) (by norm_num) (by norm_num) (Or.inr (by norm_num)) (by
      norm_num) (by norm_num) (by norm_num) (by norm_num)
  have h6 : binary32 ((-9341129/281474976710656) * (-9341129/281474976710656)) =
      (650113/590295810358705651712) :=
    binary32_val_pos _ _ 10401808 (-73) (by norm_num) (by norm_num) (Or.inr (by norm_num)) (by
      norm_num) (by norm_num) (by norm_num) (by norm_num)
  have h7 : binary32 ((9437195/1180591620717411303424) + (650113/590295810358705651712)) =
      (10737421/1180591620717411303424) :=
    binary32_val_pos _ _ 10737421 (-70) (by norm_num) (by norm_num) (Or.inr (by norm_num)) (by
      norm_num) (by norm_num) (by norm_num) (by norm_num)
  have h8 : binary32 (Real.sqrt (10737421/1180591620717411303424)) = (13421775/140737488355328) :=
    binary32_sqrt_val _ _ (1/16777216) (1/8388608) 13421775 (-47) (by norm_num) (by norm_num) (by
      norm_num) (by norm_num) (by norm_num) (by norm_num) (by norm_num) (by norm_num) (by norm_num)
  have h9 : (((13421775/140737488355328) : ℝ) > 0) = True :=
    eq_true (by norm_num)
  have h10 : binary32 (1 / (13421775/140737488355328)) = 10485758 :=
    binary32_val_pos _ _ 10485758 (0) (by norm_num) (by norm_num) (Or.inr (by norm_num)) (by
      norm_num) (by norm_num) (by norm_num) (by norm_num)
  have h11 : binary32 ((12582919/140737488355328) * 10485758) = (7864323/8388608) :=
    binary32_val_pos _ _ 15728646 (-24) (by norm_num) (by norm_num) (Or.inr (by norm_num)) (by
      norm_num) (by norm_num) (by norm_num) (by norm_num)
  have h12 : binary32 ((-9341129/281474976710656) * 10485758) = (-11676409/33554432) :=
    binary32_val_neg _ _ 11676409 (-25) (by norm_num) (by norm_num) (Or.inr (by norm_num)) (by
      norm_num) (by norm_num) (by norm_num) (by norm_num)
  have h13 : binary32 (0.1) = (13421773/134217728) :=
    binary32_val_pos _ _ 13421773 (-27) (by norm_num) (by norm_num) (Or.inr (by norm_num)) (by
      norm_num) (by norm_num) (by norm_num) (by norm_num)
  have h14 : binary32 (3 / 3) = 1 :=
    binary32_val_pos _ _ 8388608 (-23) (by norm_num) (by norm_num) (Or.inr (by norm_num)) (by
      norm_num) (by norm_num) (by norm_num) (by norm_num)
  have h15 : binary32 ((13421773/134217728) * 1) = (13421773/134217728) :=
    binary32_val_pos _ _ 13421773 (-27) (by norm_num) (by norm_num) (Or.inr (by norm_num)) (by
      norm_num) (by norm_num) (by norm_num) (by norm_num)
  have h16 : binary32 ((7864323/8388608) - 1) = (-524285/8388608) :=
    binary32_val_neg _ _ 16777120 (-28) (by norm_num) (by norm_num) (Or.inr (by norm_num)) (by
      norm_num) (by norm_num) (by norm_num) (by norm_num)
  have h17 : binary32 ((13421773/134217728) * (-524285/8388608)) = (-104857/16777216) :=
    binary32_val_neg _ _ 13421696 (-31) (by norm_num) (by norm_num) (Or.inr (by norm_num)) (by
      norm_num) (by norm_num) (by norm_num) (by norm_num)
  have h18 : binary32 (1 + (-104857/16777216)) = (16672359/16777216) :=
    binary32_val_pos _ _ 16672359 (-24) (by norm_num) (by norm_num) (Or.inr (by norm_num)) (by
      norm_num) (by norm_num) (by norm_num) (by norm_num)
  have h19 : binary32 ((-11676409/33554432) - 0) = (-11676409/33554432) :=
    binary32_val_neg _ _ 11676409 (-25) (by norm_num) (by norm_num) (Or.inr (by norm_num)) (by
      norm_num) (by norm_num) (by norm_num) (by norm_num)
  have h20 : binary32 ((13421773/134217728) * (-11676409/33554432)) = (-9341127/268435456) :=
    binary32_val_neg _ _ 9341127 (-28) (by norm_num) (by norm_num) (Or.inr (by norm_num)) (by
      norm_num) (by norm_num) (by norm_num) (by norm_num)
  have h21 : binary32 (0 + (-9341127/268435456)) = (-9341127/268435456) :=
    binary32_val_neg _ _ 9341127 (-28) (by norm_num) (by norm_num) (Or.inr (by norm_num)) (by
      norm_num) (by norm_num) (by norm_num) (by norm_num)
  have h22 : binary32 ((16672359/16777216) * (16672359/16777216)) = (16568157/16777216) :=
    binary32_val_pos _ _ 16568157 (-24) (by norm_num) (by norm_num) (Or.inr (by norm_num)) (by
      norm_num) (by norm_num) (by norm_num) (by norm_num)
  have h23 : binary32 ((-9341127/268435456) * (-9341127/268435456)) = (2600451/2147483648) :=
    binary32_val_pos _ _ 10401804 (-33) (by norm_num) (by norm_num) (Or.inr (by norm_num)) (by
      norm_num) (by norm_num) (by norm_num) (by norm_num)
  have h24 : binary32 ((16568157/16777216) + (2600451/2147483648)) = (16588473/16777216) :=
    binary32_val_pos _ _ 16588473 (-24) (by norm_num) (by norm_num) (Or.inr (by norm_num)) (by
      norm_num) (by norm_num) (by norm_num) (by norm_num)
  have h25 : binary32 (Real.sqrt (16588473/16777216)) = (8341289/8388608) :=
    binary32_sqrt_val _ _ (1/2) 1 16682578 (-24) (by norm_num) (by norm_num) (by norm_num) (by
      norm_num) (by norm_num) (by norm_num) (by norm_num) (by norm_num) (by norm_num)
  have h26 : (((8341289/8388608) : ℝ) > 0) = True :=
    eq_true (by norm_num)
  have h27 : binary32 (1 / (8341289/8388608)) = (8436195/8388608) :=
    binary32_val_pos _ _ 8436195 (-23) (by norm_num) (by norm_num) (Or.inr (by norm_num)) (by
      norm_num) (by norm_num) (by norm_num) (by norm_num)
  have h28 : binary32 ((16672359/16777216) * (8436195/8388608)) = (8383469/8388608) :=
    binary32_val_pos _ _ 16766938 (-24) (by norm_num) (by norm_num) (Or.inr (by norm_num)) (by
      norm_num) (by norm_num) (by norm_num) (by norm_num)
  have h29 : binary32 ((-9341127/268435456) * (8436195/8388608)) = (-9394117/268435456) :=
    binary32_val_neg _ _ 9394117 (-28) (by norm_num) (by norm_num) (Or.inr (by norm_num)) (by
      norm_num) (by norm_num) (by norm_num) (by norm_num)
  simp only [Single.Vector2Normalize, Single.Vector2Subtract, Single.Vector2Scale,
    Single.Vector2Add, Single.Vector2Lerp, Single.Vector2Distance, Vector2Zero, Single.fadd,
    Single.fsub, Single.fmul, Single.fdiv, Single.sqrtf, if_true, if_false, h1, h2, h3, h4, h5, h6,
    h7, h8, h9, h10, h11, h12, h13, h14, h15, h16, h17, h18, h19, h20, h21, h22, h23, h24, h25, h26,
    h27, h28, h29]

theorem near_threshold_neighbours :
    Single.local_neighbours near_threshold 0
      = [items near_threshold 1, items near_threshold 2] := by
  rw [single_local_neighbours_eq_filter]
  simp [near_threshold, List.range_succ, List.filter_cons, items_cons_zero, items_cons_succ,
    near_threshold_overlap_first, near_threshold_overlap_second]

theorem near_threshold_close :
    Single.separation_close (items near_threshold 0).center
        [items near_threshold 1, items near_threshold 2]
      = ([items near_threshold 1], ⟨(12582919/140737488355328), (-9341129/281474976710656)⟩) := by
  have h1 : 0 < Single.Vector2Distance (items near_threshold 0).center
        (items near_threshold 1).center
      ∧ Single.Vector2Distance (items near_threshold 0).center
        (items near_threshold 1).center < 40 := by
    simp only [near_threshold, items_cons_zero, items_cons_succ, near_threshold_distance_first]
    constructor <;> norm_num
  have h2 : ¬ (0 < Single.Vector2Distance (items near_threshold 0).center
        (items near_threshold 2).center
      ∧ Single.Vector2Distance (items near_threshold 0).center
        (items near_threshold 2).center < 40) := by
    simp only [near_threshold, items_cons_zero, items_cons_succ, near_threshold_distance_second]
    norm_num
  rw [single_separation_close_eq_foldl]
  simp only [List.foldl_cons, List.foldl_nil]
  rw [single_separation_accum_close _ (items near_threshold 1) _ h1,
    single_separation_accum_far _ (items near_threshold 2) _ h2]
  simp only [near_threshold, items_cons_zero, items_cons_succ, near_threshold_distance_first,
    near_threshold_repulsion, List.nil_append]

/-- C8, counterexample: in `near_threshold` the first boid has two neighbours,
both farther than `40` from it (the nearer one at distance `sqrt 1600.0000075`);
yet `Vector2Distance` computes `39.999996` for the nearer one, which is below the
threshold, and `separation` turns the heading `(1, 0)` of the first boid to
`(0.9993874, -0.0349958)`. -/
theorem near_threshold_repels :
    Single.local_neighbours near_threshold 0
        = [items near_threshold 1, items near_threshold 2]
      ∧ (∀ n ∈ Single.local_neighbours near_threshold 0,
          40 < Vector2Distance (items near_threshold 0).center n.center)
      ∧ (items near_threshold 0).direction = ⟨1, 0⟩
      ∧ (items (Single.separation near_threshold) 0).direction
          = ⟨(8383469/8388608), (-9394117/268435456)⟩ := by
  refine ⟨near_threshold_neighbours, ?_, rfl, ?_⟩
  · intro n hn
    rw [near_threshold_neighbours] at hn
    simp only [List.mem_cons, List.mem_singleton, List.mem_nil_iff, or_false] at hn
    rcases hn with h | h <;> rw [h] <;>
      simp only [near_threshold, items_cons_zero, items_cons_succ, Vector2Distance] <;>
      rw [Real.lt_sqrt (by norm_num)] <;> norm_num
  · rw [single_separation_items _ 0 (by decide), near_threshold_neighbours,
      if_neg (by decide), near_threshold_close, if_pos (by decide)]
    simp only [near_threshold, items_cons_zero, List.length_singleton, Nat.cast_one,
      near_threshold_heading]

/-! ## C10 in single precision: the cohesion rule -/

theorem single_cohesion_desired_eq (c : Vector2) (lbs : Boids) :
    Single.cohesion_desired c lbs
      = Single.Vector2Normalize (Single.Vector2Subtract (Single.mean_position lbs) c) := by
  unfold Single.cohesion_desired Single.mean_position
  rw [single_cohesion_sum_eq]

/-- C10, as the code has it: for a boid with at least one neighbour, the desired
direction of `cohesion` is the computed normalisation of the computed difference
between the computed mean of the neighbours' centres (rounded sum in collection
order, times the rounded reciprocal of the count) and the boid's centre, and the
heading after the pass is the computed
`normalize(lerp(heading, desired, 0.05f * (speed / 3)))`. -/
theorem single_cohesion_heading (bs : Boids) (i : Nat) (hi : i < bs.length)
    (hn : 1 ≤ (Single.local_neighbours bs i).length) :
    Single.cohesion_desired (items bs i).center (Single.local_neighbours bs i)
        = Single.Vector2Normalize (Single.Vector2Subtract
            (Single.mean_position (Single.local_neighbours bs i)) (items bs i).center)
      ∧ (items (Single.cohesion bs) i).direction
        = Single.Vector2Normalize (Single.Vector2Lerp (items bs i).direction
            (Single.Vector2Normalize (Single.Vector2Subtract
              (Single.mean_position (Single.local_neighbours bs i)) (items bs i).center))
            (Single.fmul (binary32 0.05) (Single.fdiv (items bs i).speed 3))) := by
  refine ⟨single_cohesion_desired_eq _ _, ?_⟩
  rw [single_cohesion_items bs i hi, if_neg (by omega), single_cohesion_desired_eq]

theorem off_centre_overlap_first :
    Single.CheckCollisionCircles (⟨(13123585/16384), 450⟩ : Vector2) Single.BOID_RADIUS
      (⟨(12959745/16384), 440⟩ : Vector2) Single.BOID_RADIUS = true := by
  have h1 : binary32 ((12959745/16384) - (13123585/16384)) = (-10) :=
    binary32_val_neg _ _ 10485760 (-20) (by norm_num) (by norm_num) (Or.inr (by norm_num)) (by
      norm_num) (by norm_num) (by norm_num) (by norm_num)
  have h2 : binary32 (440 - 450) = (-10) :=
    binary32_val_neg _ _ 10485760 (-20) (by norm_num) (by norm_num) (Or.inr (by norm_num)) (by
      norm_num) (by norm_num) (by norm_num) (by norm_num)
  have h3 : binary32 ((-10) * (-10)) = 100 :=
    binary32_val_pos _ _ 13107200 (-17) (by norm_num) (by norm_num) (Or.inr (by norm_num)) (by
      norm_num) (by norm_num) (by norm_num) (by norm_num)
  have h4 : binary32 (100 + 100) = 200 :=
    binary32_val_pos _ _ 13107200 (-16) (by norm_num) (by norm_num) (Or.inr (by norm_num)) (by
      norm_num) (by norm_num) (by norm_num) (by norm_num)
  have h5 : decide ((200 : ℝ) ≤ 57600) = true :=
    decide_eq_true (by norm_num)
  simp only [single_collision_eq, Single.fadd, Single.fsub, Single.fmul, Single.fdiv, Single.sqrtf,
    h1, h2, h3, h4, h5]

theorem off_centre_overlap_second :
    Single.CheckCollisionCircles (⟨(13123585/16384), 450⟩ : Vector2) Single.BOID_RADIUS
      (⟨(13287425/16384), 440⟩ : Vector2) Single.BOID_RADIUS = true := by
  have h1 : binary32 ((13287425/16384) - (13123585/16384)) = 10 :=
    binary32_val_pos _ _ 10485760 (-20) (by norm_num) (by norm_num) (Or.inr (by norm_num)) (by
      norm_num) (by norm_num) (by norm_num) (by norm_num)
  have h2 : binary32 (440 - 450) = (-10) :=
    binary32_val_neg _ _ 10485760 (-20) (by norm_num) (by norm_num) (Or.inr (by norm_num)) (by
      norm_num) (by norm_num) (by norm_num) (by norm_num)
  have h3 : binary32 (10 * 10) = 100 :=
    binary32_val_pos _ _ 13107200 (-17) (by norm_num) (by norm_num) (Or.inr (by norm_num)) (by
      norm_num) (by norm_num) (by norm_num) (by norm_num)
  have h4 : binary32 ((-10) * (-10)) = 100 :=
    binary32_val_pos _ _ 13107200 (-17) (by norm_num) (by norm_num) (Or.inr (by norm_num)) (by
      norm_num) (by norm_num) (by norm_num) (by norm_num)
  have h5 : binary32 (100 + 100) = 200 :=
    binary32_val_pos _ _ 13107200 (-16) (by norm_num) (by norm_num) (Or.inr (by norm_num)) (by
      norm_num) (by norm_num) (by norm_num) (by norm_num)
  have h6 : decide ((200 : ℝ) ≤ 57600) = true :=
    decide_eq_true (by norm_num)
  simp only [single_collision_eq, Single.fadd, Single.fsub, Single.fmul, Single.fdiv, Single.sqrtf,
    h1, h2, h3, h4, h5, h6]

theorem off_centre_overlap_third :
    Single.CheckCollisionCircles (⟨(13123585/16384), 450⟩ : Vector2) Single.BOID_RADIUS
      (⟨(13123585/16384), 470⟩ : Vector2) Single.BOID_RADIUS = true := by
  have h1 : binary32 ((13123585/16384) - (13123585/16384)) = 0 :=
    binary32_val_zero _ (by norm_num)
  have h2 : binary32 (470 - 450) = 20 :=
    binary32_val_pos _ _ 10485760 (-19) (by norm_num) (by norm_num) (Or.inr (by norm_num)) (by
      norm_num) (by norm_num) (by norm_num) (by norm_num)
  have h3 : binary32 (0 * 0) = 0 :=
    binary32_val_zero _ (by norm_num)
  have h4 : binary32 (20 * 20) = 400 :=
    binary32_val_pos _ _ 13107200 (-15) (by norm_num) (by norm_num) (Or.inr (by norm_num)) (by
      norm_num) (by norm_num) (by norm_num) (by norm_num)
  have h5 : binary32 (0 + 400) = 400 :=
    binary32_val_pos _ _ 13107200 (-15) (by norm_num) (by norm_num) (Or.inr (by norm_num)) (by
      norm_num) (by norm_num) (by norm_num) (by norm_num)
  have h6 : decide ((400 : ℝ) ≤ 57600) = true :=
    decide_eq_true (by norm_num)
  simp only [single_collision_eq, Single.fadd, Single.fsub, Single.fmul, Single.fdiv, Single.sqrtf,
    h1, h2, h3, h4, h5, h6]

theorem off_centre_desired :
    Single.cohesion_desired (items off_centre 0).center
      [items off_centre 1, items off_centre 2, items off_centre 3] = (⟨1, 0⟩ : Vector2) := by
  have h1 : binary32 (0 + (12959745/16384)) = (12959745/16384) :=
    binary32_val_pos _ _ 12959745 (-14) (by norm_num) (by norm_num) (Or.inr (by norm_num)) (by
      norm_num) (by norm_num) (by norm_num) (by norm_num)
  have h2 : binary32 (0 + 440) = 440 :=
    binary32_val_pos _ _ 14417920 (-15) (by norm_num) (by norm_num) (Or.inr (by norm_num)) (by
      norm_num) (by norm_num) (by norm_num) (by norm_num)
  have h3 : binary32 ((12959745/16384) + (13287425/16384)) = (13123585/8192) :=
    binary32_val_pos _ _ 13123585 (-13) (by norm_num) (by norm_num) (Or.inr (by norm_num)) (by
      norm_num) (by norm_num) (by norm_num) (by norm_num)
  have h4 : binary32 (440 + 440) = 880 :=
    binary32_val_pos _ _ 14417920 (-14) (by norm_num) (by norm_num) (Or.inr (by norm_num)) (by
      norm_num) (by norm_num) (by norm_num) (by norm_num)
  have h5 : binary32 ((13123585/8192) + (13123585/16384)) = (9842689/4096) :=
    binary32_val_pos _ _ 9842689 (-12) (by norm_num) (by norm_num) (Or.inr (by norm_num)) (by
      norm_num) (by norm_num) (by norm_num) (by norm_num)
  have h6 : binary32 (880 + 470) = 1350 :=
    binary32_val_pos _ _ 11059200 (-13) (by norm_num) (by norm_num) (Or.inr (by norm_num)) (by
      norm_num) (by norm_num) (by norm_num) (by norm_num)
  have h7 : binary32 (0 + 1 + 1 + 1) = 3 :=
    binary32_val_pos _ _ 12582912 (-22) (by norm_num) (by norm_num) (Or.inr (by norm_num)) (by
      norm_num) (by norm_num) (by norm_num) (by norm_num)
  have h8 : binary32 (1 / 3) = (11184811/33554432) :=
    binary32_val_pos _ _ 11184811 (-25) (by norm_num) (by norm_num) (Or.inr (by norm_num)) (by
      norm_num) (by norm_num) (by norm_num) (by norm_num)
  have h9 : binary32 ((9842689/4096) * (11184811/33554432)) = (6561793/8192) :=
    binary32_val_pos _ _ 13123586 (-14) (by norm_num) (by norm_num) (Or.inr (by norm_num)) (by
      norm_num) (by norm_num) (by norm_num) (by norm_num)
  have h10 : binary32 (1350 * (11184811/33554432)) = 450 :=
    binary32_val_pos _ _ 14745600 (-15) (by norm_num) (by norm_num) (Or.inr (by norm_num)) (by
      norm_num) (by norm_num) (by norm_num) (by norm_num)
  have h11 : binary32 ((6561793/8192) - (13123585/16384)) = (1/16384) :=
    binary32_val_pos _ _ 8388608 (-37) (by norm_num) (by norm_num) (Or.inr (by norm_num)) (by
      norm_num) (by norm_num) (by norm_num) (by norm_num)
  have h12 : binary32 (450 - 450) = 0 :=
    binary32_val_zero _ (by norm_num)
  have h13 : binary32 ((1/16384) * (1/16384)) = (1/268435456) :=
    binary32_val_pos _ _ 8388608 (-51) (by norm_num) (by norm_num) (Or.inr (by norm_num)) (by
      norm_num) (by norm_num) (by norm_num) (by norm_num)
  have h14 : binary32 (0 * 0) = 0 :=
    binary32_val_zero _ (by norm_num)
  have h15 : binary32 ((1/268435456) + 0) = (1/268435456) :=
    binary32_val_pos _ _ 8388608 (-51) (by norm_num) (by norm_num) (Or.inr (by norm_num)) (by
      norm_num) (by norm_num) (by norm_num) (by norm_num)
  have h16 : binary32 (Real.sqrt (1/268435456)) = (1/16384) :=
    binary32_sqrt_val _ _ (1/16384) (1/8192) 8388608 (-37) (by norm_num) (by norm_num) (by norm_num)
      (by norm_num) (by norm_num) (by norm_num) (by norm_num) (by norm_num) (by norm_num)
  have h17 : (((1/16384) : ℝ) > 0) = True :=
    eq_true (by norm_num)
  have h18 : binary32 (1 / (1/16384)) = 16384 :=
    binary32_val_pos _ _ 8388608 (-9) (by norm_num) (by norm_num) (Or.inr (by norm_num)) (by
      norm_num) (by norm_num) (by norm_num) (by norm_num)
  have h19 : binary32 ((1/16384) * 16384) = 1 :=
    binary32_val_pos _ _ 8388608 (-23) (by norm_num) (by norm_num) (Or.inr (by norm_num)) (by
      norm_num) (by norm_num) (by norm_num) (by norm_num)
  have h20 : binary32 (0 * 16384) = 0 :=
    binary32_val_zero _ (by norm_num)
  simp only [Single.cohesion_desired, single_cohesion_sum_eq, off_centre, items_cons_zero,
    items_cons_succ, List.map_cons, List.map_nil, List.foldl_cons, List.foldl_nil, List.length_cons,
    List.length_nil, Nat.cast_add, Nat.cast_one, Nat.cast_zero, Single.Vector2Normalize,
    Single.Vector2Subtract, Single.Vector2Scale, Single.Vector2Add, Single.Vector2Lerp,
    Single.Vector2Distance, Vector2Zero, Single.fadd, Single.fsub, Single.fmul, Single.fdiv,
    Single.sqrtf, if_true, if_false, h1, h2, h3, h4, h5, h6, h7, h8, h9, h10, h11, h12, h13, h14,
    h15, h16, h17, h18, h19, h20]

theorem off_centre_heading :
    Single.Vector2Normalize (Single.Vector2Lerp (⟨0, 1⟩ : Vector2) (⟨1, 0⟩ : Vector2) (Single.fmul
      (binary32 0.05) (Single.fdiv 3 3))) = (⟨(14108655/268435456), (16754027/16777216)⟩ : Vector2)
      := by
  have h1 : binary32 (0.05) = (13421773/268435456) :=
    binary32_val_pos _ _ 13421773 (-28) (by norm_num) (by norm_num) (Or.inr (by norm_num)) (by
      norm_num) (by norm_num) (by norm_num) (by norm_num)
  have h2 : binary32 (3 / 3) = 1 :=
    binary32_val_pos _ _ 8388608 (-23) (by norm_num) (by norm_num) (Or.inr (by norm_num)) (by
      norm_num) (by norm_num) (by norm_num) (by norm_num)
  have h3 : binary32 ((13421773/268435456) * 1) = (13421773/268435456) :=
    binary32_val_pos _ _ 13421773 (-28) (by norm_num) (by norm_num) (Or.inr (by norm_num)) (by
      norm_num) (by norm_num) (by norm_num) (by norm_num)
  have h4 : binary32 (1 - 0) = 1 :=
    binary32_val_pos _ _ 8388608 (-23) (by norm_num) (by norm_num) (Or.inr (by norm_num)) (by
      norm_num) (by norm_num) (by norm_num) (by norm_num)
  have h5 : binary32 (0 + (13421773/268435456)) = (13421773/268435456) :=
    binary32_val_pos _ _ 13421773 (-28) (by norm_num) (by norm_num) (Or.inr (by norm_num)) (by
      norm_num) (by norm_num) (by norm_num) (by norm_num)
  have h6 : binary32 (0 - 1) = (-1) :=
    binary32_val_neg _ _ 8388608 (-23) (by norm_num) (by norm_num) (Or.inr (by norm_num)) (by
      norm_num) (by norm_num) (by norm_num) (by norm_num)
  have h7 : binary32 ((13421773/268435456) * (-1)) = (-13421773/268435456) :=
    binary32_val_neg _ _ 13421773 (-28) (by norm_num) (by norm_num) (Or.inr (by norm_num)) (by
      norm_num) (by norm_num) (by norm_num) (by norm_num)
  have h8 : binary32 (1 + (-13421773/268435456)) = (15938355/16777216) :=
    binary32_val_pos _ _ 15938355 (-24) (by norm_num) (by norm_num) (Or.inr (by norm_num)) (by
      norm_num) (by norm_num) (by norm_num) (by norm_num)
  have h9 : binary32 ((13421773/268435456) * (13421773/268435456)) = (10737419/4294967296) :=
    binary32_val_pos _ _ 10737419 (-32) (by norm_num) (by norm_num) (Or.inr (by norm_num)) (by
      norm_num) (by norm_num) (by norm_num) (by norm_num)
  have h10 : binary32 ((15938355/16777216) * (15938355/16777216)) = (15141437/16777216) :=
    binary32_val_pos _ _ 15141437 (-24) (by norm_num) (by norm_num) (Or.inr (by norm_num)) (by
      norm_num) (by norm_num) (by norm_num) (by norm_num)
  have h11 : binary32 ((10737419/4294967296) + (15141437/16777216)) = (3795845/4194304) :=
    binary32_val_pos _ _ 15183380 (-24) (by norm_num) (by norm_num) (Or.inr (by norm_num)) (by
      norm_num) (by norm_num) (by norm_num) (by norm_num)
  have h12 : binary32 (Real.sqrt (3795845/4194304)) = (15960415/16777216) :=
    binary32_sqrt_val _ _ (1/2) 1 15960415 (-24) (by norm_num) (by norm_num) (by norm_num) (by
      norm_num) (by norm_num) (by norm_num) (by norm_num) (by norm_num) (by norm_num)
  have h13 : (((15960415/16777216) : ℝ) > 0) = True :=
    eq_true (by norm_num)
  have h14 : binary32 (1 / (15960415/16777216)) = (8817909/8388608) :=
    binary32_val_pos _ _ 8817909 (-23) (by norm_num) (by norm_num) (Or.inr (by norm_num)) (by
      norm_num) (by norm_num) (by norm_num) (by norm_num)
  have h15 : binary32 ((13421773/268435456) * (8817909/8388608)) = (14108655/268435456) :=
    binary32_val_pos _ _ 14108655 (-28) (by norm_num) (by norm_num) (Or.inr (by norm_num)) (by
      norm_num) (by norm_num) (by norm_num) (by norm_num)
  have h16 : binary32 ((15938355/16777216) * (8817909/8388608)) = (16754027/16777216) :=
    binary32_val_pos _ _ 16754027 (-24) (by norm_num) (by norm_num) (Or.inr (by norm_num)) (by
      norm_num) (by norm_num) (by norm_num) (by norm_num)
  simp only [Single.Vector2Normalize, Single.Vector2Subtract, Single.Vector2Scale,
    Single.Vector2Add, Single.Vector2Lerp, Single.Vector2Distance, Vector2Zero, Single.fadd,
    Single.fsub, Single.fmul, Single.fdiv, Single.sqrtf, if_true, if_false, h1, h2, h3, h4, h5, h6,
    h7, h8, h9, h10, h11, h12, h13, h14, h15, h16]

theorem off_centre_neighbours :
    Single.local_neighbours off_centre 0
      = [items off_centre 1, items off_centre 2, items off_centre 3] := by
  rw [single_local_neighbours_eq_filter]
  simp [off_centre, List.range_succ, List.filter_cons, items_cons_zero, items_cons_succ,
    off_centre_overlap_first, off_centre_overlap_second, off_centre_overlap_third]

/-- C10, counterexample: in `off_centre` the arithmetic mean of the centres of
the three neighbours of the first boid is that boid's own centre, so the
normalised vector to the mean is the zero vector and the formula of the claim
keeps the heading `(0, 1)`; the program computes the mean `801.00012` for the
abscissa `801.00006`, takes `(1, 0)` as the desired direction and turns the
heading by three degrees. -/
theorem off_centre_turns :
    Single.local_neighbours off_centre 0
        = [items off_centre 1, items off_centre 2, items off_centre 3]
      ∧ centroid (Single.local_neighbours off_centre 0) = (items off_centre 0).center
      ∧ Vector2Normalize (Vector2Lerp (items off_centre 0).direction
          (Vector2Normalize (Vector2Subtract (centroid (Single.local_neighbours off_centre 0))
            (items off_centre 0).center))
          (0.05 * (items off_centre 0).speed / 3)) = ⟨0, 1⟩
      ∧ Single.cohesion_desired (items off_centre 0).center
          (Single.local_neighbours off_centre 0) = ⟨1, 0⟩
      ∧ (items (Single.cohesion off_centre) 0).direction
          = ⟨(14108655/268435456), (16754027/16777216)⟩ := by
  have hc : centroid (Single.local_neighbours off_centre 0) = (items off_centre 0).center := by
    rw [off_centre_neighbours]
    norm_num [centroid, off_centre, items_cons_zero, items_cons_succ]
  refine ⟨off_centre_neighbours, hc, ?_, ?_, ?_⟩
  · rw [hc]
    have e : Vector2Subtract (items off_centre 0).center (items off_centre 0).center
        = ⟨0, 0⟩ := by
      simp [Vector2Subtract]
    rw [e, normalize_zero]
    exact lerp_zero_keeps _ _ (by norm_num [off_centre, items_cons_zero, Vector2Length])
      (by norm_num [off_centre, items_cons_zero])
  · rw [off_centre_neighbours, off_centre_desired]
  · rw [single_cohesion_items _ 0 (by decide), off_centre_neighbours, if_neg (by decide),
      off_centre_desired]
    simp only [off_centre, items_cons_zero, off_centre_heading]

theorem single_triangle_overlap_right :
    Single.CheckCollisionCircles (⟨0, 0⟩ : Vector2) Single.BOID_RADIUS (⟨2, 0⟩ : Vector2)
      Single.BOID_RADIUS = true := by
  have h1 : binary32 (2 - 0) = 2 :=
    binary32_val_pos _ _ 8388608 (-22) (by norm_num) (by norm_num) (Or.inr (by norm_num)) (by
      norm_num) (by norm_num) (by norm_num) (by norm_num)
  have h2 : binary32 (0 - 0) = 0 :=
    binary32_val_zero _ (by norm_num)
  have h3 : binary32 (2 * 2) = 4 :=
    binary32_val_pos _ _ 8388608 (-21) (by norm_num) (by norm_num) (Or.inr (by norm_num)) (by
      norm_num) (by norm_num) (by norm_num) (by norm_num)
  have h4 : binary32 (0 * 0) = 0 :=
    binary32_val_zero _ (by norm_num)
  have h5 : binary32 (4 + 0) = 4 :=
    binary32_val_pos _ _ 8388608 (-21) (by norm_num) (by norm_num) (Or.inr (by norm_num)) (by
      norm_num) (by norm_num) (by norm_num) (by norm_num)
  have h6 : decide ((4 : ℝ) ≤ 57600) = true :=
    decide_eq_true (by norm_num)
  simp only [single_collision_eq, Single.fadd, Single.fsub, Single.fmul, Single.fdiv, Single.sqrtf,
    h1, h2, h3, h4, h5, h6]

theorem single_triangle_overlap_up :
    Single.CheckCollisionCircles (⟨0, 0⟩ : Vector2) Single.BOID_RADIUS (⟨0, 2⟩ : Vector2)
      Single.BOID_RADIUS = true := by
  have h1 : binary32 (0 - 0) = 0 :=
    binary32_val_zero _ (by norm_num)
  have h2 : binary32 (2 - 0) = 2 :=
    binary32_val_pos _ _ 8388608 (-22) (by norm_num) (by norm_num) (Or.inr (by norm_num)) (by
      norm_num) (by norm_num) (by norm_num) (by norm_num)
  have h3 : binary32 (0 * 0) = 0 :=
    binary32_val_zero _ (by norm_num)
  have h4 : binary32 (2 * 2) = 4 :=
    binary32_val_pos _ _ 8388608 (-21) (by norm_num) (by norm_num) (Or.inr (by norm_num)) (by
      norm_num) (by norm_num) (by norm_num) (by norm_num)
  have h5 : binary32 (0 + 4) = 4 :=
    binary32_val_pos _ _ 8388608 (-21) (by norm_num) (by norm_num) (Or.inr (by norm_num)) (by
      norm_num) (by norm_num) (by norm_num) (by norm_num)
  have h6 : decide ((4 : ℝ) ≤ 57600) = true :=
    decide_eq_true (by norm_num)
  simp only [single_collision_eq, Single.fadd, Single.fsub, Single.fmul, Single.fdiv, Single.sqrtf,
    h1, h2, h3, h4, h5, h6]

theorem single_triangle_mean :
    Single.mean_position [items triangle 1, items triangle 2] = (⟨1, 1⟩ : Vector2) := by
  have h1 : binary32 (0 + 2) = 2 :=
    binary32_val_pos _ _ 8388608 (-22) (by norm_num) (by norm_num) (Or.inr (by norm_num)) (by
      norm_num) (by norm_num) (by norm_num) (by norm_num)
  have h2 : binary32 (0 + 0) = 0 :=
    binary32_val_zero _ (by norm_num)
  have h3 : binary32 (2 + 0) = 2 :=
    binary32_val_pos _ _ 8388608 (-22) (by norm_num) (by norm_num) (Or.inr (by norm_num)) (by
      norm_num) (by norm_num) (by norm_num) (by norm_num)
  have h4 : binary32 (0 + 1 + 1) = 2 :=
    binary32_val_pos _ _ 8388608 (-22) (by norm_num) (by norm_num) (Or.inr (by norm_num)) (by
      norm_num) (by norm_num) (by norm_num) (by norm_num)
  have h5 : binary32 (1 / 2) = (1/2) :=
    binary32_val_pos _ _ 8388608 (-24) (by norm_num) (by norm_num) (Or.inr (by norm_num)) (by
      norm_num) (by norm_num) (by norm_num) (by norm_num)
  have h6 : binary32 (2 * (1/2)) = 1 :=
    binary32_val_pos _ _ 8388608 (-23) (by norm_num) (by norm_num) (Or.inr (by norm_num)) (by
      norm_num) (by norm_num) (by norm_num) (by norm_num)
  simp only [Single.mean_position, triangle, items_cons_zero, items_cons_succ, List.map_cons,
    List.map_nil, List.foldl_cons, List.foldl_nil, List.length_cons, List.length_nil, Nat.cast_add,
    Nat.cast_one, Nat.cast_zero, Single.Vector2Normalize, Single.Vector2Subtract,
    Single.Vector2Scale, Single.Vector2Add, Single.Vector2Lerp, Single.Vector2Distance, Vector2Zero,
    Single.fadd, Single.fsub, Single.fmul, Single.fdiv, Single.sqrtf, if_true, if_false, h1, h2, h3,
    h4, h5, h6]

theorem single_triangle_desired :
    Single.cohesion_desired (items triangle 0).center [items triangle 1, items triangle 2] =
      (⟨(11863283/16777216), (11863283/16777216)⟩ : Vector2) := by
  have h1 : binary32 (0 + 2) = 2 :=
    binary32_val_pos _ _ 8388608 (-22) (by norm_num) (by norm_num) (Or.inr (by norm_num)) (by
      norm_num) (by norm_num) (by norm_num) (by norm_num)
  have h2 : binary32 (0 + 0) = 0 :=
    binary32_val_zero _ (by norm_num)
  have h3 : binary32 (2 + 0) = 2 :=
    binary32_val_pos _ _ 8388608 (-22) (by norm_num) (by norm_num) (Or.inr (by norm_num)) (by
      norm_num) (by norm_num) (by norm_num) (by norm_num)
  have h4 : binary32 (0 + 1 + 1) = 2 :=
    binary32_val_pos _ _ 8388608 (-22) (by norm_num) (by norm_num) (Or.inr (by norm_num)) (by
      norm_num) (by norm_num) (by norm_num) (by norm_num)
  have h5 : binary32 (1 / 2) = (1/2) :=
    binary32_val_pos _ _ 8388608 (-24) (by norm_num) (by norm_num) (Or.inr (by norm_num)) (by
      norm_num) (by norm_num) (by norm_num) (by norm_num)
  have h6 : binary32 (2 * (1/2)) = 1 :=
    binary32_val_pos _ _ 8388608 (-23) (by norm_num) (by norm_num) (Or.inr (by norm_num)) (by
      norm_num) (by norm_num) (by norm_num) (by norm_num)
  have h7 : binary32 (1 - 0) = 1 :=
    binary32_val_pos _ _ 8388608 (-23) (by norm_num) (by norm_num) (Or.inr (by norm_num)) (by
      norm_num) (by norm_num) (by norm_num) (by norm_num)
  have h8 : binary32 (1 * 1) = 1 :=
    binary32_val_pos _ _ 8388608 (-23) (by norm_num) (by norm_num) (Or.inr (by norm_num)) (by
      norm_num) (by norm_num) (by norm_num) (by norm_num)
  have h9 : binary32 (1 + 1) = 2 :=
    binary32_val_pos _ _ 8388608 (-22) (by norm_num) (by norm_num) (Or.inr (by norm_num)) (by
      norm_num) (by norm_num) (by norm_num) (by norm_num)
  have h10 : binary32 (Real.sqrt 2) = (11863283/8388608) :=
    binary32_sqrt_val _ _ 1 2 11863283 (-23) (by norm_num) (by norm_num) (by norm_num) (by norm_num)
      (by norm_num) (by norm_num) (by norm_num) (by norm_num) (by norm_num)
  have h11 : (((11863283/8388608) : ℝ) > 0) = True :=
    eq_true (by norm_num)
  have h12 : binary32 (1 / (11863283/8388608)) = (11863283/16777216) :=
    binary32_val_pos _ _ 11863283 (-24) (by norm_num) (by norm_num) (Or.inr (by norm_num)) (by
      norm_num) (by norm_num) (by norm_num) (by norm_num)
  have h13 : binary32 (1 * (11863283/16777216)) = (11863283/16777216) :=
    binary32_val_pos _ _ 11863283 (-24) (by norm_num) (by norm_num) (Or.inr (by norm_num)) (by
      norm_num) (by norm_num) (by norm_num) (by norm_num)
  simp only [Single.cohesion_desired, single_cohesion_sum_eq, triangle, items_cons_zero,
    items_cons_succ, List.map_cons, List.map_nil, List.foldl_cons, List.foldl_nil, List.length_cons,
    List.length_nil, Nat.cast_add, Nat.cast_one, Nat.cast_zero, Single.Vector2Normalize,
    Single.Vector2Subtract, Single.Vector2Scale, Single.Vector2Add, Single.Vector2Lerp,
    Single.Vector2Distance, Vector2Zero, Single.fadd, Single.fsub, Single.fmul, Single.fdiv,
    Single.sqrtf, if_true, if_false, h1, h2, h3, h4, h5, h6, h7, h8, h9, h10, h11, h12, h13]

theorem single_triangle_neighbours :
    Single.local_neighbours triangle 0 = [items triangle 1, items triangle 2] := by
  rw [single_local_neighbours_eq_filter]
  simp [triangle, List.range_succ, List.filter_cons, items_cons_zero, items_cons_succ,
    single_triangle_overlap_right, single_triangle_overlap_up]

theorem single_triangle_heading :
    Single.Vector2Normalize (Single.Vector2Lerp (⟨1, 0⟩ : Vector2) (⟨(11863283/16777216),
      (11863283/16777216)⟩ : Vector2) (Single.fmul (binary32 0.05) (Single.fdiv 3 3))) =
      (⟨(4191607/4194304), (4812743/134217728)⟩ : Vector2) := by
  have h1 : binary32 (0.05) = (13421773/268435456) :=
    binary32_val_pos _ _ 13421773 (-28) (by norm_num) (by norm_num) (Or.inr (by norm_num)) (by
      norm_num) (by norm_num) (by norm_num) (by norm_num)
  have h2 : binary32 (3 / 3) = 1 :=
    binary32_val_pos _ _ 8388608 (-23) (by norm_num) (by norm_num) (Or.inr (by norm_num)) (by
      norm_num) (by norm_num) (by norm_num) (by norm_num)
  have h3 : binary32 ((13421773/268435456) * 1) = (13421773/268435456) :=
    binary32_val_pos _ _ 13421773 (-28) (by norm_num) (by norm_num) (Or.inr (by norm_num)) (by
      norm_num) (by norm_num) (by norm_num) (by norm_num)
  have h4 : binary32 ((11863283/16777216) - 1) = (-4913933/16777216) :=
    binary32_val_neg _ _ 9827866 (-25) (by norm_num) (by norm_num) (Or.inr (by norm_num)) (by
      norm_num) (by norm_num) (by norm_num) (by norm_num)
  have h5 : binary32 ((13421773/268435456) * (-4913933/16777216)) = (-7862293/536870912) :=
    binary32_val_neg _ _ 15724586 (-30) (by norm_num) (by norm_num) (Or.inr (by norm_num)) (by
      norm_num) (by norm_num) (by norm_num) (by norm_num)
  have h6 : binary32 (1 + (-7862293/536870912)) = (16531519/16777216) :=
    binary32_val_pos _ _ 16531519 (-24) (by norm_num) (by norm_num) (Or.inr (by norm_num)) (by
      norm_num) (by norm_num) (by norm_num) (by norm_num)
  have h7 : binary32 ((11863283/16777216) - 0) = (11863283/16777216) :=
    binary32_val_pos _ _ 11863283 (-24) (by norm_num) (by norm_num) (Or.inr (by norm_num)) (by
      norm_num) (by norm_num) (by norm_num) (by norm_num)
  have h8 : binary32 ((13421773/268435456) * (11863283/16777216)) = (9490627/268435456) :=
    binary32_val_pos _ _ 9490627 (-28) (by norm_num) (by norm_num) (Or.inr (by norm_num)) (by
      norm_num) (by norm_num) (by norm_num) (by norm_num)
  have h9 : binary32 (0 + (9490627/268435456)) = (9490627/268435456) :=
    binary32_val_pos _ _ 9490627 (-28) (by norm_num) (by norm_num) (Or.inr (by norm_num)) (by
      norm_num) (by norm_num) (by norm_num) (by norm_num)
  have h10 : binary32 ((16531519/16777216) * (16531519/16777216)) = (4072355/4194304) :=
    binary32_val_pos _ _ 16289420 (-24) (by norm_num) (by norm_num) (Or.inr (by norm_num)) (by
      norm_num) (by norm_num) (by norm_num) (by norm_num)
  have h11 : binary32 ((9490627/268435456) * (9490627/268435456)) = (10737419/8589934592) :=
    binary32_val_pos _ _ 10737419 (-33) (by norm_num) (by norm_num) (Or.inr (by norm_num)) (by
      norm_num) (by norm_num) (by norm_num) (by norm_num)
  have h12 : binary32 ((4072355/4194304) + (10737419/8589934592)) = (2038799/2097152) :=
    binary32_val_pos _ _ 16310392 (-24) (by norm_num) (by norm_num) (Or.inr (by norm_num)) (by
      norm_num) (by norm_num) (by norm_num) (by norm_num)
  have h13 : binary32 (Real.sqrt (2038799/2097152)) = (16542157/16777216) :=
    binary32_sqrt_val _ _ (1/2) 1 16542157 (-24) (by norm_num) (by norm_num) (by norm_num) (by
      norm_num) (by norm_num) (by norm_num) (by norm_num) (by norm_num) (by norm_num)
  have h14 : (((16542157/16777216) : ℝ) > 0) = True :=
    eq_true (by norm_num)
  have h15 : binary32 (1 / (16542157/16777216)) = (265869/262144) :=
    binary32_val_pos _ _ 8507808 (-23) (by norm_num) (by norm_num) (Or.inr (by norm_num)) (by
      norm_num) (by norm_num) (by norm_num) (by norm_num)
  have h16 : binary32 ((16531519/16777216) * (265869/262144)) = (4191607/4194304) :=
    binary32_val_pos _ _ 16766428 (-24) (by norm_num) (by norm_num) (Or.inr (by norm_num)) (by
      norm_num) (by norm_num) (by norm_num) (by norm_num)
  have h17 : binary32 ((9490627/268435456) * (265869/262144)) = (4812743/134217728) :=
    binary32_val_pos _ _ 9625486 (-28) (by norm_num) (by norm_num) (Or.inr (by norm_num)) (by
      norm_num) (by norm_num) (by norm_num) (by norm_num)
  simp only [Single.Vector2Normalize, Single.Vector2Subtract, Single.Vector2Scale,
    Single.Vector2Add, Single.Vector2Lerp, Single.Vector2Distance, Vector2Zero, Single.fadd,
    Single.fsub, Single.fmul, Single.fdiv, Single.sqrtf, if_true, if_false, h1, h2, h3, h4, h5, h6,
    h7, h8, h9, h10, h11, h12, h13, h14, h15, h16, h17]

/-- C10 at the input of the spec: boids at `(0,0)`, `(2,0)`, `(0,2)`; the first
has the other two as neighbours, the computed mean of their centres is `(1,1)`,
the desired direction is `(0.70710677, 0.70710677)`, the binary32 number next to
`1 / sqrt 2` in both components, and the heading `(1, 0)` becomes
`(0.99935699, 0.03585773)`. -/
theorem single_cohesion_heading_witness :
    (0 < triangle.length ∧ 1 ≤ (Single.local_neighbours triangle 0).length) ∧
      Single.local_neighbours triangle 0 = [items triangle 1, items triangle 2] ∧
      Single.mean_position (Single.local_neighbours triangle 0) = ⟨1, 1⟩ ∧
      Single.cohesion_desired (items triangle 0).center (Single.local_neighbours triangle 0)
        = ⟨11863283 / 16777216, 11863283 / 16777216⟩ ∧
      (items (Single.cohesion triangle) 0).direction
        = ⟨(4191607/4194304), (4812743/134217728)⟩ := by
  have h0 : 0 < triangle.length := by decide
  have h1 : 1 ≤ (Single.local_neighbours triangle 0).length := by
    rw [single_triangle_neighbours]; decide
  have h := single_cohesion_heading triangle 0 h0 h1
  have hd : Single.cohesion_desired (items triangle 0).center
      (Single.local_neighbours triangle 0)
        = ⟨11863283 / 16777216, 11863283 / 16777216⟩ := by
    rw [single_triangle_neighbours]
    exact single_triangle_desired
  refine ⟨⟨h0, h1⟩, single_triangle_neighbours, ?_, hd, ?_⟩
  · rw [single_triangle_neighbours]
    exact single_triangle_mean
  · rw [h.2, ← h.1, hd]
    simp only [triangle, items_cons_zero, single_triangle_heading]

/-! ## C17 in single precision: the repulsion weights -/

theorem binary32_forty : binary32 40 = 40 := by
  have h := binary32_exact 10485760 (-18) (by norm_num) (by norm_num) (by norm_num)
  norm_num at h
  exact h

theorem binary32_one : binary32 1 = 1 := by
  have h := binary32_exact 8388608 (-23) (by norm_num) (by norm_num) (by norm_num)
  norm_num at h
  exact h

/-- A rounded value below `40` is at most the binary32 number just below `40`. -/
theorem binary32_lt_forty (x : ℝ) (h : binary32 x < 40) : binary32 x ≤ 40 - 1 / 262144 := by
  have h32 : binary32 32 = 32 := by
    have h := binary32_exact 8388608 (-18) (by norm_num) (by norm_num) (by norm_num)
    norm_num at h
    exact h
  have h64 : binary32 64 = 64 := by
    have h := binary32_exact 8388608 (-17) (by norm_num) (by norm_num) (by norm_num)
    norm_num at h
    exact h
  rcases lt_or_le x 32 with hx | hx
  · have := binary32_mono x 32 (le_of_lt hx)
    rw [h32] at this
    linarith
  · have hx64 : x < 64 := by
      by_contra hc
      have := binary32_mono 64 x (le_of_not_gt hc)
      rw [h64] at this
      linarith
    have hu : ulp_exponent x = -18 :=
      ulp_exponent_eq x (-18) (by norm_num) (by linarith)
        (Or.inr (by rw [abs_of_pos (by linarith)]; norm_num; exact hx))
        (by rw [abs_of_pos (by linarith)]; norm_num; exact hx64)
    unfold binary32 at h ⊢
    rw [hu] at h ⊢
    have hp : (2 : ℝ) ^ (-18 : ℤ) = 1 / 262144 := by norm_num
    rw [hp] at h ⊢
    have hm : (round_half_even (x / (1 / 262144)) : ℝ) < 10485760 := by linarith
    have hm2 : round_half_even (x / (1 / 262144)) < 10485760 := by exact_mod_cast hm
    have hm3 : round_half_even (x / (1 / 262144)) ≤ 10485759 := by omega
    have hm4 : (round_half_even (x / (1 / 262144)) : ℝ) ≤ 10485759 := by exact_mod_cast hm3
    linarith

/-- The computed weight of a neighbour whose computed distance is strictly
between `0` and `40` is positive and at most `1`. -/
theorem single_weight_bounds (x : ℝ) (h0 : 0 < binary32 x) (h40 : binary32 x < 40) :
    0 < Single.repulsion_weight (binary32 x) ∧ Single.repulsion_weight (binary32 x) ≤ 1 := by
  have hle := binary32_lt_forty x h40
  have hs : binary32 (1 / 262144) = 1 / 262144 := by
    have h := binary32_exact 8388608 (-41) (by norm_num) (by norm_num) (by norm_num)
    norm_num at h
    exact h
  have hq : binary32 (1 / 16777216) = 1 / 16777216 := by
    have h := binary32_exact 8388608 (-47) (by norm_num) (by norm_num) (by norm_num)
    norm_num at h
    exact h
  have h1 : 1 / 262144 ≤ Single.fsub 40 (binary32 x) := by
    have := binary32_mono (1 / 262144) (40 - binary32 x) (by linarith)
    rw [hs] at this
    exact this
  have h2 : Single.fsub 40 (binary32 x) ≤ 40 := by
    have := binary32_mono (40 - binary32 x) 40 (by linarith)
    rw [binary32_forty] at this
    exact this
  unfold Single.repulsion_weight
  constructor
  · have := binary32_mono (1 / 16777216) (Single.fsub 40 (binary32 x) / 40) (by linarith)
    rw [hq] at this
    exact lt_of_lt_of_le (by norm_num) this
  · have := binary32_mono (Single.fsub 40 (binary32 x) / 40) 1 (by linarith)
    rw [binary32_one] at this
    exact this

/-- The computed weight does not increase with the distance. -/
theorem single_weight_antitone (d1 d2 : ℝ) (h : d1 ≤ d2) :
    Single.repulsion_weight d2 ≤ Single.repulsion_weight d1 := by
  unfold Single.repulsion_weight Single.fdiv Single.fsub
  apply binary32_mono
  apply div_le_div_of_nonneg_right _ (by norm_num)
  apply binary32_mono
  linarith

theorem single_separation_accum_repulsion (c : Vector2) (n : Boid) (acc : Boids × Vector2)
    (h : 0 < Single.Vector2Distance c n.center ∧ Single.Vector2Distance c n.center < 40) :
    Single.separation_accum c n acc
      = (acc.1 ++ [n], Single.Vector2Add acc.2 (Single.repulsion c n)) :=
  single_separation_accum_close c n acc h

theorem single_separation_foldl_eq (c : Vector2) (lbs : Boids) :
    ∀ acc : Boids × Vector2,
      lbs.foldl (fun acc n => Single.separation_accum c n acc) acc
        = (acc.1 ++ Single.close_neighbours c lbs,
           ((Single.close_neighbours c lbs).map (Single.repulsion c)).foldl
             Single.Vector2Add acc.2) := by
  induction lbs with
  | nil => intro acc; simp [Single.close_neighbours]
  | cons n ns ih =>
    intro acc
    rw [List.foldl_cons]
    by_cases h : 0 < Single.Vector2Distance c n.center ∧ Single.Vector2Distance c n.center < 40
    · rw [single_separation_accum_repulsion c n acc h, ih]
      have hf : Single.close_neighbours c (n :: ns) = n :: Single.close_neighbours c ns := by
        simp only [Single.close_neighbours, List.filter_cons, decide_eq_true h, if_true]
      rw [hf]
      simp
    · rw [single_separation_accum_far c n acc h, ih]
      have hf : Single.close_neighbours c (n :: ns) = Single.close_neighbours c ns := by
        simp only [Single.close_neighbours, List.filter_cons, decide_eq_false h]
        rfl
      rw [hf]

/-- The inner loop of `separation` collects the close neighbours and sums their
repulsions from left to right. -/
theorem single_separation_close_eq (c : Vector2) (lbs : Boids) :
    Single.separation_close c lbs
      = (Single.close_neighbours c lbs,
         ((Single.close_neighbours c lbs).map (Single.repulsion c)).foldl
           Single.Vector2Add Vector2Zero) := by
  rw [single_separation_close_eq_foldl, single_separation_foldl_eq]
  simp

/-- C17, as the code has it: for a boid with at least two neighbours, a
neighbour whose computed distance `dist` satisfies `0 < dist < 40` adds to the
repulsion the computed normalisation of the difference of the centres scaled by
the computed weight `w = (40 - dist) / 40`, where `0 < w ≤ 1` and `w` does not
increase as `dist` grows; when at least one neighbour is that close, the desired
direction is the computed normalisation of the computed average of these
contributions and the heading after the pass is the computed
`normalize(lerp(heading, desired, 0.1f * (speed / 3)))`. -/
theorem single_separation_weights (bs : Boids) (i : Nat) (hi : i < bs.length)
    (h2 : 2 ≤ (Single.local_neighbours bs i).length)
    (hc : Single.close_neighbours (items bs i).center (Single.local_neighbours bs i) ≠ []) :
    (∀ n ∈ Single.local_neighbours bs i,
        0 < Single.Vector2Distance (items bs i).center n.center →
        Single.Vector2Distance (items bs i).center n.center < 40 →
        (∀ acc : Boids × Vector2,
            Single.separation_accum (items bs i).center n acc
              = (acc.1 ++ [n], Single.Vector2Add acc.2
                  (Single.Vector2Scale
                    (Single.Vector2Normalize (Single.Vector2Subtract (items bs i).center n.center))
                    (Single.repulsion_weight
                      (Single.Vector2Distance (items bs i).center n.center)))))
          ∧ 0 < Single.repulsion_weight (Single.Vector2Distance (items bs i).center n.center)
          ∧ Single.repulsion_weight (Single.Vector2Distance (items bs i).center n.center) ≤ 1)
      ∧ (∀ d1 d2 : ℝ, d1 ≤ d2 → Single.repulsion_weight d2 ≤ Single.repulsion_weight d1)
      ∧ Single.fdiv Single.BOID_RADIUS 3 = 40
      ∧ (items (Single.separation bs) i).direction
        = Single.Vector2Normalize (Single.Vector2Lerp (items bs i).direction
            (Single.Vector2Normalize
              (Single.repulsion_average (items bs i).center (Single.local_neighbours bs i)))
            (Single.fmul (binary32 0.1) (Single.fdiv (items bs i).speed 3))) := by
  refine ⟨?_, single_weight_antitone, single_threshold, ?_⟩
  · intro n _ h0 h40
    refine ⟨fun acc => single_separation_accum_repulsion _ n acc ⟨h0, h40⟩, ?_⟩
    exact single_weight_bounds _ h0 h40
  · have hlen : ¬ (Single.local_neighbours bs i).length < 2 := by omega
    have hpos : (Single.close_neighbours (items bs i).center
        (Single.local_neighbours bs i)).length > 0 := List.length_pos.mpr hc
    rw [single_separation_items bs i hi, if_neg hlen, single_separation_close_eq]
    simp only [if_pos hpos, Single.repulsion_average]

theorem single_crowded_overlap_right :
    Single.CheckCollisionCircles (⟨0, 0⟩ : Vector2) Single.BOID_RADIUS (⟨10, 0⟩ : Vector2)
      Single.BOID_RADIUS = true := by
  have h1 : binary32 (10 - 0) = 10 :=
    binary32_val_pos _ _ 10485760 (-20) (by norm_num) (by norm_num) (Or.inr (by norm_num)) (by
      norm_num) (by norm_num) (by norm_num) (by norm_num)
  have h2 : binary32 (0 - 0) = 0 :=
    binary32_val_zero _ (by norm_num)
  have h3 : binary32 (10 * 10) = 100 :=
    binary32_val_pos _ _ 13107200 (-17) (by norm_num) (by norm_num) (Or.inr (by norm_num)) (by
      norm_num) (by norm_num) (by norm_num) (by norm_num)
  have h4 : binary32 (0 * 0) = 0 :=
    binary32_val_zero _ (by norm_num)
  have h5 : binary32 (100 + 0) = 100 :=
    binary32_val_pos _ _ 13107200 (-17) (by norm_num) (by norm_num) (Or.inr (by norm_num)) (by
      norm_num) (by norm_num) (by norm_num) (by norm_num)
  have h6 : decide ((100 : ℝ) ≤ 57600) = true :=
    decide_eq_true (by norm_num)
  simp only [single_collision_eq, Single.fadd, Single.fsub, Single.fmul, Single.fdiv, Single.sqrtf,
    h1, h2, h3, h4, h5, h6]

theorem single_crowded_overlap_up :
    Single.CheckCollisionCircles (⟨0, 0⟩ : Vector2) Single.BOID_RADIUS (⟨0, 20⟩ : Vector2)
      Single.BOID_RADIUS = true := by
  have h1 : binary32 (0 - 0) = 0 :=
    binary32_val_zero _ (by norm_num)
  have h2 : binary32 (20 - 0) = 20 :=
    binary32_val_pos _ _ 10485760 (-19) (by norm_num) (by norm_num) (Or.inr (by norm_num)) (by
      norm_num) (by norm_num) (by norm_num) (by norm_num)
  have h3 : binary32 (0 * 0) = 0 :=
    binary32_val_zero _ (by norm_num)
  have h4 : binary32 (20 * 20) = 400 :=
    binary32_val_pos _ _ 13107200 (-15) (by norm_num) (by norm_num) (Or.inr (by norm_num)) (by
      norm_num) (by norm_num) (by norm_num) (by norm_num)
  have h5 : binary32 (0 + 400) = 400 :=
    binary32_val_pos _ _ 13107200 (-15) (by norm_num) (by norm_num) (Or.inr (by norm_num)) (by
      norm_num) (by norm_num) (by norm_num) (by norm_num)
  have h6 : decide ((400 : ℝ) ≤ 57600) = true :=
    decide_eq_true (by norm_num)
  simp only [single_collision_eq, Single.fadd, Single.fsub, Single.fmul, Single.fdiv, Single.sqrtf,
    h1, h2, h3, h4, h5, h6]

theorem single_crowded_distance_right :
    Single.Vector2Distance (⟨0, 0⟩ : Vector2) (⟨10, 0⟩ : Vector2) = 10 := by
  have h1 : binary32 (0 - 10) = (-10) :=
    binary32_val_neg _ _ 10485760 (-20) (by norm_num) (by norm_num) (Or.inr (by norm_num)) (by
      norm_num) (by norm_num) (by norm_num) (by norm_num)
  have h2 : binary32 (0 - 0) = 0 :=
    binary32_val_zero _ (by norm_num)
  have h3 : binary32 ((-10) * (-10)) = 100 :=
    binary32_val_pos _ _ 13107200 (-17) (by norm_num) (by norm_num) (Or.inr (by norm_num)) (by
      norm_num) (by norm_num) (by norm_num) (by norm_num)
  have h4 : binary32 (0 * 0) = 0 :=
    binary32_val_zero _ (by norm_num)
  have h5 : binary32 (100 + 0) = 100 :=
    binary32_val_pos _ _ 13107200 (-17) (by norm_num) (by norm_num) (Or.inr (by norm_num)) (by
      norm_num) (by norm_num) (by norm_num) (by norm_num)
  have h6 : binary32 (Real.sqrt 100) = 10 :=
    binary32_sqrt_val _ _ 8 16 10485760 (-20) (by norm_num) (by norm_num) (by norm_num) (by
      norm_num) (by norm_num) (by norm_num) (by norm_num) (by norm_num) (by norm_num)
  simp only [Single.Vector2Distance, Single.fadd, Single.fsub, Single.fmul, Single.fdiv,
    Single.sqrtf, h1, h2, h3, h4, h5, h6]

theorem single_crowded_distance_up :
    Single.Vector2Distance (⟨0, 0⟩ : Vector2) (⟨0, 20⟩ : Vector2) = 20 := by
  have h1 : binary32 (0 - 0) = 0 :=
    binary32_val_zero _ (by norm_num)
  have h2 : binary32 (0 - 20) = (-20) :=
    binary32_val_neg _ _ 10485760 (-19) (by norm_num) (by norm_num) (Or.inr (by norm_num)) (by
      norm_num) (by norm_num) (by norm_num) (by norm_num)
  have h3 : binary32 (0 * 0) = 0 :=
    binary32_val_zero _ (by norm_num)
  have h4 : binary32 ((-20) * (-20)) = 400 :=
    binary32_val_pos _ _ 13107200 (-15) (by norm_num) (by norm_num) (Or.inr (by norm_num)) (by
      norm_num) (by norm_num) (by norm_num) (by norm_num)
  have h5 : binary32 (0 + 400) = 400 :=
    binary32_val_pos _ _ 13107200 (-15) (by norm_num) (by norm_num) (Or.inr (by norm_num)) (by
      norm_num) (by norm_num) (by norm_num) (by norm_num)
  have h6 : binary32 (Real.sqrt 400) = 20 :=
    binary32_sqrt_val _ _ 16 32 10485760 (-19) (by norm_num) (by norm_num) (by norm_num) (by
      norm_num) (by norm_num) (by norm_num) (by norm_num) (by norm_num) (by norm_num)
  simp only [Single.Vector2Distance, Single.fadd, Single.fsub, Single.fmul, Single.fdiv,
    Single.sqrtf, h1, h2, h3, h4, h5, h6]

theorem single_crowded_heading :
    Single.Vector2Normalize (Single.Vector2Lerp (⟨1, 0⟩ : Vector2)
      (Single.Vector2Normalize (Single.Vector2Scale
        (([items crowded 1, items crowded 2].map (Single.repulsion (⟨0, 0⟩ : Vector2))).foldl Single.Vector2Add Vector2Zero)
        (Single.fdiv 1 (binary32 (([items crowded 1, items crowded 2] : Boids).length : ℝ)))))
      (Single.fmul (binary32 0.1) (Single.fdiv 3 3))) = (⟨(16738661/16777216), (-9094021/134217728)⟩ : Vector2) := by
  have h1 : binary32 (0 - 10) = (-10) :=
    binary32_val_neg _ _ 10485760 (-20) (by norm_num) (by norm_num) (Or.inr (by norm_num)) (by
      norm_num) (by norm_num) (by norm_num) (by norm_num)
  have h2 : binary32 (0 - 0) = 0 :=
    binary32_val_zero _ (by norm_num)
  have h3 : binary32 ((-10) * (-10)) = 100 :=
    binary32_val_pos _ _ 13107200 (-17) (by norm_num) (by norm_num) (Or.inr (by norm_num)) (by
      norm_num) (by norm_num) (by norm_num) (by norm_num)
  have h4 : binary32 (0 * 0) = 0 :=
    binary32_val_zero _ (by norm_num)
  have h5 : binary32 (100 + 0) = 100 :=
    binary32_val_pos _ _ 13107200 (-17) (by norm_num) (by norm_num) (Or.inr (by norm_num)) (by
      norm_num) (by norm_num) (by norm_num) (by norm_num)
  have h6 : binary32 (Real.sqrt 100) = 10 :=
    binary32_sqrt_val _ _ 8 16 10485760 (-20) (by norm_num) (by norm_num) (by norm_num) (by
      norm_num) (by norm_num) (by norm_num) (by norm_num) (by norm_num) (by norm_num)
  have h7 : ((10 : ℝ) > 0) = True :=
    eq_true (by norm_num)
  have h8 : binary32 (1 / 10) = (13421773/134217728) :=
    binary32_val_pos _ _ 13421773 (-27) (by norm_num) (by norm_num) (Or.inr (by norm_num)) (by
      norm_num) (by norm_num) (by norm_num) (by norm_num)
  have h9 : binary32 ((-10) * (13421773/134217728)) = (-1) :=
    binary32_val_neg _ _ 8388608 (-23) (by norm_num) (by norm_num) (Or.inr (by norm_num)) (by
      norm_num) (by norm_num) (by norm_num) (by norm_num)
  have h10 : binary32 (0 * (13421773/134217728)) = 0 :=
    binary32_val_zero _ (by norm_num)
  have h11 : binary32 (40 - 10) = 30 :=
    binary32_val_pos _ _ 15728640 (-19) (by norm_num) (by norm_num) (Or.inr (by norm_num)) (by
      norm_num) (by norm_num) (by norm_num) (by norm_num)
  have h12 : binary32 (30 / 40) = (3/4) :=
    binary32_val_pos _ _ 12582912 (-24) (by norm_num) (by norm_num) (Or.inr (by norm_num)) (by
      norm_num) (by norm_num) (by norm_num) (by norm_num)
  have h13 : binary32 ((-1) * (3/4)) = (-3/4) :=
    binary32_val_neg _ _ 12582912 (-24) (by norm_num) (by norm_num) (Or.inr (by norm_num)) (by
      norm_num) (by norm_num) (by norm_num) (by norm_num)
  have h14 : binary32 (0 * (3/4)) = 0 :=
    binary32_val_zero _ (by norm_num)
  have h15 : binary32 (0 + (-3/4)) = (-3/4) :=
    binary32_val_neg _ _ 12582912 (-24) (by norm_num) (by norm_num) (Or.inr (by norm_num)) (by
      norm_num) (by norm_num) (by norm_num) (by norm_num)
  have h16 : binary32 (0 + 0) = 0 :=
    binary32_val_zero _ (by norm_num)
  have h17 : binary32 (0 - 20) = (-20) :=
    binary32_val_neg _ _ 10485760 (-19) (by norm_num) (by norm_num) (Or.inr (by norm_num)) (by
      norm_num) (by norm_num) (by norm_num) (by norm_num)
  have h18 : binary32 ((-20) * (-20)) = 400 :=
    binary32_val_pos _ _ 13107200 (-15) (by norm_num) (by norm_num) (Or.inr (by norm_num)) (by
      norm_num) (by norm_num) (by norm_num) (by norm_num)
  have h19 : binary32 (0 + 400) = 400 :=
    binary32_val_pos _ _ 13107200 (-15) (by norm_num) (by norm_num) (Or.inr (by norm_num)) (by
      norm_num) (by norm_num) (by norm_num) (by norm_num)
  have h20 : binary32 (Real.sqrt 400) = 20 :=
    binary32_sqrt_val _ _ 16 32 10485760 (-19) (by norm_num) (by norm_num) (by norm_num) (by
      norm_num) (by norm_num) (by norm_num) (by norm_num) (by norm_num) (by norm_num)
  have h21 : ((20 : ℝ) > 0) = True :=
    eq_true (by norm_num)
  have h22 : binary32 (1 / 20) = (13421773/268435456) :=
    binary32_val_pos _ _ 13421773 (-28) (by norm_num) (by norm_num) (Or.inr (by norm_num)) (by
      norm_num) (by norm_num) (by norm_num) (by norm_num)
  have h23 : binary32 (0 * (13421773/268435456)) = 0 :=
    binary32_val_zero _ (by norm_num)
  have h24 : binary32 ((-20) * (13421773/268435456)) = (-1) :=
    binary32_val_neg _ _ 8388608 (-23) (by norm_num) (by norm_num) (Or.inr (by norm_num)) (by
      norm_num) (by norm_num) (by norm_num) (by norm_num)
  have h25 : binary32 (40 - 20) = 20 :=
    binary32_val_pos _ _ 10485760 (-19) (by norm_num) (by norm_num) (Or.inr (by norm_num)) (by
      norm_num) (by norm_num) (by norm_num) (by norm_num)
  have h26 : binary32 (20 / 40) = (1/2) :=
    binary32_val_pos _ _ 8388608 (-24) (by norm_num) (by norm_num) (Or.inr (by norm_num)) (by
      norm_num) (by norm_num) (by norm_num) (by norm_num)
  have h27 : binary32 (0 * (1/2)) = 0 :=
    binary32_val_zero _ (by norm_num)
  have h28 : binary32 ((-1) * (1/2)) = (-1/2) :=
    binary32_val_neg _ _ 8388608 (-24) (by norm_num) (by norm_num) (Or.inr (by norm_num)) (by
      norm_num) (by norm_num) (by norm_num) (by norm_num)
  have h29 : binary32 ((-3/4) + 0) = (-3/4) :=
    binary32_val_neg _ _ 12582912 (-24) (by norm_num) (by norm_num) (Or.inr (by norm_num)) (by
      norm_num) (by norm_num) (by norm_num) (by norm_num)
  have h30 : binary32 (0 + (-1/2)) = (-1/2) :=
    binary32_val_neg _ _ 8388608 (-24) (by norm_num) (by norm_num) (Or.inr (by norm_num)) (by
      norm_num) (by norm_num) (by norm_num) (by norm_num)
  have h31 : binary32 (0 + 1 + 1) = 2 :=
    binary32_val_pos _ _ 8388608 (-22) (by norm_num) (by norm_num) (Or.inr (by norm_num)) (by
      norm_num) (by norm_num) (by norm_num) (by norm_num)
  have h32 : binary32 (1 / 2) = (1/2) :=
    binary32_val_pos _ _ 8388608 (-24) (by norm_num) (by norm_num) (Or.inr (by norm_num)) (by
      norm_num) (by norm_num) (by norm_num) (by norm_num)
  have h33 : binary32 ((-3/4) * (1/2)) = (-3/8) :=
    binary32_val_neg _ _ 12582912 (-25) (by norm_num) (by norm_num) (Or.inr (by norm_num)) (by
      norm_num) (by norm_num) (by norm_num) (by norm_num)
  have h34 : binary32 ((-1/2) * (1/2)) = (-1/4) :=
    binary32_val_neg _ _ 8388608 (-25) (by norm_num) (by norm_num) (Or.inr (by norm_num)) (by
      norm_num) (by norm_num) (by norm_num) (by norm_num)
  have h35 : binary32 ((-3/8) * (-3/8)) = (9/64) :=
    binary32_val_pos _ _ 9437184 (-26) (by norm_num) (by norm_num) (Or.inr (by norm_num)) (by
      norm_num) (by norm_num) (by norm_num) (by norm_num)
  have h36 : binary32 ((-1/4) * (-1/4)) = (1/16) :=
    binary32_val_pos _ _ 8388608 (-27) (by norm_num) (by norm_num) (Or.inr (by norm_num)) (by
      norm_num) (by norm_num) (by norm_num) (by norm_num)
  have h37 : binary32 ((9/64) + (1/16)) = (13/64) :=
    binary32_val_pos _ _ 13631488 (-26) (by norm_num) (by norm_num) (Or.inr (by norm_num)) (by
      norm_num) (by norm_num) (by norm_num) (by norm_num)
  have h38 : binary32 (Real.sqrt (13/64)) = (7561389/16777216) :=
    binary32_sqrt_val _ _ (1/4) (1/2) 15122778 (-25) (by norm_num) (by norm_num) (by norm_num) (by
      norm_num) (by norm_num) (by norm_num) (by norm_num) (by norm_num) (by norm_num)
  have h39 : (((7561389/16777216) : ℝ) > 0) = True :=
    eq_true (by norm_num)
  have h40 : binary32 (1 / (7561389/16777216)) = (9306325/4194304) :=
    binary32_val_pos _ _ 9306325 (-22) (by norm_num) (by norm_num) (Or.inr (by norm_num)) (by
      norm_num) (by norm_num) (by norm_num) (by norm_num)
  have h41 : binary32 ((-3/8) * (9306325/4194304)) = (-218117/262144) :=
    binary32_val_tie_neg _ _ 13959488 (-24) (by norm_num) (by norm_num) (Or.inr (by norm_num)) (by
      norm_num) (by norm_num) (by decide) (Or.inl (by norm_num))
  have h42 : binary32 ((-1/4) * (9306325/4194304)) = (-9306325/16777216) :=
    binary32_val_neg _ _ 9306325 (-24) (by norm_num) (by norm_num) (Or.inr (by norm_num)) (by
      norm_num) (by norm_num) (by norm_num) (by norm_num)
  have h43 : binary32 (0.1) = (13421773/134217728) :=
    binary32_val_pos _ _ 13421773 (-27) (by norm_num) (by norm_num) (Or.inr (by norm_num)) (by
      norm_num) (by norm_num) (by norm_num) (by norm_num)
  have h44 : binary32 (3 / 3) = 1 :=
    binary32_val_pos _ _ 8388608 (-23) (by norm_num) (by norm_num) (Or.inr (by norm_num)) (by
      norm_num) (by norm_num) (by norm_num) (by norm_num)
  have h45 : binary32 ((13421773/134217728) * 1) = (13421773/134217728) :=
    binary32_val_pos _ _ 13421773 (-27) (by norm_num) (by norm_num) (Or.inr (by norm_num)) (by
      norm_num) (by norm_num) (by norm_num) (by norm_num)
  have h46 : binary32 ((-218117/262144) - 1) = (-480261/262144) :=
    binary32_val_neg _ _ 15368352 (-23) (by norm_num) (by norm_num) (Or.inr (by norm_num)) (by
      norm_num) (by norm_num) (by norm_num) (by norm_num)
  have h47 : binary32 ((13421773/134217728) * (-480261/262144)) = (-6147341/33554432) :=
    binary32_val_neg _ _ 12294682 (-26) (by norm_num) (by norm_num) (Or.inr (by norm_num)) (by
      norm_num) (by norm_num) (by norm_num) (by norm_num)
  have h48 : binary32 (1 + (-6147341/33554432)) = (6851773/8388608) :=
    binary32_val_tie_pos _ _ 13703546 (-24) (by norm_num) (by norm_num) (Or.inr (by norm_num)) (by
      norm_num) (by norm_num) (by decide) (Or.inr (by norm_num))
  have h49 : binary32 ((-9306325/16777216) - 0) = (-9306325/16777216) :=
    binary32_val_neg _ _ 9306325 (-24) (by norm_num) (by norm_num) (Or.inr (by norm_num)) (by
      norm_num) (by norm_num) (by norm_num) (by norm_num)
  have h50 : binary32 ((13421773/134217728) * (-9306325/16777216)) = (-1861265/33554432) :=
    binary32_val_neg _ _ 14890120 (-28) (by norm_num) (by norm_num) (Or.inr (by norm_num)) (by
      norm_num) (by norm_num) (by norm_num) (by norm_num)
  have h51 : binary32 (0 + (-1861265/33554432)) = (-1861265/33554432) :=
    binary32_val_neg _ _ 14890120 (-28) (by norm_num) (by norm_num) (Or.inr (by norm_num)) (by
      norm_num) (by norm_num) (by norm_num) (by norm_num)
  have h52 : binary32 ((6851773/8388608) * (6851773/8388608)) = (2798247/4194304) :=
    binary32_val_pos _ _ 11192988 (-24) (by norm_num) (by norm_num) (Or.inr (by norm_num)) (by
      norm_num) (by norm_num) (by norm_num) (by norm_num)
  have h53 : binary32 ((-1861265/33554432) * (-1861265/33554432)) = (3303821/1073741824) :=
    binary32_val_pos _ _ 13215284 (-32) (by norm_num) (by norm_num) (Or.inr (by norm_num)) (by
      norm_num) (by norm_num) (by norm_num) (by norm_num)
  have h54 : binary32 ((2798247/4194304) + (3303821/1073741824)) = (5622305/8388608) :=
    binary32_val_pos _ _ 11244610 (-24) (by norm_num) (by norm_num) (Or.inr (by norm_num)) (by
      norm_num) (by norm_num) (by norm_num) (by norm_num)
  have h55 : binary32 (Real.sqrt (5622305/8388608)) = (6867555/8388608) :=
    binary32_sqrt_val _ _ (1/2) 1 13735110 (-24) (by norm_num) (by norm_num) (by norm_num) (by
      norm_num) (by norm_num) (by norm_num) (by norm_num) (by norm_num) (by norm_num)
  have h56 : (((6867555/8388608) : ℝ) > 0) = True :=
    eq_true (by norm_num)
  have h57 : binary32 (1 / (6867555/8388608)) = (5123275/4194304) :=
    binary32_val_pos _ _ 10246550 (-23) (by norm_num) (by norm_num) (Or.inr (by norm_num)) (by
      norm_num) (by norm_num) (by norm_num) (by norm_num)
  have h58 : binary32 ((6851773/8388608) * (5123275/4194304)) = (16738661/16777216) :=
    binary32_val_pos _ _ 16738661 (-24) (by norm_num) (by norm_num) (Or.inr (by norm_num)) (by
      norm_num) (by norm_num) (by norm_num) (by norm_num)
  have h59 : binary32 ((-1861265/33554432) * (5123275/4194304)) = (-9094021/134217728) :=
    binary32_val_neg _ _ 9094021 (-27) (by norm_num) (by norm_num) (Or.inr (by norm_num)) (by
      norm_num) (by norm_num) (by norm_num) (by norm_num)
  simp only [crowded, items_cons_zero, items_cons_succ, List.map_cons, List.map_nil,
    List.foldl_cons, List.foldl_nil, List.length_cons, List.length_nil, Nat.cast_add, Nat.cast_one,
    Nat.cast_zero, Single.Vector2Normalize, Single.Vector2Subtract, Single.Vector2Scale,
    Single.Vector2Add, Single.Vector2Lerp, Single.Vector2Distance, Vector2Zero, Single.repulsion,
    Single.repulsion_weight, Single.fadd, Single.fsub, Single.fmul, Single.fdiv, Single.sqrtf,
    if_true, if_false, h1, h2, h3, h4, h5, h6, h7, h8, h9, h10, h11, h12, h13, h14, h15, h16, h17,
    h18, h19, h20, h21, h22, h23, h24, h25, h26, h27, h28, h29, h30, h31, h32, h33, h34, h35, h36,
    h37, h38, h39, h40, h41, h42, h43, h44, h45, h46, h47, h48, h49, h50, h51, h52, h53, h54, h55,
    h56, h57, h58, h59]

theorem single_crowded_weight_ten :
    Single.repulsion_weight 10 = (3/4) := by
  have h1 : binary32 (40 - 10) = 30 :=
    binary32_val_pos _ _ 15728640 (-19) (by norm_num) (by norm_num) (Or.inr (by norm_num)) (by
      norm_num) (by norm_num) (by norm_num) (by norm_num)
  have h2 : binary32 (30 / 40) = (3/4) :=
    binary32_val_pos _ _ 12582912 (-24) (by norm_num) (by norm_num) (Or.inr (by norm_num)) (by
      norm_num) (by norm_num) (by norm_num) (by norm_num)
  simp only [Single.repulsion_weight, Single.fadd, Single.fsub, Single.fmul, Single.fdiv,
    Single.sqrtf, h1, h2]

theorem single_crowded_weight_twenty :
    Single.repulsion_weight 20 = (1/2) := by
  have h1 : binary32 (40 - 20) = 20 :=
    binary32_val_pos _ _ 10485760 (-19) (by norm_num) (by norm_num) (Or.inr (by norm_num)) (by
      norm_num) (by norm_num) (by norm_num) (by norm_num)
  have h2 : binary32 (20 / 40) = (1/2) :=
    binary32_val_pos _ _ 8388608 (-24) (by norm_num) (by norm_num) (Or.inr (by norm_num)) (by
      norm_num) (by norm_num) (by norm_num) (by norm_num)
  simp only [Single.repulsion_weight, Single.fadd, Single.fsub, Single.fmul, Single.fdiv,
    Single.sqrtf, h1, h2]

theorem single_crowded_neighbours :
    Single.local_neighbours crowded 0 = [items crowded 1, items crowded 2] := by
  rw [single_local_neighbours_eq_filter]
  simp [crowded, List.range_succ, List.filter_cons, items_cons_zero, items_cons_succ,
    single_crowded_overlap_right, single_crowded_overlap_up]

theorem single_crowded_close :
    Single.close_neighbours (items crowded 0).center (Single.local_neighbours crowded 0)
      = [items crowded 1, items crowded 2] := by
  rw [single_crowded_neighbours]
  simp only [Single.close_neighbours, List.filter_cons, List.filter_nil, crowded,
    items_cons_zero, items_cons_succ, single_crowded_distance_right,
    single_crowded_distance_up]
  norm_num

/-- C17 at a concrete input: in `crowded` the first boid has two neighbours, at
computed distances 10 and 20, both closer than 40; the pass turns its heading
`(1, 0)` to `(0.9977019, -0.0677557)`. -/
theorem single_separation_weights_witness :
    (0 < crowded.length ∧ 2 ≤ (Single.local_neighbours crowded 0).length
        ∧ Single.close_neighbours (items crowded 0).center
            (Single.local_neighbours crowded 0) ≠ []) ∧
      Single.Vector2Distance (items crowded 0).center (items crowded 1).center = 10 ∧
      Single.Vector2Distance (items crowded 0).center (items crowded 2).center = 20 ∧
      Single.repulsion_weight 10 = 3 / 4 ∧ Single.repulsion_weight 20 = 1 / 2 ∧
      (items (Single.separation crowded) 0).direction
        = ⟨(16738661/16777216), (-9094021/134217728)⟩ := by
  have h0 : 0 < crowded.length := by decide
  have h2 : 2 ≤ (Single.local_neighbours crowded 0).length := by
    rw [single_crowded_neighbours]; decide
  have hc : Single.close_neighbours (items crowded 0).center
      (Single.local_neighbours crowded 0) ≠ [] := by
    rw [single_crowded_close]; simp
  have h := (single_separation_weights crowded 0 h0 h2 hc).2.2.2
  refine ⟨⟨h0, h2, hc⟩, single_crowded_distance_right, single_crowded_distance_up,
    single_crowded_weight_ten, single_crowded_weight_twenty, ?_⟩
  rw [h]
  unfold Single.repulsion_average
  rw [single_crowded_close]
  exact single_crowded_heading

theorem under_threshold_overlap_first :
    Single.CheckCollisionCircles (⟨0, 0⟩ : Vector2) Single.BOID_RADIUS (⟨(1453/128), (9819/256)⟩ :
      Vector2) Single.BOID_RADIUS = true := by
  have h1 : binary32 ((1453/128) - 0) = (1453/128) :=
    binary32_val_pos _ _ 11902976 (-20) (by norm_num) (by norm_num) (Or.inr (by norm_num)) (by
      norm_num) (by norm_num) (by norm_num) (by norm_num)
  have h2 : binary32 ((9819/256) - 0) = (9819/256) :=
    binary32_val_pos _ _ 10054656 (-18) (by norm_num) (by norm_num) (Or.inr (by norm_num)) (by
      norm_num) (by norm_num) (by norm_num) (by norm_num)
  have h3 : binary32 ((1453/128) * (1453/128)) = (2111209/16384) :=
    binary32_val_pos _ _ 8444836 (-16) (by norm_num) (by norm_num) (Or.inr (by norm_num)) (by
      norm_num) (by norm_num) (by norm_num) (by norm_num)
  have h4 : binary32 ((9819/256) * (9819/256)) = (12051595/8192) :=
    binary32_val_pos _ _ 12051595 (-13) (by norm_num) (by norm_num) (Or.inr (by norm_num)) (by
      norm_num) (by norm_num) (by norm_num) (by norm_num)
  have h5 : binary32 ((2111209/16384) + (12051595/8192)) = 1600 :=
    binary32_val_tie_pos _ _ 13107200 (-13) (by norm_num) (by norm_num) (Or.inr (by norm_num)) (by
      norm_num) (by norm_num) (by decide) (Or.inr (by norm_num))
  have h6 : decide ((1600 : ℝ) ≤ 57600) = true :=
    decide_eq_true (by norm_num)
  simp only [single_collision_eq, Single.fadd, Single.fsub, Single.fmul, Single.fdiv, Single.sqrtf,
    h1, h2, h3, h4, h5, h6]

theorem under_threshold_overlap_second :
    Single.CheckCollisionCircles (⟨0, 0⟩ : Vector2) Single.BOID_RADIUS (⟨0, 200⟩ : Vector2)
      Single.BOID_RADIUS = true := by
  have h1 : binary32 (0 - 0) = 0 :=
    binary32_val_zero _ (by norm_num)
  have h2 : binary32 (200 - 0) = 200 :=
    binary32_val_pos _ _ 13107200 (-16) (by norm_num) (by norm_num) (Or.inr (by norm_num)) (by
      norm_num) (by norm_num) (by norm_num) (by norm_num)
  have h3 : binary32 (0 * 0) = 0 :=
    binary32_val_zero _ (by norm_num)
  have h4 : binary32 (200 * 200) = 40000 :=
    binary32_val_pos _ _ 10240000 (-8) (by norm_num) (by norm_num) (Or.inr (by norm_num)) (by
      norm_num) (by norm_num) (by norm_num) (by norm_num)
  have h5 : binary32 (0 + 40000) = 40000 :=
    binary32_val_pos _ _ 10240000 (-8) (by norm_num) (by norm_num) (Or.inr (by norm_num)) (by
      norm_num) (by norm_num) (by norm_num) (by norm_num)
  have h6 : decide ((40000 : ℝ) ≤ 57600) = true :=
    decide_eq_true (by norm_num)
  simp only [single_collision_eq, Single.fadd, Single.fsub, Single.fmul, Single.fdiv, Single.sqrtf,
    h1, h2, h3, h4, h5, h6]

theorem under_threshold_distance_first :
    Single.Vector2Distance (⟨0, 0⟩ : Vector2) (⟨(1453/128), (9819/256)⟩ : Vector2) = 40 := by
  have h1 : binary32 (0 - (1453/128)) = (-1453/128) :=
    binary32_val_neg _ _ 11902976 (-20) (by norm_num) (by norm_num) (Or.inr (by norm_num)) (by
      norm_num) (by norm_num) (by norm_num) (by norm_num)
  have h2 : binary32 (0 - (9819/256)) = (-9819/256) :=
    binary32_val_neg _ _ 10054656 (-18) (by norm_num) (by norm_num) (Or.inr (by norm_num)) (by
      norm_num) (by norm_num) (by norm_num) (by norm_num)
  have h3 : binary32 ((-1453/128) * (-1453/128)) = (2111209/16384) :=
    binary32_val_pos _ _ 8444836 (-16) (by norm_num) (by norm_num) (Or.inr (by norm_num)) (by
      norm_num) (by norm_num) (by norm_num) (by norm_num)
  have h4 : binary32 ((-9819/256) * (-9819/256)) = (12051595/8192) :=
    binary32_val_pos _ _ 12051595 (-13) (by norm_num) (by norm_num) (Or.inr (by norm_num)) (by
      norm_num) (by norm_num) (by norm_num) (by norm_num)
  have h5 : binary32 ((2111209/16384) + (12051595/8192)) = 1600 :=
    binary32_val_tie_pos _ _ 13107200 (-13) (by norm_num) (by norm_num) (Or.inr (by norm_num)) (by
      norm_num) (by norm_num) (by decide) (Or.inr (by norm_num))
  have h6 : binary32 (Real.sqrt 1600) = 40 :=
    binary32_sqrt_val _ _ 32 64 10485760 (-18) (by norm_num) (by norm_num) (by norm_num) (by
      norm_num) (by norm_num) (by norm_num) (by norm_num) (by norm_num) (by norm_num)
  simp only [Single.Vector2Distance, Single.fadd, Single.fsub, Single.fmul, Single.fdiv,
    Single.sqrtf, h1, h2, h3, h4, h5, h6]

theorem under_threshold_distance_second :
    Single.Vector2Distance (⟨0, 0⟩ : Vector2) (⟨0, 200⟩ : Vector2) = 200 := by
  have h1 : binary32 (0 - 0) = 0 :=
    binary32_val_zero _ (by norm_num)
  have h2 : binary32 (0 - 200) = (-200) :=
    binary32_val_neg _ _ 13107200 (-16) (by norm_num) (by norm_num) (Or.inr (by norm_num)) (by
      norm_num) (by norm_num) (by norm_num) (by norm_num)
  have h3 : binary32 (0 * 0) = 0 :=
    binary32_val_zero _ (by norm_num)
  have h4 : binary32 ((-200) * (-200)) = 40000 :=
    binary32_val_pos _ _ 10240000 (-8) (by norm_num) (by norm_num) (Or.inr (by norm_num)) (by
      norm_num) (by norm_num) (by norm_num) (by norm_num)
  have h5 : binary32 (0 + 40000) = 40000 :=
    binary32_val_pos _ _ 10240000 (-8) (by norm_num) (by norm_num) (Or.inr (by norm_num)) (by
      norm_num) (by norm_num) (by norm_num) (by norm_num)
  have h6 : binary32 (Real.sqrt 40000) = 200 :=
    binary32_sqrt_val _ _ 128 256 13107200 (-16) (by norm_num) (by norm_num) (by norm_num) (by
      norm_num) (by norm_num) (by norm_num) (by norm_num) (by norm_num) (by norm_num)
  simp only [Single.Vector2Distance, Single.fadd, Single.fsub, Single.fmul, Single.fdiv,
    Single.sqrtf, h1, h2, h3, h4, h5, h6]

theorem under_threshold_neighbours :
    Single.local_neighbours under_threshold 0
      = [items under_threshold 1, items under_threshold 2] := by
  rw [single_local_neighbours_eq_filter]
  simp [under_threshold, List.range_succ, List.filter_cons, items_cons_zero, items_cons_succ,
    under_threshold_overlap_first, under_threshold_overlap_second]

theorem under_threshold_far :
    ∀ n ∈ Single.local_neighbours under_threshold 0,
      ¬ (0 < Single.Vector2Distance (items under_threshold 0).center n.center
        ∧ Single.Vector2Distance (items under_threshold 0).center n.center < 40) := by
  intro n hn
  rw [under_threshold_neighbours] at hn
  simp only [List.mem_cons, List.mem_singleton, List.mem_nil_iff, or_false] at hn
  rcases hn with h | h <;> rw [h] <;>
    simp only [under_threshold, items_cons_zero, items_cons_succ,
      under_threshold_distance_first, under_threshold_distance_second] <;> norm_num

/-- C17, counterexample: in `under_threshold` the first boid has two neighbours,
and the second boid is at distance `sqrt 1599.99995`, strictly between `0` and
`40`, from it; but `Vector2Distance` computes `40.0f`, the neighbour adds nothing
to the repulsion, and `separation` leaves the first boid as it is. -/
theorem under_threshold_ignored :
    Single.local_neighbours under_threshold 0
        = [items under_threshold 1, items under_threshold 2]
      ∧ 0 < Vector2Distance (items under_threshold 0).center (items under_threshold 1).center
      ∧ Vector2Distance (items under_threshold 0).center (items under_threshold 1).center < 40
      ∧ Single.Vector2Distance (items under_threshold 0).center
          (items under_threshold 1).center = 40
      ∧ (∀ acc : Boids × Vector2,
          Single.separation_accum (items under_threshold 0).center (items under_threshold 1) acc
            = acc)
      ∧ items (Single.separation under_threshold) 0 = items under_threshold 0 := by
  have hd : Single.Vector2Distance (items under_threshold 0).center
      (items under_threshold 1).center = 40 := under_threshold_distance_first
  refine ⟨under_threshold_neighbours, ?_, ?_, hd, ?_, ?_⟩
  · simp only [under_threshold, items_cons_zero, items_cons_succ, Vector2Distance]
    apply Real.sqrt_pos.mpr
    norm_num
  · simp only [under_threshold, items_cons_zero, items_cons_succ, Vector2Distance]
    rw [Real.sqrt_lt' (by norm_num)]
    norm_num
  · intro acc
    apply single_separation_accum_far
    rw [hd]
    norm_num
  · rw [single_separation_items _ 0 (by decide),
      single_separation_close_none _ _ under_threshold_far]
    simp

end

end BoidsSim
